import Mathlib

/-! # Laundry service API: order lifecycle, checkout and cart

A shallow embedding of the controllers in `src/controllers/orderController.js`,
`src/controllers/cartController.js`, `src/controllers/paymentController.js` and
`src/controllers/feedbackController.js` together with the schemas in
`src/models/`.

Modelling conventions

* A collection is a list of documents.  The `_id` of an order or a payment is
  its position in its collection (orders and payments are only ever appended
  or overwritten in place, never removed).  Users, packages and feedbacks
  carry an explicit `id`, carts are looked up by their `user`.
* JavaScript numbers are modelled by `Int`, dates by `Nat`: prices and
  quantities are taken to be integers whose sums and products stay below
  `2^53` in absolute value, where the arithmetic of doubles is exact.
* A value that may be `undefined` in the handler is an `Option`; `none` is
  `undefined`.  Schema defaults are applied when a document is created, and
  the default of the order status also when an order is loaded
  (`Order.findById`, `getOrders`): an order stored without `status` is read
  with status `pending`.
* A handler is a function from the store and the request to the new store and
  the reply.  `Reply.json` is `res.status(code).json({ success: true, data })`,
  `Reply.fail` is `res.status(code).json({ success: false, error })` and
  `Reply.next` is the `catch` branch `next(err)`.
* `create` and `save` validate the whole document against its schema and
  throw a validation error when it does not conform.
* A handler that does not write (`getOrders`, `getOrder`) is a function to its
  reply.  A populated reference is the referenced document, or `none` when
  there is none.
* Handlers run one at a time, except in the section on concurrent `addToCart`
  calls, where one call is split at its `await`s.
* Payload fields without validators that no handler branches on
  (`deliveryAddress`, `deliveryInstructions`, card details, timestamps added
  by the schema options) are left out.
-/

namespace Laundry

/-! ## Replies and errors -/

/-- Errors a handler can throw into its `catch` block. -/
inductive Err where
  /-- property access on `null` or `undefined` -/
  | typeError
  /-- schema validation failed in `create` or `save` -/
  | validationError
  /-- any other failure raised by the payment gateway -/
  | upstream (message : String)
  deriving DecidableEq, Repr

/-- What a handler sends back. -/
inductive Reply (α : Type) where
  | json (code : Nat) (data : α)
  | fail (code : Nat) (error : String)
  | next (err : Err)
  deriving DecidableEq, Repr

/-! ## Documents (src/models) -/

/-- The authenticated caller, `req.user`. -/
structure Actor where
  id : Nat
  role : String
  deriving DecidableEq, Repr

/-- A user document as far as the controllers read it. -/
structure User where
  id : Nat
  role : String
  deriving DecidableEq, Repr

/-- A package document as far as the controllers read it (`models/Package.js`). -/
structure Package where
  id : Nat
  price : Int
  deriving DecidableEq, Repr

/-- A cart line (`models/Cart.js`, `items`). -/
structure CartItem where
  package : Nat
  quantity : Int
  deriving DecidableEq, Repr

/-- A cart document (`models/Cart.js`). -/
structure Cart where
  user : Nat
  items : List CartItem
  deriving DecidableEq, Repr

/-- An order line (`models/Order.js`, `items`). -/
structure OrderItem where
  package : Nat
  quantity : Int
  price : Int
  deriving DecidableEq, Repr

/-- An entry of `statusHistory` (`models/Order.js`). -/
structure StatusEntry where
  status : Option String
  timestamp : Nat
  updatedBy : Nat
  deriving DecidableEq, Repr

/-- An order document (`models/Order.js`). -/
structure Order where
  user : Nat
  items : List OrderItem
  totalAmount : Int
  status : Option String
  paymentStatus : String
  paymentMethod : String
  paymentId : Option Nat
  pickupDate : Option Nat
  deliveryDate : Option Nat
  assignedWorker : Option Nat
  assignedDeliverer : Option Nat
  statusHistory : List StatusEntry
  deriving DecidableEq, Repr

/-- A payment document (`models/Payment.js`). -/
structure Payment where
  order : Nat
  user : Nat
  amount : Int
  paymentMethod : String
  status : String
  transactionId : Option String
  paymentGateway : String
  deriving DecidableEq, Repr

/-- The `adminResponse` of a feedback document (`models/Feedback.js`). -/
structure AdminResponse where
  comment : Option String
  respondedAt : Nat
  respondedBy : Nat
  deriving DecidableEq, Repr

/-- A feedback document (`models/Feedback.js`); `id` is its `_id`. -/
structure Feedback where
  id : Nat
  user : Nat
  order : Nat
  rating : Option Int
  comment : Option String
  serviceQuality : Option Int
  punctuality : Option Int
  staffBehavior : Option Int
  isPublic : Bool
  adminResponse : Option AdminResponse
  deriving DecidableEq, Repr

/-- The persistent state: one list per collection; `feedbackSeq` is the next
unused feedback `_id`. -/
structure Store where
  users : List User := []
  packages : List Package := []
  carts : List Cart := []
  orders : List Order := []
  payments : List Payment := []
  feedbacks : List Feedback := []
  feedbackSeq : Nat := 0
  deriving DecidableEq, Repr

/-! ## Schema validation -/

/-- The `enum` of `status` and of `statusHistory.status` in `OrderSchema`. -/
def statusEnum : List String :=
  ["pending", "confirmed", "picked-up", "processing", "ready-for-delivery",
   "out-for-delivery", "delivered", "cancelled"]

/-- The `enum` of `paymentStatus` in `OrderSchema`. -/
def paymentStatusEnum : List String := ["pending", "paid", "failed", "refunded"]

/-- The `enum` of `paymentMethod` in `OrderSchema` and `PaymentSchema`. -/
def paymentMethodEnum : List String :=
  ["credit-card", "debit-card", "cash-on-delivery", "wallet"]

/-- The `enum` of `status` in `PaymentSchema`. -/
def paymentRecordStatusEnum : List String :=
  ["pending", "successful", "failed", "refunded"]

/-- The enum validator of a string path: an unset value passes, a set value
must be one of the listed ones. -/
def enumValidator (values : List String) : Option String → Bool
  | none => true
  | some v => decide (v ∈ values)

/-- Validation of a cart against `CartSchema`: every line has `quantity ≥ 1`. -/
def CartSchema.validate (c : Cart) : Bool :=
  c.items.all (fun it => decide (1 ≤ it.quantity))

/-- Validation of an order against `OrderSchema`: line quantities at least 1,
the three enums, the two required dates, the enum of every history entry. -/
def OrderSchema.validate (o : Order) : Bool :=
  o.items.all (fun it => decide (1 ≤ it.quantity))
    && enumValidator statusEnum o.status
    && decide (o.paymentStatus ∈ paymentStatusEnum)
    && decide (o.paymentMethod ∈ paymentMethodEnum)
    && o.pickupDate.isSome
    && o.deliveryDate.isSome
    && o.statusHistory.all (fun e => enumValidator statusEnum e.status)

/-- Validation of a payment against `PaymentSchema`. -/
def PaymentSchema.validate (p : Payment) : Bool :=
  decide (p.paymentMethod ∈ paymentMethodEnum)
    && decide (p.status ∈ paymentRecordStatusEnum)

/-- The `min: 1`, `max: 5` validators of an optional rating path: an unset value
passes. -/
def ratingValidator : Option Int → Bool
  | none => true
  | some r => decide (1 ≤ r) && decide (r ≤ 5)

/-- The `length` of a JavaScript string, which the `maxlength` validator
compares: the number of UTF-16 code units, two for every character outside the
basic multilingual plane. -/
def jsLength (str : String) : Nat :=
  (str.toList.map (fun c => if c.toNat < 65536 then 1 else 2)).sum

/-- Validation of a feedback against `FeedbackSchema`: `rating` required and
between 1 and 5, `comment` required (a non-empty string) of `length` at most
500, the three optional ratings between 1 and 5. -/
def FeedbackSchema.validate (f : Feedback) : Bool :=
  f.rating.isSome && ratingValidator f.rating
    && (match f.comment with
        | none => false
        | some c => decide (c ≠ "") && decide (jsLength c ≤ 500))
    && ratingValidator f.serviceQuality
    && ratingValidator f.punctuality
    && ratingValidator f.staffBehavior

/-! ## Collection primitives -/

/-- `User.findById(id)`: the first user document with that id. -/
def User.findById (users : List User) (id : Nat) : Option User :=
  users.find? (fun u => decide (u.id = id))

/-- `Package.findById(id)`: the first package document with that id. -/
def Package.findById (packages : List Package) (id : Nat) : Option Package :=
  packages.find? (fun p => decide (p.id = id))

/-- The schema defaults applied to an order when it is loaded: a stored order
without `status` is read with status `pending` (`default: 'pending'`). -/
def Order.applyDefaults (order : Order) : Order :=
  { order with status := some (order.status.getD "pending") }

/-- `Order.findById(id)`: the stored order, loaded with the schema defaults. -/
def Order.findById (s : Store) (id : Nat) : Option Order :=
  match s.orders[id]? with
  | none => none
  | some order => some order.applyDefaults

/-- `order.save()` for the order loaded from position `id`. -/
def Order.save (s : Store) (id : Nat) (order : Order) : Except Err Store :=
  if OrderSchema.validate order then
    .ok { s with orders := s.orders.set id order }
  else
    .error .validationError

/-- `Order.create(doc)`. -/
def Order.create (s : Store) (order : Order) : Except Err Store :=
  if OrderSchema.validate order then
    .ok { s with orders := s.orders ++ [order] }
  else
    .error .validationError

/-- `Payment.findById(id)`. -/
def Payment.findById (s : Store) (id : Nat) : Option Payment :=
  s.payments[id]?

/-- `payment.save()` for the payment loaded from position `id`. -/
def Payment.save (s : Store) (id : Nat) (payment : Payment) : Except Err Store :=
  if PaymentSchema.validate payment then
    .ok { s with payments := s.payments.set id payment }
  else
    .error .validationError

/-- `Payment.create(doc)`. -/
def Payment.create (s : Store) (payment : Payment) : Except Err Store :=
  if PaymentSchema.validate payment then
    .ok { s with payments := s.payments ++ [payment] }
  else
    .error .validationError

/-- `Cart.findOne({ user })`: position and contents of the first cart of that
user. -/
def Cart.findOne (s : Store) (user : Nat) : Option (Nat × Cart) :=
  match s.carts.findIdx? (fun c => decide (c.user = user)) with
  | none => none
  | some i =>
    match s.carts[i]? with
    | none => none
    | some c => some (i, c)

/-- `cart.save()` for the cart loaded from position `i`. -/
def Cart.save (s : Store) (i : Nat) (cart : Cart) : Except Err Store :=
  if CartSchema.validate cart then
    .ok { s with carts := s.carts.set i cart }
  else
    .error .validationError

/-- `Cart.create(doc)`. -/
def Cart.create (s : Store) (cart : Cart) : Except Err Store :=
  if CartSchema.validate cart then
    .ok { s with carts := s.carts ++ [cart] }
  else
    .error .validationError

/-- `Cart.findOneAndUpdate({ user }, { $set: { items } })`: overwrites the item
list of the first cart of that user, without validation; no cart, no change. -/
def Cart.findOneAndUpdate (s : Store) (user : Nat) (items : List CartItem) : Store :=
  match Cart.findOne s user with
  | none => s
  | some (i, c) => { s with carts := s.carts.set i { c with items := items } }

/-- `Feedback.findOne({ user, order })`: the first feedback of that user for
that order. -/
def Feedback.findOne (s : Store) (user : Nat) (order : Nat) : Option Feedback :=
  s.feedbacks.find? (fun f => decide (f.user = user) && decide (f.order = order))

/-- `Feedback.create(doc)`; the document carries the fresh `_id`. -/
def Feedback.create (s : Store) (feedback : Feedback) : Except Err Store :=
  if FeedbackSchema.validate feedback then
    .ok { s with feedbacks := s.feedbacks ++ [feedback], feedbackSeq := s.feedbackSeq + 1 }
  else
    .error .validationError

/-- `order.assignedWorker.toString()` and its like: throws on an unset field. -/
def idToString : Option Nat → Except Err Nat
  | some v => .ok v
  | none => .error .typeError

/-! ## Order controller (src/controllers/orderController.js) -/

/-- The query string of `GET /api/orders`: `status`; the comparison of two
stored documents (position and contents) that the `sort` string denotes; `page`
and `limit` as `parseInt` reads them, `none` being `NaN`. -/
structure OrdersQuery where
  status : Option String
  sort : Option (Nat × Order → Nat × Order → Bool)
  page : Option Int
  limit : Option Int

/-- The body of the reply of `getOrders`: `count`, `pagination.next` and
`pagination.prev` (page and limit), and `data`, every order with its `_id`. -/
structure OrdersPage where
  count : Nat
  next : Option (Int × Int)
  prev : Option (Int × Int)
  data : List (Nat × Order)
  deriving DecidableEq, Repr

/-- The stored orders that match the filter of an `Order.find(filter)` query,
each with its `_id`, in the order of their creation. -/
def Order.find (s : Store) (filter : Order → Bool) : List (Nat × Order) :=
  s.orders.enum.filter (fun d => filter d.2)

/-- The filter `getOrders` opens its query with, chosen by the caller's role. -/
def getOrders.scope (user : Actor) (order : Order) : Bool :=
  if user.role = "admin" ∨ user.role = "manager" then
    true
  else if user.role = "worker" then
    decide (order.assignedWorker = some user.id)
  else if user.role = "deliverer" then
    decide (order.assignedDeliverer = some user.id)
  else
    decide (order.user = user.id)

/-- The filter `{ status: req.query.status }`, added to the query when
`req.query.status` is truthy, that is a non-empty string. -/
def getOrders.statusFilter (status : Option String) (order : Order) : Bool :=
  match status with
  | none => true
  | some st => if st = "" then true else decide (order.status = some st)

/-- The value of `parseInt(req.query.page, 10) || 1`. -/
def getOrders.page (q : OrdersQuery) : Int :=
  match q.page with
  | none => 1
  | some page => if page = 0 then 1 else page

/-- The value of `parseInt(req.query.limit, 10) || 10`. -/
def getOrders.limit (q : OrdersQuery) : Int :=
  match q.limit with
  | none => 10
  | some limit => if limit = 0 then 10 else limit

/-- The documents of the query of `getOrders` before `skip` and `limit`: the
stored orders that match the filters, sorted as asked, by default the newest
first (`-createdAt`), each loaded with the schema defaults. -/
def getOrders.sorted (s : Store) (user : Actor) (q : OrdersQuery) : List (Nat × Order) :=
  let found := Order.find s
    (fun order => getOrders.scope user order && getOrders.statusFilter q.status order)
  let sorted :=
    match q.sort with
    | some sortBy => found.insertionSort (fun a b => sortBy a b = true)
    | none => found.reverse
  sorted.map (fun d => (d.1, d.2.applyDefaults))

/-- `exports.getOrders`.  The handler does not write; its reply is the result.
`countDocuments(query)` counts the documents that match the conditions of
`query`; a negative `skip` is refused by the database, a negative `limit` is
read as its absolute value. -/
def getOrders (s : Store) (user : Actor) (q : OrdersQuery) : Reply OrdersPage :=
  let page := getOrders.page q
  let limit := getOrders.limit q
  let startIndex := (page - 1) * limit
  let endIndex := page * limit
  let total : Int :=
    (Order.find s
      (fun order => getOrders.scope user order && getOrders.statusFilter q.status order)).length
  if startIndex < 0 then
    .next (.upstream "Skip value must be non-negative")
  else
    let orders := ((getOrders.sorted s user q).drop startIndex.toNat).take limit.natAbs
    .json 200
      { count := orders.length
        next := if endIndex < total then some (page + 1, limit) else none
        prev := if startIndex > 0 then some (page - 1, limit) else none
        data := orders }

/-- The condition of the authorisation `if` of `getOrder`, evaluated left to
right with short-circuiting `&&`, on the populated order: `owner`, `worker` and
`deliverer` are the user documents that `populate` put in place of `order.user`,
`order.assignedWorker` and `order.assignedDeliverer`, `none` where the field is
unset or names no user.  `true` means the 403 branch is taken; reading `_id` of
a missing owner throws. -/
def getOrder.notAuthorized (user : Actor) (owner worker deliverer : Option User) :
    Except Err Bool :=
  if user.role ≠ "admin" then
    if user.role ≠ "manager" then
      match owner with
      | none => .error .typeError
      | some o =>
        if o.id ≠ user.id then
          match worker with
          | none => .ok false
          | some w =>
            if w.id ≠ user.id then
              match deliverer with
              | none => .ok false
              | some d => .ok (decide (d.id ≠ user.id))
            else .ok false
        else .ok false
    else .ok false
  else .ok false

/-- `exports.getOrder`.  The handler does not write; its reply is the result. -/
def getOrder (s : Store) (user : Actor) (id : Nat) : Reply Order :=
  match Order.findById s id with
  | none => .fail 404 "Order not found"
  | some order =>
    let owner := User.findById s.users order.user
    let worker := order.assignedWorker.bind (User.findById s.users)
    let deliverer := order.assignedDeliverer.bind (User.findById s.users)
    match getOrder.notAuthorized user owner worker deliverer with
    | .error e => .next e
    | .ok true => .fail 403 "Not authorized to access this order"
    | .ok false => .json 200 order

/-- The body of `POST /api/orders` as far as it is validated. -/
structure OrderRequest where
  pickupDate : Option Nat
  deliveryDate : Option Nat
  paymentMethod : Option String
  deriving DecidableEq, Repr

/-- The `populate('items.package')` of a cart: every line with its package
document, or `none` where the catalog has no such package. -/
def populate (packages : List Package) (items : List CartItem) :
    List (CartItem × Option Package) :=
  items.map (fun it => (it, Package.findById packages it.package))

/-- The `cart.items.map(...)` of `createOrder`: builds the order lines from left
to right while adding each line total to the running `totalAmount`; reading
`price` of a missing package throws. -/
def orderItems : List (CartItem × Option Package) → Int → Except Err (List OrderItem × Int)
  | [], totalAmount => .ok ([], totalAmount)
  | (_, none) :: _, _ => .error .typeError
  | (item, some pkg) :: rest, totalAmount =>
    let itemTotal := pkg.price * item.quantity
    match orderItems rest (totalAmount + itemTotal) with
    | .error e => .error e
    | .ok (lines, total) =>
      .ok ({ package := pkg.id, quantity := item.quantity, price := pkg.price } :: lines, total)

/-- The document `createOrder` hands to `Order.create`, with the schema defaults
of `status`, `paymentStatus` and (when the request names none) `paymentMethod`
filled in. -/
def createOrder.document (user : Actor) (req : OrderRequest) (now : Nat)
    (orderItems : List OrderItem) (totalAmount : Int) : Order :=
  { user := user.id
    items := orderItems
    totalAmount := totalAmount
    status := some "pending"
    paymentStatus := "pending"
    paymentMethod := req.paymentMethod.getD "credit-card"
    paymentId := none
    pickupDate := req.pickupDate
    deliveryDate := req.deliveryDate
    assignedWorker := none
    assignedDeliverer := none
    statusHistory := [{ status := some "pending", timestamp := now, updatedBy := user.id }] }

/-- `exports.createOrder`. -/
def createOrder (s : Store) (user : Actor) (req : OrderRequest) (now : Nat) :
    Store × Reply Order :=
  match Cart.findOne s user.id with
  | none => (s, .fail 400 "Your cart is empty")
  | some (_, cart) =>
    if cart.items.length = 0 then
      (s, .fail 400 "Your cart is empty")
    else
      match orderItems (populate s.packages cart.items) 0 with
      | .error e => (s, .next e)
      | .ok (items, totalAmount) =>
        let order : Order := createOrder.document user req now items totalAmount
        match Order.create s order with
        | .error e => (s, .next e)
        | .ok s1 => (Cart.findOneAndUpdate s1 user.id [], .json 201 order)

/-- The two writes of a status change, `order.status = status` followed by
`order.statusHistory.push({ status, timestamp, updatedBy })`. -/
def Order.withStatus (order : Order) (status : Option String) (now : Nat) (updatedBy : Nat) :
    Order :=
  { order with
    status := status
    statusHistory :=
      order.statusHistory ++ [{ status := status, timestamp := now, updatedBy := updatedBy }] }

/-- The condition of the authorisation `if` of `updateOrderStatus`, evaluated
left to right with short-circuiting `&&`; `true` means the 403 branch is taken. -/
def updateOrderStatus.notAuthorized (user : Actor) (order : Order) : Except Err Bool :=
  if user.role ≠ "admin" then
    if user.role ≠ "manager" then
      if user.role = "worker" then
        match idToString order.assignedWorker with
        | .error e => .error e
        | .ok w =>
          if w ≠ user.id then
            if user.role = "deliverer" then
              match idToString order.assignedDeliverer with
              | .error e => .error e
              | .ok d => .ok (decide (d ≠ user.id))
            else .ok false
          else .ok false
      else .ok false
    else .ok false
  else .ok false

/-- `exports.updateOrderStatus`; `status` is `req.body.status`. -/
def updateOrderStatus (s : Store) (user : Actor) (id : Nat) (status : Option String)
    (now : Nat) : Store × Reply Order :=
  match Order.findById s id with
  | none => (s, .fail 404 "Order not found")
  | some order =>
    match updateOrderStatus.notAuthorized user order with
    | .error e => (s, .next e)
    | .ok true => (s, .fail 403 "Not authorized to update this order")
    | .ok false =>
      let order1 : Order := order.withStatus status now user.id
      match Order.save s id order1 with
      | .error e => (s, .next e)
      | .ok s1 => (s1, .json 200 order1)

/-- `exports.assignWorker`. -/
def assignWorker (s : Store) (id : Nat) (workerId : Nat) : Store × Reply Order :=
  match User.findById s.users workerId with
  | none => (s, .fail 404 "Worker not found")
  | some worker =>
    if worker.role ≠ "worker" then
      (s, .fail 404 "Worker not found")
    else
      match Order.findById s id with
      | none => (s, .fail 404 "Order not found")
      | some order =>
        let order1 : Order := { order with assignedWorker := some workerId }
        match Order.save s id order1 with
        | .error e => (s, .next e)
        | .ok s1 => (s1, .json 200 order1)

/-- `exports.assignDeliverer`. -/
def assignDeliverer (s : Store) (id : Nat) (delivererId : Nat) : Store × Reply Order :=
  match User.findById s.users delivererId with
  | none => (s, .fail 404 "Deliverer not found")
  | some deliverer =>
    if deliverer.role ≠ "deliverer" then
      (s, .fail 404 "Deliverer not found")
    else
      match Order.findById s id with
      | none => (s, .fail 404 "Order not found")
      | some order =>
        let order1 : Order := { order with assignedDeliverer := some delivererId }
        match Order.save s id order1 with
        | .error e => (s, .next e)
        | .ok s1 => (s1, .json 200 order1)

/-- `exports.cancelOrder`. -/
def cancelOrder (s : Store) (user : Actor) (id : Nat) (now : Nat) : Store × Reply Order :=
  match Order.findById s id with
  | none => (s, .fail 404 "Order not found")
  | some order =>
    if order.user ≠ user.id ∧ user.role ≠ "admin" then
      (s, .fail 403 "Not authorized to cancel this order")
    else if order.status ≠ some "pending" ∧ order.status ≠ some "confirmed" then
      (s, .fail 400 "Order cannot be cancelled at this stage")
    else
      let order1 : Order := order.withStatus (some "cancelled") now user.id
      match Order.save s id order1 with
      | .error e => (s, .next e)
      | .ok s1 => (s1, .json 200 order1)

/-! ## Payment controller (src/controllers/paymentController.js) -/

/-- Outcome of `stripe.paymentIntents.create`: the intent id, a thrown
`StripeCardError` with its message, or any other thrown error. -/
inductive Charge where
  | intent (id : String)
  | cardError (message : String)
  | failed (message : String)
  deriving DecidableEq, Repr

/-- `exports.processPayment`; `stripe` is the gateway, called with the amount in
cents. -/
def processPayment (s : Store) (user : Actor) (orderId : Nat) (stripe : Int → Charge)
    (now : Nat) : Store × Reply (Payment × Order) :=
  match Order.findById s orderId with
  | none => (s, .fail 404 "Order not found")
  | some order =>
    if order.user ≠ user.id then
      (s, .fail 403 "Not authorized to process payment for this order")
    else if order.paymentStatus = "paid" then
      (s, .fail 400 "Order is already paid")
    else
      match stripe (order.totalAmount * 100) with
      | .cardError message => (s, .fail 400 message)
      | .failed message => (s, .next (.upstream message))
      | .intent transactionId =>
        let payment : Payment :=
          { order := orderId
            user := user.id
            amount := order.totalAmount
            paymentMethod := "credit-card"
            status := "successful"
            transactionId := some transactionId
            paymentGateway := "stripe" }
        match Payment.create s payment with
        | .error e => (s, .next e)
        | .ok s1 =>
          let order1 : Order :=
            { order with paymentStatus := "paid", paymentId := some s.payments.length }
          let order2 : Order :=
            if order1.status = some "pending" then
              order1.withStatus (some "confirmed") now user.id
            else order1
          match Order.save s1 orderId order2 with
          | .error e => (s1, .next e)
          | .ok s2 => (s2, .json 200 (payment, order2))

/-- `exports.createCashOnDeliveryPayment`. -/
def createCashOnDeliveryPayment (s : Store) (user : Actor) (orderId : Nat) (now : Nat) :
    Store × Reply (Payment × Order) :=
  match Order.findById s orderId with
  | none => (s, .fail 404 "Order not found")
  | some order =>
    if order.user ≠ user.id then
      (s, .fail 403 "Not authorized to process payment for this order")
    else if order.paymentStatus ≠ "pending" then
      (s, .fail 400 "Payment status already updated for this order")
    else
      let payment : Payment :=
        { order := orderId
          user := user.id
          amount := order.totalAmount
          paymentMethod := "cash-on-delivery"
          status := "pending"
          transactionId := none
          paymentGateway := "cash" }
      match Payment.create s payment with
      | .error e => (s, .next e)
      | .ok s1 =>
        let order1 : Order :=
          { order with paymentMethod := "cash-on-delivery", paymentId := some s.payments.length }
        let order2 : Order :=
          if order1.status = some "pending" then
            order1.withStatus (some "confirmed") now user.id
          else order1
        match Order.save s1 orderId order2 with
        | .error e => (s1, .next e)
        | .ok s2 => (s2, .json 200 (payment, order2))

/-- `exports.markCashPaymentAsPaid`. -/
def markCashPaymentAsPaid (s : Store) (paymentId : Nat) : Store × Reply Payment :=
  match Payment.findById s paymentId with
  | none => (s, .fail 404 "Payment not found")
  | some payment =>
    if payment.paymentMethod ≠ "cash-on-delivery" then
      (s, .fail 400 "Only cash on delivery payments can be manually marked as paid")
    else
      let payment1 : Payment := { payment with status := "successful" }
      match Payment.save s paymentId payment1 with
      | .error e => (s, .next e)
      | .ok s1 =>
        match Order.findById s1 payment1.order with
        | none => (s1, .next .typeError)
        | some order =>
          let order1 : Order := { order with paymentStatus := "paid" }
          match Order.save s1 payment1.order order1 with
          | .error e => (s1, .next e)
          | .ok s2 => (s2, .json 200 payment1)

/-! ## Cart controller (src/controllers/cartController.js) -/

/-- The `cart.items.reduce(...)` that computes the total of a populated cart;
reading `price` of a missing package throws. -/
def cartTotal : List (CartItem × Option Package) → Int → Except Err Int
  | [], acc => .ok acc
  | (_, none) :: _, _ => .error .typeError
  | (item, some pkg) :: rest, acc => cartTotal rest (acc + pkg.price * item.quantity)

/-- The tail shared by the cart handlers: reload the caller's cart with
populated packages, compute the total and reply 200 with both. -/
def cartReply (s : Store) (user : Actor) : Store × Reply (Cart × Int) :=
  match Cart.findOne s user.id with
  | none => (s, .next .typeError)
  | some (_, cart) =>
    match cartTotal (populate s.packages cart.items) 0 with
    | .error e => (s, .next e)
    | .ok totalAmount => (s, .json 200 (cart, totalAmount))

/-- `exports.getCart`. -/
def getCart (s : Store) (user : Actor) : Store × Reply (Cart × Int) :=
  match Cart.findOne s user.id with
  | some _ => cartReply s user
  | none =>
    match Cart.create s { user := user.id, items := [] } with
    | .error e => (s, .next e)
    | .ok s1 => cartReply s1 user

/-- `exports.addToCart`; `quantity` is `req.body.quantity`, 1 when absent. -/
def addToCart (s : Store) (user : Actor) (packageId : Nat) (quantity : Option Int) :
    Store × Reply (Cart × Int) :=
  let quantity := quantity.getD 1
  match Package.findById s.packages packageId with
  | none => (s, .fail 404 "Package not found")
  | some _ =>
    let saved : Except Err Store :=
      match Cart.findOne s user.id with
      | none => Cart.create s { user := user.id, items := [{ package := packageId, quantity := quantity }] }
      | some (i, cart) =>
        match cart.items.findIdx? (fun item => decide (item.package = packageId)) with
        | some itemIndex =>
          Cart.save s i
            { cart with
              items := cart.items.modify
                (fun item => { item with quantity := item.quantity + quantity }) itemIndex }
        | none =>
          Cart.save s i
            { cart with items := cart.items ++ [{ package := packageId, quantity := quantity }] }
    match saved with
    | .error e => (s, .next e)
    | .ok s1 => cartReply s1 user

/-- `exports.updateCartItem`; an absent `quantity` passes the `quantity < 1` test
and is then rejected by the `required` validator on save. -/
def updateCartItem (s : Store) (user : Actor) (packageId : Nat) (quantity : Option Int) :
    Store × Reply (Cart × Int) :=
  if (match quantity with | some q => decide (q < 1) | none => false) then
    (s, .fail 400 "Quantity must be at least 1")
  else
    match Cart.findOne s user.id with
    | none => (s, .fail 404 "Cart not found")
    | some (i, cart) =>
      match cart.items.findIdx? (fun item => decide (item.package = packageId)) with
      | none => (s, .fail 404 "Item not found in cart")
      | some itemIndex =>
        match quantity with
        | none => (s, .next .validationError)
        | some q =>
          match Cart.save s i
              { cart with
                items := cart.items.modify (fun item => { item with quantity := q }) itemIndex } with
          | .error e => (s, .next e)
          | .ok s1 => cartReply s1 user

/-- `exports.removeFromCart`. -/
def removeFromCart (s : Store) (user : Actor) (packageId : Nat) : Store × Reply (Cart × Int) :=
  match Cart.findOne s user.id with
  | none => (s, .fail 404 "Cart not found")
  | some (i, cart) =>
    match Cart.save s i
        { cart with items := cart.items.filter (fun item => decide (item.package ≠ packageId)) } with
    | .error e => (s, .next e)
    | .ok s1 => cartReply s1 user

/-- `exports.clearCart`. -/
def clearCart (s : Store) (user : Actor) : Store × Reply (Cart × Int) :=
  match Cart.findOne s user.id with
  | none => (s, .fail 404 "Cart not found")
  | some (i, cart) =>
    let cart1 : Cart := { cart with items := [] }
    match Cart.save s i cart1 with
    | .error e => (s, .next e)
    | .ok s1 => (s1, .json 200 (cart1, 0))

/-! ## Concurrent `addToCart` calls

The handler gives way to other requests at each `await`.  Between two of them
it runs undisturbed, so one call is a sequence of four moves: look up the
package, load the cart, write the cart, reload it and reply. -/

/-- Where one `addToCart` call stands. -/
inductive addToCart.Pc where
  /-- before `Package.findById` -/
  | start
  /-- the package exists; before `Cart.findOne` -/
  | checked
  /-- holds the result of `Cart.findOne`; before `Cart.create` or `cart.save()` -/
  | loaded (cart : Option (Nat × Cart))
  /-- the cart is written; before the reload -/
  | saved
  /-- the reply is sent -/
  | replied (reply : Reply (Cart × Int))
  deriving DecidableEq, Repr

/-- The write of `addToCart` for the cart it has loaded: `Cart.create` when
there was none, otherwise the loaded document with the line raised or pushed,
saved. -/
def addToCart.write (s : Store) (user : Actor) (packageId : Nat) (quantity : Int)
    (cart : Option (Nat × Cart)) : Except Err Store :=
  match cart with
  | none => Cart.create s { user := user.id, items := [{ package := packageId, quantity := quantity }] }
  | some (i, cart) =>
    match cart.items.findIdx? (fun item => decide (item.package = packageId)) with
    | some itemIndex =>
      Cart.save s i
        { cart with
          items := cart.items.modify
            (fun item => { item with quantity := item.quantity + quantity }) itemIndex }
    | none =>
      Cart.save s i
        { cart with items := cart.items ++ [{ package := packageId, quantity := quantity }] }

/-- One move of an `addToCart` call, from one `await` to the next. -/
def addToCart.step (user : Actor) (packageId : Nat) (quantity : Option Int) (s : Store) :
    addToCart.Pc → Store × addToCart.Pc
  | .start =>
    match Package.findById s.packages packageId with
    | none => (s, .replied (.fail 404 "Package not found"))
    | some _ => (s, .checked)
  | .checked => (s, .loaded (Cart.findOne s user.id))
  | .loaded cart =>
    match addToCart.write s user packageId (quantity.getD 1) cart with
    | .error e => (s, .replied (.next e))
    | .ok s1 => (s1, .saved)
  | .saved => (s, .replied (cartReply s user).2)
  | .replied reply => (s, .replied reply)

/-- One call run alone: its four moves in a row. -/
def addToCart.alone (user : Actor) (packageId : Nat) (quantity : Option Int) (s : Store) :
    Store × addToCart.Pc :=
  let a := addToCart.step user packageId quantity s .start
  let b := addToCart.step user packageId quantity a.1 a.2
  let c := addToCart.step user packageId quantity b.1 b.2
  addToCart.step user packageId quantity c.1 c.2

/-- Two `addToCart` calls of the same user for the same package and quantity,
interleaved by a schedule: `true` lets the first call make its next move,
`false` the second. -/
def addToCart.interleave (user : Actor) (packageId : Nat) (quantity : Option Int) :
    List Bool → Store × addToCart.Pc × addToCart.Pc → Store × addToCart.Pc × addToCart.Pc
  | [], state => state
  | true :: schedule, (s, first, second) =>
    let r := addToCart.step user packageId quantity s first
    addToCart.interleave user packageId quantity schedule (r.1, r.2, second)
  | false :: schedule, (s, first, second) =>
    let r := addToCart.step user packageId quantity s second
    addToCart.interleave user packageId quantity schedule (r.1, first, r.2)

/-! ## Feedback controller (src/controllers/feedbackController.js) -/

/-- The body of `POST /api/feedback`. -/
structure FeedbackRequest where
  orderId : Nat
  rating : Option Int
  comment : Option String
  serviceQuality : Option Int
  punctuality : Option Int
  staffBehavior : Option Int
  isPublic : Option Bool
  deriving DecidableEq, Repr

/-- The document `createFeedback` hands to `Feedback.create`, with the fresh
`_id`; `isPublic` is true unless the request says otherwise. -/
def createFeedback.document (user : Actor) (req : FeedbackRequest) (id : Nat) : Feedback :=
  { id := id
    user := user.id
    order := req.orderId
    rating := req.rating
    comment := req.comment
    serviceQuality := req.serviceQuality
    punctuality := req.punctuality
    staffBehavior := req.staffBehavior
    isPublic := match req.isPublic with
      | some isPublic => isPublic
      | none => true
    adminResponse := none }

/-- `exports.createFeedback`. -/
def createFeedback (s : Store) (user : Actor) (req : FeedbackRequest) :
    Store × Reply Feedback :=
  match Order.findById s req.orderId with
  | none => (s, .fail 404 "Order not found")
  | some order =>
    if order.user ≠ user.id then
      (s, .fail 403 "Not authorized to create feedback for this order")
    else if order.status ≠ some "delivered" then
      (s, .fail 400 "Cannot provide feedback until order is delivered")
    else
      match Feedback.findOne s user.id req.orderId with
      | some _ => (s, .fail 400 "Feedback already submitted for this order")
      | none =>
        let feedback : Feedback := createFeedback.document user req s.feedbackSeq
        match Feedback.create s feedback with
        | .error e => (s, .next e)
        | .ok s1 => (s1, .json 201 feedback)

/-- `Feedback.findById(id)`: position and contents of the first feedback with
that `_id`. -/
def Feedback.findById (s : Store) (id : Nat) : Option (Nat × Feedback) :=
  match s.feedbacks.findIdx? (fun f => decide (f.id = id)) with
  | none => none
  | some i =>
    match s.feedbacks[i]? with
    | none => none
    | some f => some (i, f)

/-- `feedback.save()` for the feedback loaded from position `i`. -/
def Feedback.save (s : Store) (i : Nat) (feedback : Feedback) : Except Err Store :=
  if FeedbackSchema.validate feedback then
    .ok { s with feedbacks := s.feedbacks.set i feedback }
  else
    .error .validationError

/-- `feedback.deleteOne()` for the feedback loaded from position `i`. -/
def Feedback.deleteOne (s : Store) (i : Nat) : Store :=
  { s with feedbacks := s.feedbacks.eraseIdx i }

/-- The body of `PUT /api/feedback/:id`: the paths of the schema it names, each
with the value it gives. -/
structure FeedbackUpdate where
  user : Option Nat
  order : Option Nat
  rating : Option Int
  comment : Option String
  serviceQuality : Option Int
  punctuality : Option Int
  staffBehavior : Option Int
  isPublic : Option Bool
  adminResponse : Option AdminResponse
  deriving DecidableEq, Repr

/-- The update validators (`runValidators: true`): the validators of the paths
the body names, run on the values it gives. -/
def FeedbackSchema.validateUpdate (body : FeedbackUpdate) : Bool :=
  ratingValidator body.rating
    && (match body.comment with
        | none => true
        | some c => decide (c ≠ "") && decide (jsLength c ≤ 500))
    && ratingValidator body.serviceQuality
    && ratingValidator body.punctuality
    && ratingValidator body.staffBehavior

/-- A feedback document with the paths named by the body set to its values. -/
def FeedbackUpdate.applyTo (body : FeedbackUpdate) (f : Feedback) : Feedback :=
  { f with
    user := body.user.getD f.user
    order := body.order.getD f.order
    rating := match body.rating with
      | some r => some r
      | none => f.rating
    comment := match body.comment with
      | some c => some c
      | none => f.comment
    serviceQuality := match body.serviceQuality with
      | some r => some r
      | none => f.serviceQuality
    punctuality := match body.punctuality with
      | some r => some r
      | none => f.punctuality
    staffBehavior := match body.staffBehavior with
      | some r => some r
      | none => f.staffBehavior
    isPublic := body.isPublic.getD f.isPublic
    adminResponse := match body.adminResponse with
      | some r => some r
      | none => f.adminResponse }

/-- `Feedback.findByIdAndUpdate(id, body, options)` with the options `new` and
`runValidators` set: the new document, or `null` when there is none with that
`_id`. -/
def Feedback.findByIdAndUpdate (s : Store) (id : Nat) (body : FeedbackUpdate) :
    Except Err (Store × Option Feedback) :=
  if FeedbackSchema.validateUpdate body then
    match Feedback.findById s id with
    | none => .ok (s, none)
    | some (i, f) =>
      .ok ({ s with feedbacks := s.feedbacks.set i (body.applyTo f) }, some (body.applyTo f))
  else
    .error .validationError

/-- `exports.updateFeedback`; `body` is `req.body`. -/
def updateFeedback (s : Store) (user : Actor) (id : Nat) (body : FeedbackUpdate) :
    Store × Reply (Option Feedback) :=
  match Feedback.findById s id with
  | none => (s, .fail 404 "Feedback not found")
  | some (_, feedback) =>
    if feedback.user ≠ user.id then
      (s, .fail 403 "Not authorized to update this feedback")
    else
      match Feedback.findByIdAndUpdate s id body with
      | .error e => (s, .next e)
      | .ok (s1, feedback1) => (s1, .json 200 feedback1)

/-- `exports.deleteFeedback`. -/
def deleteFeedback (s : Store) (user : Actor) (id : Nat) : Store × Reply Unit :=
  match Feedback.findById s id with
  | none => (s, .fail 404 "Feedback not found")
  | some (i, feedback) =>
    if feedback.user ≠ user.id ∧ user.role ≠ "admin" then
      (s, .fail 403 "Not authorized to delete this feedback")
    else
      (Feedback.deleteOne s i, .json 200 ())

/-- `exports.respondToFeedback`; `comment` is `req.body.comment`. -/
def respondToFeedback (s : Store) (user : Actor) (id : Nat) (comment : Option String)
    (now : Nat) : Store × Reply Feedback :=
  match Feedback.findById s id with
  | none => (s, .fail 404 "Feedback not found")
  | some (i, feedback) =>
    let feedback1 : Feedback :=
      { feedback with
        adminResponse := some { comment := comment, respondedAt := now, respondedBy := user.id } }
    match Feedback.save s i feedback1 with
    | .error e => (s, .next e)
    | .ok s1 => (s1, .json 200 feedback1)

/-! ## Reachable states -/

/-- One step of the system: a request served by one of the cart, order, payment
and feedback handlers that write, or a change of the user directory and the
catalog made by their owners. -/
inductive Step : Store → Store → Prop
  | getCart (s : Store) (user : Actor) : Step s (getCart s user).1
  | addToCart (s : Store) (user : Actor) (packageId : Nat) (quantity : Option Int) :
      Step s (addToCart s user packageId quantity).1
  | updateCartItem (s : Store) (user : Actor) (packageId : Nat) (quantity : Option Int) :
      Step s (updateCartItem s user packageId quantity).1
  | removeFromCart (s : Store) (user : Actor) (packageId : Nat) :
      Step s (removeFromCart s user packageId).1
  | clearCart (s : Store) (user : Actor) : Step s (clearCart s user).1
  | createOrder (s : Store) (user : Actor) (req : OrderRequest) (now : Nat) :
      Step s (createOrder s user req now).1
  | updateOrderStatus (s : Store) (user : Actor) (id : Nat) (status : Option String) (now : Nat) :
      Step s (updateOrderStatus s user id status now).1
  | assignWorker (s : Store) (id workerId : Nat) : Step s (assignWorker s id workerId).1
  | assignDeliverer (s : Store) (id delivererId : Nat) :
      Step s (assignDeliverer s id delivererId).1
  | cancelOrder (s : Store) (user : Actor) (id : Nat) (now : Nat) :
      Step s (cancelOrder s user id now).1
  | processPayment (s : Store) (user : Actor) (orderId : Nat) (stripe : Int → Charge) (now : Nat) :
      Step s (processPayment s user orderId stripe now).1
  | createCashOnDeliveryPayment (s : Store) (user : Actor) (orderId : Nat) (now : Nat) :
      Step s (createCashOnDeliveryPayment s user orderId now).1
  | markCashPaymentAsPaid (s : Store) (paymentId : Nat) :
      Step s (markCashPaymentAsPaid s paymentId).1
  | createFeedback (s : Store) (user : Actor) (req : FeedbackRequest) :
      Step s (createFeedback s user req).1
  | updateFeedback (s : Store) (user : Actor) (id : Nat) (body : FeedbackUpdate) :
      Step s (updateFeedback s user id body).1
  | deleteFeedback (s : Store) (user : Actor) (id : Nat) : Step s (deleteFeedback s user id).1
  | respondToFeedback (s : Store) (user : Actor) (id : Nat) (comment : Option String)
      (now : Nat) : Step s (respondToFeedback s user id comment now).1
  | directory (s : Store) (users : List User) (packages : List Package) :
      Step s { s with users := users, packages := packages }

/-- The states the system can be in: it starts with no cart, no order, no
payment and no feedback, and then takes steps. -/
inductive Reachable : Store → Prop
  | init (users : List User) (packages : List Package) :
      Reachable { users := users, packages := packages }
  | step {s t : Store} : Reachable s → Step s t → Reachable t

/-! ## Requests and runs -/

/-- Whether a reply is a success reply, `{ success: true, ... }`. -/
def Reply.isJson {α : Type} : Reply α → Bool
  | .json _ _ => true
  | .fail _ _ => false
  | .next _ => false

/-- A request to one of the cart, order, payment and feedback handlers that
write, or a change of the user directory and the catalog. -/
inductive Request where
  | getCart (user : Actor)
  | addToCart (user : Actor) (packageId : Nat) (quantity : Option Int)
  | updateCartItem (user : Actor) (packageId : Nat) (quantity : Option Int)
  | removeFromCart (user : Actor) (packageId : Nat)
  | clearCart (user : Actor)
  | createOrder (user : Actor) (req : OrderRequest) (now : Nat)
  | updateOrderStatus (user : Actor) (id : Nat) (status : Option String) (now : Nat)
  | assignWorker (id workerId : Nat)
  | assignDeliverer (id delivererId : Nat)
  | cancelOrder (user : Actor) (id : Nat) (now : Nat)
  | processPayment (user : Actor) (orderId : Nat) (stripe : Int → Charge) (now : Nat)
  | createCashOnDeliveryPayment (user : Actor) (orderId : Nat) (now : Nat)
  | markCashPaymentAsPaid (paymentId : Nat)
  | createFeedback (user : Actor) (req : FeedbackRequest)
  | updateFeedback (user : Actor) (id : Nat) (body : FeedbackUpdate)
  | deleteFeedback (user : Actor) (id : Nat)
  | respondToFeedback (user : Actor) (id : Nat) (comment : Option String) (now : Nat)
  | directory (users : List User) (packages : List Package)

/-- The store after a request has been served. -/
def Request.serve (r : Request) (s : Store) : Store :=
  match r with
  | .getCart user => (Laundry.getCart s user).1
  | .addToCart user packageId quantity => (Laundry.addToCart s user packageId quantity).1
  | .updateCartItem user packageId quantity => (Laundry.updateCartItem s user packageId quantity).1
  | .removeFromCart user packageId => (Laundry.removeFromCart s user packageId).1
  | .clearCart user => (Laundry.clearCart s user).1
  | .createOrder user req now => (Laundry.createOrder s user req now).1
  | .updateOrderStatus user id status now => (Laundry.updateOrderStatus s user id status now).1
  | .assignWorker id workerId => (Laundry.assignWorker s id workerId).1
  | .assignDeliverer id delivererId => (Laundry.assignDeliverer s id delivererId).1
  | .cancelOrder user id now => (Laundry.cancelOrder s user id now).1
  | .processPayment user orderId stripe now => (Laundry.processPayment s user orderId stripe now).1
  | .createCashOnDeliveryPayment user orderId now =>
    (Laundry.createCashOnDeliveryPayment s user orderId now).1
  | .markCashPaymentAsPaid paymentId => (Laundry.markCashPaymentAsPaid s paymentId).1
  | .createFeedback user req => (Laundry.createFeedback s user req).1
  | .updateFeedback user id body => (Laundry.updateFeedback s user id body).1
  | .deleteFeedback user id => (Laundry.deleteFeedback s user id).1
  | .respondToFeedback user id comment now =>
    (Laundry.respondToFeedback s user id comment now).1
  | .directory users packages => { s with users := users, packages := packages }

/-- Whether the order at position `i` is pending. -/
def Order.isPendingAt (s : Store) (i : Nat) : Bool :=
  match Order.findById s i with
  | some o => decide (o.status = some "pending")
  | none => false

/-- Whether serving the request in `s` is a successful status transition of the
order at position `i`: a successful `updateOrderStatus` or `cancelOrder` on that
order, or a successful `processPayment` or `createCashOnDeliveryPayment` on it
while it is pending. -/
def Request.writesStatus (r : Request) (s : Store) (i : Nat) : Bool :=
  match r with
  | .updateOrderStatus user id status now =>
    decide (id = i) && (Laundry.updateOrderStatus s user id status now).2.isJson
  | .cancelOrder user id now => decide (id = i) && (Laundry.cancelOrder s user id now).2.isJson
  | .processPayment user orderId stripe now =>
    decide (orderId = i) && (Laundry.processPayment s user orderId stripe now).2.isJson
      && Order.isPendingAt s i
  | .createCashOnDeliveryPayment user orderId now =>
    decide (orderId = i) && (Laundry.createCashOnDeliveryPayment s user orderId now).2.isJson
      && Order.isPendingAt s i
  | _ => false

/-- The store after a list of requests has been served, first to last. -/
def serveAll : List Request → Store → Store
  | [], s => s
  | r :: rs, s => serveAll rs (r.serve s)

/-- The number of successful status transitions of the order at position `i`
while a list of requests is served. -/
def transitions (i : Nat) : List Request → Store → Nat
  | [], _ => 0
  | r :: rs, s => (if r.writesStatus s i then 1 else 0) + transitions i rs (r.serve s)

/-! ## Example data -/

/-- A confirmed order of user 1, assigned to worker 7 and deliverer 8. -/
def sampleOrder : Order :=
  { user := 1
    items := [{ package := 10, quantity := 2, price := 20 }]
    totalAmount := 40
    status := some "confirmed"
    paymentStatus := "pending"
    paymentMethod := "credit-card"
    paymentId := none
    pickupDate := some 100
    deliveryDate := some 200
    assignedWorker := some 7
    assignedDeliverer := some 8
    statusHistory :=
      [{ status := some "pending", timestamp := 1, updatedBy := 1 },
       { status := some "confirmed", timestamp := 2, updatedBy := 1 }] }

/-- A store holding `sampleOrder` as order 0. -/
def sampleStore : Store :=
  { users := [{ id := 1, role := "user" }, { id := 5, role := "worker" },
              { id := 6, role := "deliverer" }, { id := 7, role := "worker" },
              { id := 8, role := "deliverer" }, { id := 9, role := "admin" }]
    packages := [{ id := 10, price := 20 }]
    orders := [sampleOrder] }

/-- The order `sampleOrder` after delivery. -/
def deliveredOrder : Order :=
  { sampleOrder with
    status := some "delivered"
    statusHistory :=
      sampleOrder.statusHistory ++ [{ status := some "delivered", timestamp := 3, updatedBy := 8 }] }

/-- A store holding `deliveredOrder` as order 0. -/
def deliveredStore : Store := { sampleStore with orders := [deliveredOrder] }

/-- The order `sampleOrder` while being processed. -/
def processingOrder : Order :=
  { sampleOrder with
    status := some "processing"
    statusHistory :=
      sampleOrder.statusHistory ++ [{ status := some "processing", timestamp := 3, updatedBy := 7 }] }

/-- A store holding `processingOrder` as order 0. -/
def processingStore : Store := { sampleStore with orders := [processingOrder] }

/-- The price the catalog lists for a package id (0 when it lists none). -/
def Package.priceOf (packages : List Package) (id : Nat) : Int :=
  match Package.findById packages id with
  | some pkg => pkg.price
  | none => 0

/-- A store in which user 1 has a cart with two units of package 10, priced 20. -/
def cartStore : Store :=
  { users := [{ id := 1, role := "user" }]
    packages := [{ id := 10, price := 20 }]
    carts := [{ user := 1, items := [{ package := 10, quantity := 2 }] }] }

/-- The order `createOrder` builds from the cart of `cartStore`. -/
def cartStoreOrder : Order :=
  createOrder.document { id := 1, role := "user" }
    { pickupDate := some 100, deliveryDate := some 200, paymentMethod := none } 5
    [{ package := 10, quantity := 2, price := 20 }] 40

/-- The cart invariant: no two lines name the same package, and the cart passes
schema validation. -/
def Cart.ok (c : Cart) : Prop :=
  (c.items.map (fun item => item.package)).Nodup ∧ CartSchema.validate c = true

/-- The store after user 1 has added one unit of package 10 to an empty system
whose catalog lists that package. -/
def oneAddStore : Store :=
  (addToCart { packages := [{ id := 10, price := 20 }] } { id := 1, role := "user" } 10
    (some 1)).1

/-- The history invariant of one order: the history has a last entry, and the
status the order is read with is the status of that entry, read with the same
default (`pending` for an entry without status). -/
def Order.historyOk (o : Order) : Prop :=
  o.statusHistory ≠ []
    ∧ ∃ e, o.statusHistory.getLast? = some e
        ∧ o.applyDefaults.status = some (e.status.getD "pending")

/-- A store reached by user 1 adding package 10 twice to the cart and then
checking out, starting from nothing but a catalog. -/
def checkedOutStore : Store :=
  (createOrder
    (addToCart
      (addToCart { packages := [{ id := 10, price := 20 }] } { id := 1, role := "user" } 10
        (some 1)).1
      { id := 1, role := "user" } 10 (some 1)).1
    { id := 1, role := "user" }
    { pickupDate := some 100, deliveryDate := some 200, paymentMethod := none } 5).1

/-- The store in which user 1 holds two units of package 10 in the cart, just
before the checkout that leads to `checkedOutStore`. -/
def twoAddStore : Store :=
  (addToCart oneAddStore { id := 1, role := "user" } 10 (some 1)).1

/-- A run on `checkedOutStore`: an admin confirms order 0, a manager tries to
assign a worker, the admin marks the order picked up, the owner then tries to
cancel it. -/
def sampleRun : List Request :=
  [.updateOrderStatus { id := 9, role := "admin" } 0 (some "confirmed") 6,
   .assignWorker 0 7,
   .updateOrderStatus { id := 9, role := "admin" } 0 (some "picked-up") 8,
   .cancelOrder { id := 1, role := "user" } 0 9,
   .directory [] [{ id := 10, price := 35 }]]

/-- A gateway that accepts every charge, with intent id `pi_1`. -/
def acceptingGateway : Int → Charge := fun _ => .intent "pi_1"

/-- A gateway that declines every charge. -/
def decliningGateway : Int → Charge := fun _ => .cardError "Your card was declined."

/-- The payment record `processPayment` creates for order 0 of `checkedOutStore`
through `acceptingGateway`. -/
def samplePayment : Payment :=
  { order := 0
    user := 1
    amount := 40
    paymentMethod := "credit-card"
    status := "successful"
    transactionId := some "pi_1"
    paymentGateway := "stripe" }

/-- The store after the owner has paid order 0 of `checkedOutStore` by card. -/
def paidStore : Store :=
  (processPayment checkedOutStore { id := 1, role := "user" } 0 acceptingGateway 6).1

/-- The order 0 of `paidStore`: paid and confirmed. -/
def paidOrder : Order :=
  ({ cartStoreOrder with paymentStatus := "paid", paymentId := some 0 } :
    Order).withStatus (some "confirmed") 6 1

/-- The payment record `createCashOnDeliveryPayment` creates for order 0 of
`checkedOutStore`. -/
def sampleCashPayment : Payment :=
  { order := 0
    user := 1
    amount := 40
    paymentMethod := "cash-on-delivery"
    status := "pending"
    transactionId := none
    paymentGateway := "cash" }

/-- The store after the owner has asked for cash on delivery for order 0 of
`checkedOutStore`. -/
def cashStore : Store :=
  (createCashOnDeliveryPayment checkedOutStore { id := 1, role := "user" } 0 6).1

/-- The order 0 of `cashStore`: confirmed, to be paid in cash, not yet paid. -/
def cashOrder : Order :=
  ({ cartStoreOrder with paymentMethod := "cash-on-delivery", paymentId := some 0 } :
    Order).withStatus (some "confirmed") 6 1

/-- The store after the owner has asked twice for cash on delivery for order 0
of `checkedOutStore`. -/
def cashTwiceStore : Store :=
  (createCashOnDeliveryPayment
    (createCashOnDeliveryPayment checkedOutStore { id := 1, role := "user" } 0 6).1
    { id := 1, role := "user" } 0 7).1

/-- A feedback request for order 0 with rating 5. -/
def sampleFeedbackRequest : FeedbackRequest :=
  { orderId := 0
    rating := some 5
    comment := some "Spotless"
    serviceQuality := none
    punctuality := some 4
    staffBehavior := none
    isPublic := none }

/-- The feedback `createFeedback` stores for `sampleFeedbackRequest` from user 1
in a store without feedback. -/
def sampleFeedback : Feedback :=
  { id := 0
    user := 1
    order := 0
    rating := some 5
    comment := some "Spotless"
    serviceQuality := none
    punctuality := some 4
    staffBehavior := none
    isPublic := true
    adminResponse := none }

/-- What one step can do to the payments: nothing; append a cash-on-delivery
payment for a stored order; append a successful card payment for a stored
order that was not paid and is paid afterwards; or mark a stored
cash-on-delivery payment successful. -/
def PaymentsEffect (s t : Store) : Prop :=
  t.payments = s.payments
  ∨ (∃ (p : Payment) (o : Order), t.payments = s.payments ++ [p]
      ∧ p.paymentMethod = "cash-on-delivery" ∧ s.orders[p.order]? = some o)
  ∨ (∃ (p : Payment) (o o1 : Order), t.payments = s.payments ++ [p]
      ∧ p.paymentMethod = "credit-card" ∧ p.status = "successful"
      ∧ s.orders[p.order]? = some o ∧ o.paymentStatus ≠ "paid"
      ∧ t.orders[p.order]? = some o1 ∧ o1.paymentStatus = "paid")
  ∨ (∃ (k : Nat) (p : Payment), s.payments[k]? = some p
      ∧ p.paymentMethod = "cash-on-delivery"
      ∧ t.payments = s.payments.set k { p with status := "successful" })

/-- The payment invariant of a store: every payment is for a stored order; a
card payment is successful and its order is paid; and no two card payments
are for the same order. -/
def PaymentsOk (s : Store) : Prop :=
  (∀ (k : Nat) (p : Payment), s.payments[k]? = some p →
      ∃ o, s.orders[p.order]? = some o
        ∧ (p.paymentMethod = "credit-card" → p.status = "successful" ∧ o.paymentStatus = "paid"))
  ∧ ∀ (k1 k2 : Nat) (p1 p2 : Payment), s.payments[k1]? = some p1 → s.payments[k2]? = some p2 →
      p1.paymentMethod = "credit-card" → p2.paymentMethod = "credit-card" →
      p1.order = p2.order → k1 = k2

/-- The feedback invariant: no two feedback records name the same user and the
same order. -/
def FeedbackUnique (s : Store) : Prop :=
  (s.feedbacks.map (fun f => (f.user, f.order))).Nodup

/-- A store reached from `checkedOutStore`: user 1 checks out a second time and
an admin marks both orders delivered. -/
def twoDeliveredStore : Store :=
  (updateOrderStatus
    (updateOrderStatus
      (createOrder
        (addToCart checkedOutStore { id := 1, role := "user" } 10 (some 1)).1
        { id := 1, role := "user" }
        { pickupDate := some 100, deliveryDate := some 200, paymentMethod := none } 6).1
      { id := 9, role := "admin" } 0 (some "delivered") 7).1
    { id := 9, role := "admin" } 1 (some "delivered") 8).1

/-- The store after user 1 has left feedback for order 0 and for order 1 of
`twoDeliveredStore`. -/
def twoFeedbackStore : Store :=
  (createFeedback
    (createFeedback twoDeliveredStore { id := 1, role := "user" } sampleFeedbackRequest).1
    { id := 1, role := "user" } { sampleFeedbackRequest with orderId := 1 }).1

/-- A body for `updateFeedback` that names the path `order` only, with value 0. -/
def moveToOrderZero : FeedbackUpdate :=
  { user := none
    order := some 0
    rating := none
    comment := none
    serviceQuality := none
    punctuality := none
    staffBehavior := none
    isPublic := none
    adminResponse := none }

/-- The store after user 1 has updated feedback 1 of `twoFeedbackStore` with
`moveToOrderZero`. -/
def movedFeedbackStore : Store :=
  (updateFeedback twoFeedbackStore { id := 1, role := "user" } 1 moveToOrderZero).1

/-- The scope of an actor in the words of the specification: a worker sees the
orders assigned to that worker, a deliverer those assigned to that deliverer,
an actor of any role other than admin, manager, worker and deliverer the orders
that actor owns; admin and manager see every order. -/
def Order.inScope (user : Actor) (order : Order) : Prop :=
  (user.role = "worker" → order.assignedWorker = some user.id)
  ∧ (user.role = "deliverer" → order.assignedDeliverer = some user.id)
  ∧ (user.role ∉ ["admin", "manager", "worker", "deliverer"] → order.user = user.id)

/-- Whether an order passes the status filter of a query: every order when the
query names no status, the orders with that status when it names one. -/
def Order.hasStatus (status : Option String) (order : Order) : Prop :=
  ∀ st, status = some st → st ≠ "" → order.status = some st

/-- A query for the second page of two of the processing orders, oldest first. -/
def sampleQuery : OrdersQuery :=
  { status := some "processing"
    sort := some (fun a b => decide (a.1 ≤ b.1))
    page := some 2
    limit := some 2 }

/-- A store with five orders: orders 0, 1, 3 and 4 are `processingOrder`, which
is assigned to worker 7, order 2 is `sampleOrder`, which is confirmed. -/
def fiveOrderStore : Store :=
  { sampleStore with
    orders := [processingOrder, processingOrder, sampleOrder, processingOrder, processingOrder] }

/-- The store `checkedOutStore` with a user directory: its order 0 belongs to
user 1, is pending and has neither a worker nor a deliverer assigned. -/
def unassignedStore : Store :=
  { checkedOutStore with
    users := [{ id := 1, role := "user" }, { id := 2, role := "user" },
              { id := 3, role := "manager" }, { id := 7, role := "worker" },
              { id := 8, role := "deliverer" }, { id := 9, role := "admin" }]
    packages := [{ id := 10, price := 20 }] }

/-- The store after an admin has sent a status update without `status` for
order 0 of `checkedOutStore`. -/
def unsetStatusStore : Store :=
  (updateOrderStatus checkedOutStore { id := 9, role := "admin" } 0 none 6).1

/-- A store with a catalog and nothing else: no user has a cart yet. -/
def catalogStore : Store := { packages := [{ id := 10, price := 20 }] }

/-- The schedule that runs the first call to its end and then the second. -/
def oneAfterTheOther : List Bool := [true, true, true, true, false, false, false, false]

/-- A schedule in which both calls load the cart before either writes it. -/
def bothLoadFirst : List Bool := [true, true, false, false, true, false, true, false]

/-- A store with a confirmed order and a refunded cash-on-delivery payment
for it. -/
def refundedStore : Store :=
  { sampleStore with payments := [{ sampleCashPayment with status := "refunded" }] }

/-- The lines of the cart of a user, none when the user has no cart. -/
def Cart.linesOf (s : Store) (user : Nat) : List CartItem :=
  match Cart.findOne s user with
  | none => []
  | some (_, cart) => cart.items

/-! # Theorems -/

/-! ## Effect of the collection primitives -/

theorem Order.save_order_eq_ok {s t : Store} {id : Nat} {o : Order} :
    Order.save s id o = .ok t ↔
      OrderSchema.validate o = true ∧ t = { s with orders := s.orders.set id o } := by
  unfold Order.save
  by_cases h : OrderSchema.validate o = true
  · simp only [h, if_true, Except.ok.injEq, true_and]; exact eq_comm
  · simp [h]

theorem Order.create_order_eq_ok {s t : Store} {o : Order} :
    Order.create s o = .ok t ↔
      OrderSchema.validate o = true ∧ t = { s with orders := s.orders ++ [o] } := by
  unfold Order.create
  by_cases h : OrderSchema.validate o = true
  · simp only [h, if_true, Except.ok.injEq, true_and]; exact eq_comm
  · simp [h]

theorem Payment.save_payment_eq_ok {s t : Store} {id : Nat} {p : Payment} :
    Payment.save s id p = .ok t ↔
      PaymentSchema.validate p = true ∧ t = { s with payments := s.payments.set id p } := by
  unfold Payment.save
  by_cases h : PaymentSchema.validate p = true
  · simp only [h, if_true, Except.ok.injEq, true_and]; exact eq_comm
  · simp [h]

theorem Payment.create_payment_eq_ok {s t : Store} {p : Payment} :
    Payment.create s p = .ok t ↔
      PaymentSchema.validate p = true ∧ t = { s with payments := s.payments ++ [p] } := by
  unfold Payment.create
  by_cases h : PaymentSchema.validate p = true
  · simp only [h, if_true, Except.ok.injEq, true_and]; exact eq_comm
  · simp [h]

theorem Cart.save_cart_eq_ok {s t : Store} {i : Nat} {c : Cart} :
    Cart.save s i c = .ok t ↔
      CartSchema.validate c = true ∧ t = { s with carts := s.carts.set i c } := by
  unfold Cart.save
  by_cases h : CartSchema.validate c = true
  · simp only [h, if_true, Except.ok.injEq, true_and]; exact eq_comm
  · simp [h]

theorem Cart.create_cart_eq_ok {s t : Store} {c : Cart} :
    Cart.create s c = .ok t ↔
      CartSchema.validate c = true ∧ t = { s with carts := s.carts ++ [c] } := by
  unfold Cart.create
  by_cases h : CartSchema.validate c = true
  · simp only [h, if_true, Except.ok.injEq, true_and]; exact eq_comm
  · simp [h]

/-- What `Order.findById` returns is a stored order with the defaults applied. -/
theorem Order.findById_eq_some {s : Store} {id : Nat} {order : Order} :
    Order.findById s id = some order ↔
      ∃ o, s.orders[id]? = some o ∧ order = o.applyDefaults := by
  unfold Order.findById
  cases h : s.orders[id]? with
  | none => simp
  | some o =>
    simp only [Option.some.injEq, exists_eq_left']
    exact eq_comm

theorem Order.findById_eq_none {s : Store} {id : Nat} :
    Order.findById s id = none ↔ s.orders[id]? = none := by
  unfold Order.findById
  cases h : s.orders[id]? <;> simp

theorem Order.findById_of_stored {s : Store} {id : Nat} {o : Order}
    (h : s.orders[id]? = some o) : Order.findById s id = some o.applyDefaults := by
  unfold Order.findById
  rw [h]

/-- An order that has a status is loaded as it is stored. -/
theorem Order.applyDefaults_of_status {o : Order} {st : String} (h : o.status = some st) :
    o.applyDefaults = o := by
  unfold Order.applyDefaults
  rw [h]
  cases o
  simp_all

theorem Order.applyDefaults_status_ne_none (o : Order) : o.applyDefaults.status ≠ none := by
  simp [Order.applyDefaults]

theorem Order.applyDefaults_idem (o : Order) : o.applyDefaults.applyDefaults = o.applyDefaults :=
  rfl

/-- A status write overwrites whatever the defaults filled in. -/
theorem Order.withStatus_applyDefaults (o : Order) (status : Option String)
    (now updatedBy : Nat) :
    o.applyDefaults.withStatus status now updatedBy = o.withStatus status now updatedBy := rfl

theorem OrderSchema.validate_applyDefaults {o : Order} (h : OrderSchema.validate o = true) :
    OrderSchema.validate o.applyDefaults = true := by
  unfold OrderSchema.validate at h ⊢
  simp only [Bool.and_eq_true] at h ⊢
  obtain ⟨⟨⟨⟨⟨⟨h1, h2⟩, h3⟩, h4⟩, h5⟩, h6⟩, h7⟩ := h
  refine ⟨⟨⟨⟨⟨⟨h1, ?_⟩, h3⟩, h4⟩, h5⟩, h6⟩, h7⟩
  show enumValidator statusEnum (some (o.status.getD "pending")) = true
  cases hst : o.status with
  | none => decide
  | some st => rw [hst] at h2; exact h2

/-- A loaded order of a store whose orders are valid is valid. -/
theorem Order.findById_valid {s : Store} {id : Nat} {order : Order}
    (hv : ∀ o ∈ s.orders, OrderSchema.validate o = true)
    (h : Order.findById s id = some order) : OrderSchema.validate order = true := by
  obtain ⟨o, ho, hl⟩ := Order.findById_eq_some.mp h
  rw [hl]
  exact OrderSchema.validate_applyDefaults (hv o (List.getElem?_mem ho))

/-- The 403 branch of `updateOrderStatus` is never taken: its condition asks the
role to be `worker` and `deliverer` at once. -/
theorem updateOrderStatus.notAuthorized_ne_true (user : Actor) (order : Order) :
    updateOrderStatus.notAuthorized user order ≠ .ok true := by
  unfold updateOrderStatus.notAuthorized
  by_cases hw : user.role = "worker"
  · have hd : user.role ≠ "deliverer" := by rw [hw]; decide
    cases h : idToString order.assignedWorker <;> simp [hw, hd, h]
  · simp [hw]

theorem Feedback.create_feedback_eq_ok {s t : Store} {f : Feedback} :
    Feedback.create s f = .ok t ↔
      FeedbackSchema.validate f = true
        ∧ t = { s with feedbacks := s.feedbacks ++ [f], feedbackSeq := s.feedbackSeq + 1 } := by
  unfold Feedback.create
  by_cases h : FeedbackSchema.validate f = true
  · simp only [h, if_true, Except.ok.injEq, true_and]; exact eq_comm
  · simp [h]

theorem Feedback.save_feedback_eq_ok {s t : Store} {i : Nat} {f : Feedback} :
    Feedback.save s i f = .ok t ↔
      FeedbackSchema.validate f = true ∧ t = { s with feedbacks := s.feedbacks.set i f } := by
  unfold Feedback.save
  by_cases h : FeedbackSchema.validate f = true
  · simp only [h, if_true, Except.ok.injEq, true_and]; exact eq_comm
  · simp [h]

theorem Feedback.findByIdAndUpdate_of_ok {s t : Store} {id : Nat} {body : FeedbackUpdate}
    {r : Option Feedback} (h : Feedback.findByIdAndUpdate s id body = .ok (t, r)) :
    FeedbackSchema.validateUpdate body = true
      ∧ ((Feedback.findById s id = none ∧ t = s ∧ r = none)
        ∨ ∃ i f, Feedback.findById s id = some (i, f)
            ∧ t = { s with feedbacks := s.feedbacks.set i (body.applyTo f) }
            ∧ r = some (body.applyTo f)) := by
  unfold Feedback.findByIdAndUpdate at h
  split at h
  · rename_i hv
    refine ⟨hv, ?_⟩
    split at h
    · rename_i hf
      simp only [Except.ok.injEq, Prod.mk.injEq] at h
      exact Or.inl ⟨hf, h.1.symm, h.2.symm⟩
    · rename_i i f hf
      simp only [Except.ok.injEq, Prod.mk.injEq] at h
      exact Or.inr ⟨i, f, hf, h.1.symm, h.2.symm⟩
  · exact absurd h (by simp)

/-- The feedback handlers write nothing but the feedback collection. -/
theorem createFeedback_frame (s : Store) (user : Actor) (req : FeedbackRequest) :
    (createFeedback s user req).1.orders = s.orders
      ∧ (createFeedback s user req).1.carts = s.carts
      ∧ (createFeedback s user req).1.payments = s.payments := by
  unfold createFeedback
  repeat' first | split | dsimp only
  all_goals first | exact ⟨rfl, rfl, rfl⟩ | skip
  all_goals simp only [Feedback.create_feedback_eq_ok] at *
  all_goals (casesm* _ ∧ _; subst_vars; exact ⟨rfl, rfl, rfl⟩)

theorem updateFeedback_frame (s : Store) (user : Actor) (id : Nat) (body : FeedbackUpdate) :
    (updateFeedback s user id body).1.orders = s.orders
      ∧ (updateFeedback s user id body).1.carts = s.carts
      ∧ (updateFeedback s user id body).1.payments = s.payments := by
  unfold updateFeedback
  repeat' first | split | dsimp only
  all_goals first | exact ⟨rfl, rfl, rfl⟩ | skip
  all_goals
    rename_i hupd
    rcases Feedback.findByIdAndUpdate_of_ok hupd with ⟨_, ⟨_, ht, _⟩ | ⟨i, f, _, ht, _⟩⟩ <;> rw [ht] <;> exact ⟨rfl, rfl, rfl⟩

theorem deleteFeedback_frame (s : Store) (user : Actor) (id : Nat) :
    (deleteFeedback s user id).1.orders = s.orders
      ∧ (deleteFeedback s user id).1.carts = s.carts
      ∧ (deleteFeedback s user id).1.payments = s.payments := by
  unfold deleteFeedback Feedback.deleteOne
  repeat' first | split | dsimp only
  all_goals exact ⟨rfl, rfl, rfl⟩

theorem respondToFeedback_frame (s : Store) (user : Actor) (id : Nat)
    (comment : Option String) (now : Nat) :
    (respondToFeedback s user id comment now).1.orders = s.orders
      ∧ (respondToFeedback s user id comment now).1.carts = s.carts
      ∧ (respondToFeedback s user id comment now).1.payments = s.payments := by
  unfold respondToFeedback
  repeat' first | split | dsimp only
  all_goals first | exact ⟨rfl, rfl, rfl⟩ | skip
  all_goals simp only [Feedback.save_feedback_eq_ok] at *
  all_goals (casesm* _ ∧ _; subst_vars; exact ⟨rfl, rfl, rfl⟩)

/-! ## C1: staff that are not assigned to an order -/

/-- C1 (defect in the code): a worker who is not the order's assigned worker,
and a deliverer who is not its assigned deliverer, are not refused by
`updateOrderStatus`: on `sampleStore`, whose order 0 is assigned to worker 7 and
deliverer 8, worker 5 and deliverer 6 each get a 200 reply and the status and
the history of the order are changed; and no call of `updateOrderStatus`
whatsoever replies 403. -/
theorem C1_unassigned_staff_not_refused :
    updateOrderStatus sampleStore { id := 5, role := "worker" } 0 (some "processing") 9
        = ({ sampleStore with orders := [sampleOrder.withStatus (some "processing") 9 5] },
           .json 200 (sampleOrder.withStatus (some "processing") 9 5))
    ∧ updateOrderStatus sampleStore { id := 6, role := "deliverer" } 0 (some "delivered") 9
        = ({ sampleStore with orders := [sampleOrder.withStatus (some "delivered") 9 6] },
           .json 200 (sampleOrder.withStatus (some "delivered") 9 6))
    ∧ sampleOrder.assignedWorker = some 7 ∧ sampleOrder.assignedDeliverer = some 8
    ∧ (sampleOrder.withStatus (some "processing") 9 5).status ≠ sampleOrder.status
    ∧ (sampleOrder.withStatus (some "processing") 9 5).statusHistory ≠ sampleOrder.statusHistory
    ∧ ∀ (s : Store) (user : Actor) (id : Nat) (status : Option String) (now : Nat)
        (error : String), (updateOrderStatus s user id status now).2 ≠ .fail 403 error := by
  refine ⟨by decide, by decide, by decide, by decide, by decide, by decide, ?_⟩
  intro s user id status now error
  unfold updateOrderStatus
  split
  · simp
  · split
    · simp
    · rename_i h
      exact absurd h (updateOrderStatus.notAuthorized_ne_true _ _)
    · dsimp only
      split <;> simp

/-! ## C2: orders in a terminal state -/

/-- A status change keeps an order valid exactly when the new status passes the
enum validator. -/
theorem OrderSchema.validate_withStatus {order : Order} (h : OrderSchema.validate order = true)
    (status : Option String) (now updatedBy : Nat) :
    OrderSchema.validate (order.withStatus status now updatedBy) = enumValidator statusEnum status := by
  unfold OrderSchema.validate at h ⊢
  simp only [Bool.and_eq_true] at h
  obtain ⟨⟨⟨⟨⟨⟨h1, _⟩, h3⟩, h4⟩, h5⟩, h6⟩, h7⟩ := h
  simp [Order.withStatus, List.all_append, h1, h3, h4, h5, h6, h7]

/-- The authorisation condition of `updateOrderStatus` in closed form: it throws
for a worker when the order has no assigned worker and is false otherwise. -/
theorem updateOrderStatus.notAuthorized_eq (user : Actor) (order : Order) :
    updateOrderStatus.notAuthorized user order =
      if user.role = "worker" ∧ order.assignedWorker = none then .error .typeError
      else .ok false := by
  unfold updateOrderStatus.notAuthorized
  by_cases hw : user.role = "worker"
  · have hd : user.role ≠ "deliverer" := by rw [hw]; decide
    cases order.assignedWorker <;> simp [hw, hd, idToString]
  · simp [hw]

/-- The handler `updateOrderStatus` on an order that exists, in closed form. -/
theorem updateOrderStatus_of_found {s : Store} {id : Nat} {order : Order}
    (hfind : Order.findById s id = some order) (user : Actor) (status : Option String)
    (now : Nat) :
    updateOrderStatus s user id status now =
      if user.role = "worker" ∧ order.assignedWorker = none then
        (s, .next .typeError)
      else if OrderSchema.validate (order.withStatus status now user.id) = true then
        ({ s with orders := s.orders.set id (order.withStatus status now user.id) },
         .json 200 (order.withStatus status now user.id))
      else
        (s, .next .validationError) := by
  unfold updateOrderStatus
  rw [hfind]
  dsimp only
  rw [updateOrderStatus.notAuthorized_eq]
  by_cases hc : user.role = "worker" ∧ order.assignedWorker = none
  · rw [if_pos hc, if_pos hc]
  · rw [if_neg hc, if_neg hc]
    dsimp only
    unfold Order.save
    by_cases hv : OrderSchema.validate (order.withStatus status now user.id) = true
    · rw [if_pos hv, if_pos hv]
    · rw [if_neg hv, if_neg hv]

/-- C2 (defect in the code): `updateOrderStatus` does not look at the current
status of the order.  On `deliveredStore`, whose order 0 is delivered, an admin
who asks for `processing` gets a 200 reply, the status becomes `processing` and
the history grows by one entry.  In general, for a loaded, schema-valid order
whose status is `delivered` or `cancelled`, an admin or a manager who asks for
any of the eight status values gets a 200 reply, and the order is stored with
that status and one more history entry.  The sibling handler `cancelOrder`
keeps the rule: on such an order it replies 403 or 400 and leaves the store as
it is. -/
theorem C2_terminal_status_not_guarded :
    deliveredOrder.status = some "delivered"
    ∧ Order.findById deliveredStore 0 = some deliveredOrder
    ∧ updateOrderStatus deliveredStore { id := 9, role := "admin" } 0 (some "processing") 4
        = ({ deliveredStore with orders := [deliveredOrder.withStatus (some "processing") 4 9] },
           .json 200 (deliveredOrder.withStatus (some "processing") 4 9))
    ∧ (deliveredOrder.withStatus (some "processing") 4 9).status = some "processing"
    ∧ (deliveredOrder.withStatus (some "processing") 4 9).statusHistory
        = deliveredOrder.statusHistory
            ++ [{ status := some "processing", timestamp := 4, updatedBy := 9 }]
    ∧ (∀ (s : Store) (user : Actor) (id now : Nat) (order : Order) (st : String),
        Order.findById s id = some order → OrderSchema.validate order = true →
        order.status = some "delivered" ∨ order.status = some "cancelled" →
        user.role = "admin" ∨ user.role = "manager" → st ∈ statusEnum →
        updateOrderStatus s user id (some st) now
          = ({ s with orders := s.orders.set id (order.withStatus (some st) now user.id) },
             .json 200 (order.withStatus (some st) now user.id)))
    ∧ ∀ (s : Store) (user : Actor) (id now : Nat) (order : Order),
        Order.findById s id = some order →
        order.status = some "delivered" ∨ order.status = some "cancelled" →
        cancelOrder s user id now = (s, .fail 403 "Not authorized to cancel this order")
        ∨ cancelOrder s user id now
            = (s, .fail 400 "Order cannot be cancelled at this stage") := by
  refine ⟨by decide, by decide, by decide, rfl, rfl, ?_, ?_⟩
  · intro s user id now order st hfind hvalid _ hrole hst
    have hworker : ¬ (user.role = "worker" ∧ order.assignedWorker = none) := by
      rintro ⟨hw, _⟩
      rcases hrole with h | h <;> rw [hw] at h <;> exact absurd h (by decide)
    have hv : OrderSchema.validate (order.withStatus (some st) now user.id) = true := by
      rw [OrderSchema.validate_withStatus hvalid]
      simp [enumValidator, hst]
    rw [updateOrderStatus_of_found hfind, if_neg hworker, if_pos hv]
  · intro s user id now order hfind hterminal
    unfold cancelOrder
    rw [hfind]
    dsimp only
    by_cases hauth : order.user ≠ user.id ∧ user.role ≠ "admin"
    · left; rw [if_pos hauth]
    · right
      rw [if_neg hauth, if_pos]
      rcases hterminal with h | h <;> rw [h] <;> decide

/-! ## Effect of each handler on the order collection -/

theorem updateOrderStatus_orders (s : Store) (user : Actor) (id : Nat) (status : Option String)
    (now : Nat) :
    (updateOrderStatus s user id status now).1.orders = s.orders
    ∨ ∃ o, Order.findById s id = some o
        ∧ (updateOrderStatus s user id status now).1.orders
            = s.orders.set id (o.withStatus status now user.id) := by
  cases hfind : Order.findById s id with
  | none => left; simp [updateOrderStatus, hfind]
  | some order =>
    rw [updateOrderStatus_of_found hfind]
    split
    · left; rfl
    · split
      · right; exact ⟨order, rfl, rfl⟩
      · left; rfl

theorem cancelOrder_orders (s : Store) (user : Actor) (id : Nat) (now : Nat) :
    (cancelOrder s user id now).1.orders = s.orders
    ∨ ∃ o, Order.findById s id = some o
        ∧ (o.status = some "pending" ∨ o.status = some "confirmed")
        ∧ (cancelOrder s user id now).1.orders
            = s.orders.set id (o.withStatus (some "cancelled") now user.id) := by
  unfold cancelOrder
  cases hfind : Order.findById s id with
  | none => left; rfl
  | some order =>
    dsimp only
    split
    · left; rfl
    · split
      · left; rfl
      · rename_i hst
        cases hsave : Order.save s id (order.withStatus (some "cancelled") now user.id) with
        | error e => left; rfl
        | ok t =>
          rw [Order.save_order_eq_ok] at hsave
          right
          refine ⟨order, rfl, ?_, ?_⟩
          · by_contra hne
            exact hst ⟨fun h => hne (Or.inl h), fun h => hne (Or.inr h)⟩
          · rw [hsave.2]

theorem assignWorker_orders (s : Store) (id workerId : Nat) :
    (assignWorker s id workerId).1.orders = s.orders
    ∨ ∃ o, Order.findById s id = some o
        ∧ (assignWorker s id workerId).1.orders
            = s.orders.set id { o with assignedWorker := some workerId } := by
  unfold assignWorker
  split
  · left; rfl
  · split
    · left; rfl
    · cases hfind : Order.findById s id with
      | none => left; rfl
      | some order =>
        dsimp only
        cases hsave : Order.save s id { order with assignedWorker := some workerId } with
        | error e => left; rfl
        | ok t =>
          rw [Order.save_order_eq_ok] at hsave
          right
          exact ⟨order, rfl, by rw [hsave.2]⟩

theorem assignDeliverer_orders (s : Store) (id delivererId : Nat) :
    (assignDeliverer s id delivererId).1.orders = s.orders
    ∨ ∃ o, Order.findById s id = some o
        ∧ (assignDeliverer s id delivererId).1.orders
            = s.orders.set id { o with assignedDeliverer := some delivererId } := by
  unfold assignDeliverer
  split
  · left; rfl
  · split
    · left; rfl
    · cases hfind : Order.findById s id with
      | none => left; rfl
      | some order =>
        dsimp only
        cases hsave : Order.save s id { order with assignedDeliverer := some delivererId } with
        | error e => left; rfl
        | ok t =>
          rw [Order.save_order_eq_ok] at hsave
          right
          exact ⟨order, rfl, by rw [hsave.2]⟩

theorem processPayment_orders (s : Store) (user : Actor) (orderId : Nat) (stripe : Int → Charge)
    (now : Nat) :
    (processPayment s user orderId stripe now).1.orders = s.orders
    ∨ ∃ o o1, Order.findById s orderId = some o
        ∧ (processPayment s user orderId stripe now).1.orders = s.orders.set orderId o1
        ∧ ((o.status ≠ some "pending"
              ∧ o1 = { o with paymentStatus := "paid", paymentId := some s.payments.length })
          ∨ (o.status = some "pending"
              ∧ o1 = ({ o with paymentStatus := "paid", paymentId := some s.payments.length } :
                  Order).withStatus (some "confirmed") now user.id)) := by
  unfold processPayment
  cases hfind : Order.findById s orderId with
  | none => left; rfl
  | some order =>
    dsimp only
    split
    · left; rfl
    · split
      · left; rfl
      · split
        · left; rfl
        · left; rfl
        · split
          · left; rfl
          · rename_i s1 hcreate
            rw [Payment.create_payment_eq_ok] at hcreate
            split
            · left; rw [hcreate.2]
            · rename_i s2 hsave
              rw [Order.save_order_eq_ok] at hsave
              right
              by_cases hp : order.status = some "pending"
              · refine ⟨order, _, rfl, ?_, Or.inr ⟨hp, rfl⟩⟩
                rw [hsave.2, hcreate.2, if_pos hp]
              · refine ⟨order, _, rfl, ?_, Or.inl ⟨hp, rfl⟩⟩
                rw [hsave.2, hcreate.2, if_neg hp]

theorem createCashOnDeliveryPayment_orders (s : Store) (user : Actor) (orderId : Nat)
    (now : Nat) :
    (createCashOnDeliveryPayment s user orderId now).1.orders = s.orders
    ∨ ∃ o o1, Order.findById s orderId = some o
        ∧ (createCashOnDeliveryPayment s user orderId now).1.orders = s.orders.set orderId o1
        ∧ ((o.status ≠ some "pending"
              ∧ o1 = { o with paymentMethod := "cash-on-delivery",
                              paymentId := some s.payments.length })
          ∨ (o.status = some "pending"
              ∧ o1 = ({ o with paymentMethod := "cash-on-delivery",
                               paymentId := some s.payments.length } :
                  Order).withStatus (some "confirmed") now user.id)) := by
  unfold createCashOnDeliveryPayment
  cases hfind : Order.findById s orderId with
  | none => left; rfl
  | some order =>
    dsimp only
    split
    · left; rfl
    · split
      · left; rfl
      · split
        · left; rfl
        · rename_i s1 hcreate
          rw [Payment.create_payment_eq_ok] at hcreate
          split
          · left; rw [hcreate.2]
          · rename_i s2 hsave
            rw [Order.save_order_eq_ok] at hsave
            right
            by_cases hp : order.status = some "pending"
            · refine ⟨order, _, rfl, ?_, Or.inr ⟨hp, rfl⟩⟩
              rw [hsave.2, hcreate.2, if_pos hp]
            · refine ⟨order, _, rfl, ?_, Or.inl ⟨hp, rfl⟩⟩
              rw [hsave.2, hcreate.2, if_neg hp]

theorem markCashPaymentAsPaid_orders (s : Store) (paymentId : Nat) :
    (markCashPaymentAsPaid s paymentId).1.orders = s.orders
    ∨ ∃ p o, s.payments[paymentId]? = some p ∧ Order.findById s p.order = some o
        ∧ (markCashPaymentAsPaid s paymentId).1.orders
            = s.orders.set p.order { o with paymentStatus := "paid" } := by
  unfold markCashPaymentAsPaid
  cases hfind : Payment.findById s paymentId with
  | none => left; rfl
  | some payment =>
    dsimp only
    split
    · left; rfl
    · split
      · left; rfl
      · rename_i s1 hsave1
        rw [Payment.save_payment_eq_ok] at hsave1
        cases hfo : Order.findById s1 payment.order with
        | none => left; rw [hsave1.2]
        | some order =>
          dsimp only
          split
          · left; rw [hsave1.2]
          · rename_i s2 hsave2
            rw [Order.save_order_eq_ok] at hsave2
            right
            refine ⟨payment, order, hfind, ?_, ?_⟩
            · rw [hsave1.2] at hfo; exact hfo
            · rw [hsave2.2, hsave1.2]

theorem Cart.findOneAndUpdate_orders (s : Store) (user : Nat) (items : List CartItem) :
    (Cart.findOneAndUpdate s user items).orders = s.orders := by
  unfold Cart.findOneAndUpdate
  split <;> rfl

theorem createOrder_orders (s : Store) (user : Actor) (req : OrderRequest) (now : Nat) :
    (createOrder s user req now).1.orders = s.orders
    ∨ ∃ o, (createOrder s user req now).1.orders = s.orders ++ [o]
        ∧ (createOrder s user req now).2 = .json 201 o
        ∧ o.user = user.id ∧ o.status = some "pending" ∧ o.paymentStatus = "pending"
        ∧ o.statusHistory = [{ status := some "pending", timestamp := now, updatedBy := user.id }] := by
  unfold createOrder
  split
  · left; rfl
  · split
    · left; rfl
    · split
      · left; rfl
      · dsimp only
        split
        · left; rfl
        · rename_i s1 hcreate
          rw [Order.create_order_eq_ok] at hcreate
          right
          refine ⟨_, ?_, rfl, rfl, rfl, rfl, rfl⟩
          rw [Cart.findOneAndUpdate_orders, hcreate.2]

theorem cartReply_fst (s : Store) (user : Actor) : (cartReply s user).1 = s := by
  unfold cartReply
  split
  · rfl
  · split <;> rfl

theorem getCart_orders (s : Store) (user : Actor) : (getCart s user).1.orders = s.orders := by
  unfold getCart
  split
  · rw [cartReply_fst]
  · split
    · rfl
    · rename_i s1 h
      rw [Cart.create_cart_eq_ok] at h
      rw [cartReply_fst, h.2]

theorem addToCart_orders (s : Store) (user : Actor) (packageId : Nat) (quantity : Option Int) :
    (addToCart s user packageId quantity).1.orders = s.orders := by
  unfold addToCart
  dsimp only
  split
  · rfl
  · split
    · rfl
    · rename_i s1 h
      rw [cartReply_fst]
      split at h
      · rw [Cart.create_cart_eq_ok] at h; rw [h.2]
      · split at h <;> (rw [Cart.save_cart_eq_ok] at h; rw [h.2])

theorem updateCartItem_orders (s : Store) (user : Actor) (packageId : Nat)
    (quantity : Option Int) :
    (updateCartItem s user packageId quantity).1.orders = s.orders := by
  unfold updateCartItem
  split
  · rfl
  · split
    · rfl
    · split
      · rfl
      · split
        · rfl
        · split
          · rfl
          · rename_i s1 h
            rw [Cart.save_cart_eq_ok] at h
            rw [cartReply_fst, h.2]

theorem removeFromCart_orders (s : Store) (user : Actor) (packageId : Nat) :
    (removeFromCart s user packageId).1.orders = s.orders := by
  unfold removeFromCart
  split
  · rfl
  · split
    · rfl
    · rename_i s1 h
      rw [Cart.save_cart_eq_ok] at h
      rw [cartReply_fst, h.2]

theorem clearCart_orders (s : Store) (user : Actor) : (clearCart s user).1.orders = s.orders := by
  unfold clearCart
  split
  · rfl
  · dsimp only
    split
    · rfl
    · rename_i s1 h
      rw [Cart.save_cart_eq_ok] at h
      rw [h.2]

/-! ## C3: the status is the last history entry -/

theorem Order.historyOk_withStatus (o : Order) (status : Option String) (now updatedBy : Nat) :
    (o.withStatus status now updatedBy).historyOk := by
  refine ⟨by simp [Order.withStatus], { status := status, timestamp := now, updatedBy := updatedBy }, ?_, rfl⟩
  simp [Order.withStatus]

theorem Order.historyOk_congr (o o1 : Order)
    (hs : o1.applyDefaults.status = o.applyDefaults.status)
    (hh : o1.statusHistory = o.statusHistory) (h : o.historyOk) : o1.historyOk := by
  unfold Order.historyOk at h ⊢
  rw [hs, hh]
  exact h

/-- In a store whose orders satisfy the history invariant, a loaded order
satisfies it. -/
theorem Order.historyOk_loaded {s : Store} (h : ∀ o ∈ s.orders, o.historyOk) {id : Nat}
    {order : Order} (hf : Order.findById s id = some order) : order.historyOk := by
  obtain ⟨o, ho, hl⟩ := Order.findById_eq_some.mp hf
  rw [hl]
  exact Order.historyOk_congr o _ rfl rfl (h o (List.getElem?_mem ho))

theorem forall_mem_set {α : Type} {P : α → Prop} {l : List α} (h : ∀ x ∈ l, P x) {a : α}
    (ha : P a) (i : Nat) : ∀ x ∈ l.set i a, P x := by
  intro x hx
  rcases List.mem_or_eq_of_mem_set hx with hx | hx
  · exact h x hx
  · rw [hx]; exact ha

/-- Every step keeps the history invariant of every stored order. -/
theorem Step.history_stays_ok {s t : Store} (hstep : Step s t) (h : ∀ o ∈ s.orders, o.historyOk) :
    ∀ o ∈ t.orders, o.historyOk := by
  cases hstep with
  | getCart user => rw [getCart_orders]; exact h
  | addToCart user packageId quantity => rw [addToCart_orders]; exact h
  | updateCartItem user packageId quantity => rw [updateCartItem_orders]; exact h
  | removeFromCart user packageId => rw [removeFromCart_orders]; exact h
  | clearCart user => rw [clearCart_orders]; exact h
  | directory users packages => exact h
  | createFeedback user req => rw [(createFeedback_frame s user req).1]; exact h
  | updateFeedback user id body => rw [(updateFeedback_frame s user id body).1]; exact h
  | deleteFeedback user id => rw [(deleteFeedback_frame s user id).1]; exact h
  | respondToFeedback user id comment now =>
    rw [(respondToFeedback_frame s user id comment now).1]; exact h
  | createOrder user req now =>
    rcases createOrder_orders s user req now with he | ⟨o, he, _, _, hst, _, hh⟩
    · rw [he]; exact h
    · rw [he]
      intro x hx
      rcases List.mem_append.mp hx with hx | hx
      · exact h x hx
      · rw [List.mem_singleton.mp hx]
        refine ⟨by rw [hh]; simp,
          { status := some "pending", timestamp := now, updatedBy := user.id }, ?_, ?_⟩
        · rw [hh]; rfl
        · show some (o.status.getD "pending") = _
          rw [hst]
  | updateOrderStatus user id status now =>
    rcases updateOrderStatus_orders s user id status now with he | ⟨o, _, he⟩
    · rw [he]; exact h
    · rw [he]; exact forall_mem_set h (Order.historyOk_withStatus _ _ _ _) _
  | cancelOrder user id now =>
    rcases cancelOrder_orders s user id now with he | ⟨o, _, _, he⟩
    · rw [he]; exact h
    · rw [he]; exact forall_mem_set h (Order.historyOk_withStatus _ _ _ _) _
  | assignWorker id workerId =>
    rcases assignWorker_orders s id workerId with he | ⟨o, ho, he⟩
    · rw [he]; exact h
    · rw [he]
      refine forall_mem_set h ?_ _
      exact Order.historyOk_congr o _ rfl rfl (Order.historyOk_loaded h ho)
  | assignDeliverer id delivererId =>
    rcases assignDeliverer_orders s id delivererId with he | ⟨o, ho, he⟩
    · rw [he]; exact h
    · rw [he]
      refine forall_mem_set h ?_ _
      exact Order.historyOk_congr o _ rfl rfl (Order.historyOk_loaded h ho)
  | processPayment user orderId stripe now =>
    rcases processPayment_orders s user orderId stripe now with he | ⟨o, o1, ho, he, ho1⟩
    · rw [he]; exact h
    · rw [he]
      refine forall_mem_set h ?_ _
      rcases ho1 with ⟨_, ho1⟩ | ⟨_, ho1⟩
      · rw [ho1]; exact Order.historyOk_congr o _ rfl rfl (Order.historyOk_loaded h ho)
      · rw [ho1]; exact Order.historyOk_withStatus _ _ _ _
  | createCashOnDeliveryPayment user orderId now =>
    rcases createCashOnDeliveryPayment_orders s user orderId now with he | ⟨o, o1, ho, he, ho1⟩
    · rw [he]; exact h
    · rw [he]
      refine forall_mem_set h ?_ _
      rcases ho1 with ⟨_, ho1⟩ | ⟨_, ho1⟩
      · rw [ho1]; exact Order.historyOk_congr o _ rfl rfl (Order.historyOk_loaded h ho)
      · rw [ho1]; exact Order.historyOk_withStatus _ _ _ _
  | markCashPaymentAsPaid paymentId =>
    rcases markCashPaymentAsPaid_orders s paymentId with he | ⟨p, o, _, ho, he⟩
    · rw [he]; exact h
    · rw [he]
      refine forall_mem_set h ?_ _
      exact Order.historyOk_congr o _ rfl rfl (Order.historyOk_loaded h ho)

/-- In every reachable state every stored order satisfies the history
invariant. -/
theorem Reachable.history_ok {s : Store} (h : Reachable s) : ∀ o ∈ s.orders, o.historyOk := by
  induction h with
  | init users packages => intro o ho; simp at ho
  | step _ hstep ih => exact Step.history_stays_ok hstep ih

/-- C3 (defect in the code): the status of an order can differ from the status
of its last history entry.  `unsetStatusStore` is reachable (user 1 checks out,
an admin sends a status update without `status`, which is accepted); its order
0 is read with the schema default `pending`, while the last entry of its
history has no status.  In every reachable state every order that is read has a
non-empty history, and the status it is read with is the status of the last
entry whenever that entry has one, and `pending` otherwise. -/
theorem C3_status_differs_from_last_entry :
    Reachable unsetStatusStore
    ∧ unsetStatusStore.orders = [cartStoreOrder.withStatus none 6 9]
    ∧ Order.findById unsetStatusStore 0
        = some { cartStoreOrder.withStatus none 6 9 with status := some "pending" }
    ∧ (cartStoreOrder.withStatus none 6 9).statusHistory.getLast?
        = some { status := none, timestamp := 6, updatedBy := 9 }
    ∧ (¬ ∀ order, Order.findById unsetStatusStore 0 = some order →
          ∃ e, order.statusHistory.getLast? = some e ∧ order.status = e.status)
    ∧ ∀ (s : Store), Reachable s →
        ∀ (id : Nat) (order : Order), Order.findById s id = some order →
          order.statusHistory ≠ []
          ∧ ∃ e, order.statusHistory.getLast? = some e
              ∧ order.status = some (e.status.getD "pending")
              ∧ (e.status ≠ none → order.status = e.status) := by
  refine ⟨?_, by decide, by decide, by decide, ?_, ?_⟩
  · exact Reachable.step
      (Reachable.step
        (Reachable.step
          (Reachable.step (Reachable.init [] [{ id := 10, price := 20 }])
            (Step.addToCart _ { id := 1, role := "user" } 10 (some 1)))
          (Step.addToCart _ { id := 1, role := "user" } 10 (some 1)))
        (Step.createOrder _ { id := 1, role := "user" }
          { pickupDate := some 100, deliveryDate := some 200, paymentMethod := none } 5))
      (Step.updateOrderStatus _ { id := 9, role := "admin" } 0 none 6)
  · intro h
    obtain ⟨e, he, hst⟩ :=
      h { cartStoreOrder.withStatus none 6 9 with status := some "pending" } (by decide)
    have hlast : ({ cartStoreOrder.withStatus none 6 9 with status := some "pending" } :
        Order).statusHistory.getLast? = some { status := none, timestamp := 6, updatedBy := 9 } := by
      decide
    rw [hlast] at he
    rw [← Option.some.inj he] at hst
    exact Option.noConfusion hst
  · intro s hs id order hfind
    obtain ⟨hne, e, he, hst⟩ := Order.historyOk_loaded (Reachable.history_ok hs) hfind
    obtain ⟨o, _, hl⟩ := Order.findById_eq_some.mp hfind
    have hidem : order.applyDefaults = order := by rw [hl]; rfl
    rw [hidem] at hst
    refine ⟨hne, e, he, hst, ?_⟩
    intro hset
    rw [hst]
    cases hes : e.status with
    | none => exact absurd hes hset
    | some st => rfl

/-! ## C4: cancelling an order -/

/-- C4: for an order as the handler loads it (schema-valid, as every order of a
reachable state is) and an actor who is its owner or an admin, `cancelOrder`
succeeds exactly when the current status is `pending` or `confirmed`; it then
replies 200, the stored status becomes `cancelled` and the history is the old
one followed by one `cancelled` entry attributed to the actor; for any other
current status it replies 400 and the store is unchanged. -/
theorem C4_cancelOrder_iff_pending_or_confirmed (s : Store) (id : Nat) (order : Order)
    (user : Actor) (now : Nat)
    (hfind : Order.findById s id = some order)
    (hvalid : OrderSchema.validate order = true)
    (hactor : order.user = user.id ∨ user.role = "admin") :
    cancelOrder s user id now =
        (if order.status = some "pending" ∨ order.status = some "confirmed" then
          ({ s with orders := s.orders.set id (order.withStatus (some "cancelled") now user.id) },
           .json 200 (order.withStatus (some "cancelled") now user.id))
        else
          (s, .fail 400 "Order cannot be cancelled at this stage"))
    ∧ (order.withStatus (some "cancelled") now user.id).status = some "cancelled"
    ∧ (order.withStatus (some "cancelled") now user.id).statusHistory
        = order.statusHistory ++ [{ status := some "cancelled", timestamp := now, updatedBy := user.id }]
    ∧ ({ s with orders := s.orders.set id (order.withStatus (some "cancelled") now user.id) } :
        Store).orders[id]? = some (order.withStatus (some "cancelled") now user.id) := by
  refine ⟨?_, rfl, rfl, ?_⟩
  · unfold cancelOrder
    rw [hfind]
    dsimp only
    have hauth : ¬(order.user ≠ user.id ∧ user.role ≠ "admin") := by
      rintro ⟨h1, h2⟩
      rcases hactor with h | h
      · exact h1 h
      · exact h2 h
    rw [if_neg hauth]
    by_cases hst : order.status = some "pending" ∨ order.status = some "confirmed"
    · have hguard : ¬(order.status ≠ some "pending" ∧ order.status ≠ some "confirmed") := by
        rintro ⟨h1, h2⟩
        rcases hst with h | h
        · exact h1 h
        · exact h2 h
      rw [if_neg hguard, if_pos hst]
      have hv : OrderSchema.validate (order.withStatus (some "cancelled") now user.id) = true := by
        rw [OrderSchema.validate_withStatus hvalid]; decide
      unfold Order.save
      rw [if_pos hv]
    · have hguard : order.status ≠ some "pending" ∧ order.status ≠ some "confirmed" :=
        ⟨fun h => hst (Or.inl h), fun h => hst (Or.inr h)⟩
      rw [if_pos hguard, if_neg hst]
  · obtain ⟨o, ho, _⟩ := Order.findById_eq_some.mp hfind
    have hlt : id < s.orders.length := (List.getElem?_eq_some_iff.mp ho).1
    simp [List.getElem?_set_self hlt]

/-- Witness for `C4_cancelOrder_iff_pending_or_confirmed`: the owner cancels the
confirmed order 0 of `sampleStore`, and the order 0 of `unsetStatusStore`, which
is stored without status and read as `pending`. -/
theorem C4_cancelOrder_iff_pending_or_confirmed_witness :
    Order.findById sampleStore 0 = some sampleOrder
    ∧ OrderSchema.validate sampleOrder = true
    ∧ sampleOrder.user = 1
    ∧ cancelOrder sampleStore { id := 1, role := "user" } 0 4
        = ({ sampleStore with orders := [sampleOrder.withStatus (some "cancelled") 4 1] },
           .json 200 (sampleOrder.withStatus (some "cancelled") 4 1))
    ∧ unsetStatusStore.orders = [cartStoreOrder.withStatus none 6 9]
    ∧ cancelOrder unsetStatusStore { id := 1, role := "user" } 0 9
        = ({ unsetStatusStore with
              orders := [(cartStoreOrder.withStatus none 6 9).withStatus (some "cancelled") 9 1] },
           .json 200 ((cartStoreOrder.withStatus none 6 9).withStatus (some "cancelled") 9 1)) :=
  ⟨by decide, by decide, by decide,
   (C4_cancelOrder_iff_pending_or_confirmed sampleStore 0 sampleOrder { id := 1, role := "user" } 4
      (by decide) (by decide) (Or.inl (by decide))).1,
   by decide,
   (C4_cancelOrder_iff_pending_or_confirmed unsetStatusStore 0
      { cartStoreOrder.withStatus none 6 9 with status := some "pending" }
      { id := 1, role := "user" } 9 (by decide) (by decide) (Or.inl (by decide))).1⟩

/-! ## C5: how an order becomes cancelled -/

/-- The order at a position after one order has been overwritten. -/
theorem getElem?_set_cases {l : List Order} {i j : Nat} {o o1 o2 : Order}
    (hi : l[i]? = some o) (h : (l.set j o1)[i]? = some o2) :
    o2 = o ∨ (i = j ∧ o2 = o1) := by
  by_cases hij : j = i
  · right
    subst hij
    rw [List.getElem?_set_self (List.getElem?_eq_some_iff.mp hi).1] at h
    exact ⟨rfl, (Option.some.inj h).symm⟩
  · left
    rw [List.getElem?_set_ne hij, hi] at h
    exact (Option.some.inj h).symm

/-- The order loaded from a position after one order has been overwritten. -/
theorem Order.findById_set_cases {s t : Store} {i j : Nat} {o o1 o2 : Order}
    (hi : Order.findById s i = some o) (ht : t.orders = s.orders.set j o1)
    (h : Order.findById t i = some o2) : o2 = o ∨ (i = j ∧ o2 = o1.applyDefaults) := by
  obtain ⟨a, ha, hoa⟩ := Order.findById_eq_some.mp hi
  obtain ⟨b, hb, hob⟩ := Order.findById_eq_some.mp h
  rw [ht] at hb
  rcases getElem?_set_cases ha hb with hba | ⟨hij, hb1⟩
  · left; rw [hob, hoa, hba]
  · right; exact ⟨hij, by rw [hob, hb1]⟩

/-- A loaded order is its own loaded form. -/
theorem Order.findById_applyDefaults {s : Store} {i : Nat} {o : Order}
    (h : Order.findById s i = some o) : o.applyDefaults = o := by
  obtain ⟨a, _, hoa⟩ := Order.findById_eq_some.mp h
  rw [hoa]; rfl

/-- The handlers `cancelOrder`, `processPayment`, `createCashOnDeliveryPayment`
and `markCashPaymentAsPaid` take an order to `cancelled` only from `pending` or
`confirmed`. -/
theorem cancelled_by_siblings (s : Store) (i : Nat) (o o2 : Order)
    (hbefore : Order.findById s i = some o)
    (hwas : o.status ≠ some "cancelled")
    (hnow : o2.status = some "cancelled") :
    (∀ (user : Actor) (id now : Nat),
        Order.findById (cancelOrder s user id now).1 i = some o2 →
        o.status = some "pending" ∨ o.status = some "confirmed")
    ∧ (∀ (user : Actor) (orderId : Nat) (stripe : Int → Charge) (now : Nat),
        Order.findById (processPayment s user orderId stripe now).1 i = some o2 →
        o.status = some "pending" ∨ o.status = some "confirmed")
    ∧ (∀ (user : Actor) (orderId now : Nat),
        Order.findById (createCashOnDeliveryPayment s user orderId now).1 i = some o2 →
        o.status = some "pending" ∨ o.status = some "confirmed")
    ∧ (∀ (paymentId : Nat),
        Order.findById (markCashPaymentAsPaid s paymentId).1 i = some o2 →
        o.status = some "pending" ∨ o.status = some "confirmed") := by
  have hsame : o2 = o → o.status = some "pending" ∨ o.status = some "confirmed" := by
    intro h; rw [h] at hnow; exact absurd hnow hwas
  have hunchanged : ∀ t : Store, t.orders = s.orders → Order.findById t i = some o2 →
      o.status = some "pending" ∨ o.status = some "confirmed" := by
    intro t ht hafter
    have : Order.findById t i = Order.findById s i := by
      unfold Order.findById; rw [ht]
    rw [this, hbefore] at hafter
    exact hsame (Option.some.inj hafter).symm
  have hkeep : ∀ o1 : Order, o1.status = o.status → o2 = o1.applyDefaults →
      o.status = some "pending" ∨ o.status = some "confirmed" := by
    intro o1 h1 h21
    have hst : o2.status = o.status := by
      rw [h21]
      show some (o1.status.getD "pending") = o.status
      rw [h1]
      have := congrArg Order.status (Order.findById_applyDefaults hbefore)
      exact this
    rw [hst] at hnow
    exact absurd hnow hwas
  refine ⟨?_, ?_, ?_, ?_⟩
  · intro user id now hafter
    rcases cancelOrder_orders s user id now with he | ⟨o0, ho0, hst, he⟩
    · exact hunchanged _ he hafter
    · rcases Order.findById_set_cases hbefore he hafter with h | ⟨hij, _⟩
      · exact hsame h
      · subst hij
        rw [hbefore] at ho0
        rw [Option.some.inj ho0]
        exact hst
  · intro user orderId stripe now hafter
    rcases processPayment_orders s user orderId stripe now with he | ⟨o0, o1, ho0, he, ho1⟩
    · exact hunchanged _ he hafter
    · rcases Order.findById_set_cases hbefore he hafter with h | ⟨hij, h21⟩
      · exact hsame h
      · subst hij
        rw [hbefore] at ho0
        rw [Option.some.inj ho0]
        rcases ho1 with ⟨_, ho1⟩ | ⟨hp, _⟩
        · exact (Option.some.inj ho0) ▸ hkeep o1 (by rw [ho1, ← Option.some.inj ho0]) h21
        · exact Or.inl hp
  · intro user orderId now hafter
    rcases createCashOnDeliveryPayment_orders s user orderId now with
      he | ⟨o0, o1, ho0, he, ho1⟩
    · exact hunchanged _ he hafter
    · rcases Order.findById_set_cases hbefore he hafter with h | ⟨hij, h21⟩
      · exact hsame h
      · subst hij
        rw [hbefore] at ho0
        rw [Option.some.inj ho0]
        rcases ho1 with ⟨_, ho1⟩ | ⟨hp, _⟩
        · exact (Option.some.inj ho0) ▸ hkeep o1 (by rw [ho1, ← Option.some.inj ho0]) h21
        · exact Or.inl hp
  · intro paymentId hafter
    rcases markCashPaymentAsPaid_orders s paymentId with he | ⟨p, o0, _, ho0, he⟩
    · exact hunchanged _ he hafter
    · rcases Order.findById_set_cases hbefore he hafter with h | ⟨hij, h21⟩
      · exact hsame h
      · subst hij
        rw [hbefore] at ho0
        exact hkeep _ (by rw [← Option.some.inj ho0]) h21

/-- C5 (defect in the code): `updateOrderStatus` takes an order to `cancelled`
from any status.  On `processingStore`, whose order 0 is being processed, an
admin who asks `updateOrderStatus` for `cancelled` gets a 200 reply and the
order is cancelled; in general the request of an admin or a manager succeeds
for every loaded, valid order whatever its status.  The sibling handlers keep
the rule: `cancelOrder`,
`processPayment`, `createCashOnDeliveryPayment` and `markCashPaymentAsPaid`
take an order to `cancelled` only from `pending` or `confirmed`. -/
theorem C5_updateOrderStatus_cancels_from_any_status :
    processingOrder.status = some "processing"
    ∧ Order.findById processingStore 0 = some processingOrder
    ∧ updateOrderStatus processingStore { id := 9, role := "admin" } 0 (some "cancelled") 4
        = ({ processingStore with orders := [processingOrder.withStatus (some "cancelled") 4 9] },
           .json 200 (processingOrder.withStatus (some "cancelled") 4 9))
    ∧ (processingOrder.withStatus (some "cancelled") 4 9).status = some "cancelled"
    ∧ (∀ (s : Store) (user : Actor) (id now : Nat) (order : Order),
        Order.findById s id = some order → OrderSchema.validate order = true →
        user.role = "admin" ∨ user.role = "manager" →
        updateOrderStatus s user id (some "cancelled") now
          = ({ s with orders := s.orders.set id (order.withStatus (some "cancelled") now user.id) },
             .json 200 (order.withStatus (some "cancelled") now user.id)))
    ∧ ∀ (s : Store) (i : Nat) (o o2 : Order), Order.findById s i = some o →
        o.status ≠ some "cancelled" → o2.status = some "cancelled" →
        (∀ (user : Actor) (id now : Nat),
            Order.findById (cancelOrder s user id now).1 i = some o2 →
            o.status = some "pending" ∨ o.status = some "confirmed")
        ∧ (∀ (user : Actor) (orderId : Nat) (stripe : Int → Charge) (now : Nat),
            Order.findById (processPayment s user orderId stripe now).1 i = some o2 →
            o.status = some "pending" ∨ o.status = some "confirmed")
        ∧ (∀ (user : Actor) (orderId now : Nat),
            Order.findById (createCashOnDeliveryPayment s user orderId now).1 i = some o2 →
            o.status = some "pending" ∨ o.status = some "confirmed")
        ∧ (∀ (paymentId : Nat),
            Order.findById (markCashPaymentAsPaid s paymentId).1 i = some o2 →
            o.status = some "pending" ∨ o.status = some "confirmed") := by
  refine ⟨by decide, by decide, by decide, by decide, ?_, cancelled_by_siblings⟩
  intro s user id now order hfind hvalid hrole
  have hworker : ¬ (user.role = "worker" ∧ order.assignedWorker = none) := by
    rintro ⟨hw, _⟩
    rcases hrole with h | h <;> rw [hw] at h <;> exact absurd h (by decide)
  rw [updateOrderStatus_of_found hfind, if_neg hworker, OrderSchema.validate_withStatus hvalid]
  simp [enumValidator, statusEnum]

/-! ## C6 to C9: checkout -/

theorem Package.findById_id {packages : List Package} {id : Nat} {pkg : Package}
    (h : Package.findById packages id = some pkg) : pkg.id = id := by
  unfold Package.findById at h
  have := List.find?_some h
  simpa using this

/-- When every line resolves, `orderItems` returns one order line per cart line,
in order, with the catalog price, and adds every line total to the running
total. -/
theorem orderItems_of_resolved (packages : List Package) :
    ∀ (items : List CartItem) (acc : Int),
      (∀ it ∈ items, (Package.findById packages it.package).isSome = true) →
      orderItems (populate packages items) acc =
        .ok (items.map (fun it =>
                { package := it.package, quantity := it.quantity,
                  price := Package.priceOf packages it.package }),
             acc + (items.map (fun it => it.quantity * Package.priceOf packages it.package)).sum)
  | [], acc, _ => by simp [populate, orderItems]
  | it :: rest, acc, h => by
    have hit := h it (List.mem_cons_self _ _)
    have hrest : ∀ x ∈ rest, (Package.findById packages x.package).isSome = true :=
      fun x hx => h x (List.mem_cons_of_mem _ hx)
    obtain ⟨pkg, hpkg⟩ := Option.isSome_iff_exists.mp hit
    have ih := orderItems_of_resolved packages rest (acc + pkg.price * it.quantity) hrest
    unfold populate at ih ⊢
    rw [List.map_cons, hpkg]
    unfold orderItems
    dsimp only
    rw [ih]
    have hprice : Package.priceOf packages it.package = pkg.price := by
      unfold Package.priceOf; rw [hpkg]
    simp only [List.map_cons, List.sum_cons, hprice, Package.findById_id hpkg]
    congr 2
    ring

/-- When some line does not resolve, `orderItems` throws. -/
theorem orderItems_of_unresolved (packages : List Package) :
    ∀ (items : List CartItem) (acc : Int),
      (∃ it ∈ items, Package.findById packages it.package = none) →
      orderItems (populate packages items) acc = .error .typeError
  | [], _, h => by simp at h
  | it :: rest, acc, h => by
    unfold populate
    rw [List.map_cons]
    cases hpkg : Package.findById packages it.package with
    | none => rfl
    | some pkg =>
      have hrest : ∃ x ∈ rest, Package.findById packages x.package = none := by
        obtain ⟨x, hx, hnone⟩ := h
        rcases List.mem_cons.mp hx with hx | hx
        · rw [hx, hpkg] at hnone; exact absurd hnone (by simp)
        · exact ⟨x, hx, hnone⟩
      have ih := orderItems_of_unresolved packages rest (acc + pkg.price * it.quantity) hrest
      unfold populate at ih
      unfold orderItems
      dsimp only
      rw [ih]

/-- The handler `createOrder` in closed form, for a caller whose cart is not
empty and whose lines all resolve. -/
theorem createOrder_of_resolved {s : Store} {user : Actor} {i : Nat} {cart : Cart}
    (hcart : Cart.findOne s user.id = some (i, cart))
    (hne : cart.items ≠ [])
    (hresolve : ∀ it ∈ cart.items, (Package.findById s.packages it.package).isSome = true)
    (req : OrderRequest) (now : Nat) :
    createOrder s user req now =
      if OrderSchema.validate
          (createOrder.document user req now
            (cart.items.map (fun it =>
              { package := it.package, quantity := it.quantity,
                price := Package.priceOf s.packages it.package }))
            (cart.items.map (fun it => it.quantity * Package.priceOf s.packages it.package)).sum)
          = true then
        (Cart.findOneAndUpdate
            { s with orders := s.orders ++
                [createOrder.document user req now
                  (cart.items.map (fun it =>
                    { package := it.package, quantity := it.quantity,
                      price := Package.priceOf s.packages it.package }))
                  (cart.items.map (fun it =>
                    it.quantity * Package.priceOf s.packages it.package)).sum] }
            user.id [],
         .json 201
          (createOrder.document user req now
            (cart.items.map (fun it =>
              { package := it.package, quantity := it.quantity,
                price := Package.priceOf s.packages it.package }))
            (cart.items.map (fun it => it.quantity * Package.priceOf s.packages it.package)).sum))
      else
        (s, .next .validationError) := by
  unfold createOrder
  rw [hcart]
  dsimp only
  have hlen : ¬ cart.items.length = 0 := by
    intro h; exact hne (List.length_eq_zero.mp h)
  rw [if_neg hlen, orderItems_of_resolved s.packages cart.items 0 hresolve]
  dsimp only
  rw [zero_add]
  unfold Order.create
  by_cases hv : OrderSchema.validate
      (createOrder.document user req now
        (cart.items.map (fun it =>
          { package := it.package, quantity := it.quantity,
            price := Package.priceOf s.packages it.package }))
        (cart.items.map (fun it => it.quantity * Package.priceOf s.packages it.package)).sum)
      = true
  · rw [if_pos hv, if_pos hv]
  · rw [if_neg hv, if_neg hv]

/-- A freshly built order document is valid exactly when its lines have
quantity at least 1, the request carries both dates and its payment method, if
any, is in the enum. -/
theorem OrderSchema.validate_document (user : Actor) (req : OrderRequest) (now : Nat)
    (items : List OrderItem) (totalAmount : Int) :
    OrderSchema.validate (createOrder.document user req now items totalAmount) =
      (items.all (fun it => decide (1 ≤ it.quantity))
        && enumValidator paymentMethodEnum req.paymentMethod
        && req.pickupDate.isSome && req.deliveryDate.isSome) := by
  unfold OrderSchema.validate createOrder.document
  cases hpm : req.paymentMethod with
  | none => simp [enumValidator, statusEnum, paymentStatusEnum, paymentMethodEnum]
  | some m => simp [enumValidator, statusEnum, paymentStatusEnum]

theorem findIdx?_set_of_eq {α : Type} (p : α → Bool) :
    ∀ (l : List α) (i : Nat) (a x : α) (start : Nat), l[i]? = some a → p x = p a →
      (l.set i x).findIdx? p start = l.findIdx? p start
  | [], _, _, _, _, h, _ => by simp at h
  | b :: l, 0, a, x, start, h, hp => by
    simp only [List.getElem?_cons_zero, Option.some.injEq] at h
    subst h
    simp [List.findIdx?_cons, hp]
  | b :: l, i + 1, a, x, start, h, hp => by
    simp only [List.getElem?_cons_succ] at h
    have ih := findIdx?_set_of_eq p l i a x 0 h hp
    simp [List.findIdx?_cons, ih]

theorem Cart.findOne_eq_some {s : Store} {user i : Nat} {c : Cart}
    (h : Cart.findOne s user = some (i, c)) :
    s.carts.findIdx? (fun c => decide (c.user = user)) = some i
      ∧ s.carts[i]? = some c ∧ c.user = user := by
  unfold Cart.findOne at h
  split at h
  · simp at h
  · rename_i j hj
    split at h
    · simp at h
    · rename_i c1 hc1
      simp only [Option.some.injEq, Prod.mk.injEq] at h
      obtain ⟨hji, hcc⟩ := h
      subst hji hcc
      refine ⟨hj, hc1, ?_⟩
      have := List.findIdx?_of_eq_some hj
      rw [hc1] at this
      simpa using this

theorem Cart.findOne_of_findIdx {s : Store} {user i : Nat} {c : Cart}
    (hidx : s.carts.findIdx? (fun c => decide (c.user = user)) = some i)
    (hc : s.carts[i]? = some c) : Cart.findOne s user = some (i, c) := by
  unfold Cart.findOne
  rw [hidx]
  dsimp only
  rw [hc]

/-- After `Cart.findOneAndUpdate` the caller's cart is the same cart, at the
same position, with the new item list. -/
theorem Cart.findOne_findOneAndUpdate {s : Store} {user i : Nat} {c : Cart}
    (h : Cart.findOne s user = some (i, c)) (items : List CartItem) :
    Cart.findOne (Cart.findOneAndUpdate s user items) user = some (i, { c with items := items })
      ∧ (Cart.findOneAndUpdate s user items).carts = s.carts.set i { c with items := items } := by
  obtain ⟨hidx, hc, hu⟩ := Cart.findOne_eq_some h
  have hupd : Cart.findOneAndUpdate s user items
      = { s with carts := s.carts.set i { c with items := items } } := by
    unfold Cart.findOneAndUpdate
    rw [h]
  rw [hupd]
  refine ⟨?_, rfl⟩
  apply Cart.findOne_of_findIdx
  · show (s.carts.set i { c with items := items }).findIdx? _ = some i
    rw [findIdx?_set_of_eq _ s.carts i c _ 0 hc (by simp), hidx]
  · show (s.carts.set i { c with items := items })[i]? = _
    rw [List.getElem?_set_self (List.getElem?_eq_some_iff.mp hc).1]

/-- C6: for a caller whose cart is not empty and whose lines all resolve in the
catalog, every order `createOrder` replies with has, in cart order, one line
per cart line made of the package id, the cart quantity and the package's
current price, its `totalAmount` is the sum over its lines of quantity times
price, and it is stored; and `createOrder` does reply 201 with such an order
whenever the cart and the request pass schema validation (quantities at least
1, both dates present, payment method absent or in the enum). -/
theorem C6_createOrder_items_and_total (s : Store) (user : Actor) (i : Nat) (cart : Cart)
    (req : OrderRequest) (now : Nat)
    (hcart : Cart.findOne s user.id = some (i, cart))
    (hne : cart.items ≠ [])
    (hresolve : ∀ it ∈ cart.items, (Package.findById s.packages it.package).isSome = true) :
    (∀ (t : Store) (code : Nat) (o : Order), createOrder s user req now = (t, .json code o) →
        o.items = cart.items.map (fun it =>
            { package := it.package, quantity := it.quantity,
              price := Package.priceOf s.packages it.package })
        ∧ o.totalAmount = (o.items.map (fun line => line.quantity * line.price)).sum
        ∧ t.orders = s.orders ++ [o])
    ∧ (CartSchema.validate cart = true → req.pickupDate.isSome = true →
        req.deliveryDate.isSome = true → enumValidator paymentMethodEnum req.paymentMethod = true →
        ∃ (t : Store) (o : Order), createOrder s user req now = (t, .json 201 o)) := by
  have hclosed := createOrder_of_resolved hcart hne hresolve req now
  constructor
  · intro t code o h
    rw [hclosed] at h
    split at h
    · simp only [Prod.mk.injEq, Reply.json.injEq] at h
      obtain ⟨ht, _, ho⟩ := h
      subst ho
      refine ⟨rfl, ?_, ?_⟩
      · simp [createOrder.document, List.map_map, Function.comp_def]
      · rw [← ht, Cart.findOneAndUpdate_orders]
    · simp at h
  · intro hv hp hd hm
    rw [hclosed, OrderSchema.validate_document]
    have hall : (cart.items.map (fun it =>
        ({ package := it.package, quantity := it.quantity,
           price := Package.priceOf s.packages it.package } : OrderItem))).all
          (fun it => decide (1 ≤ it.quantity)) = true := by
      unfold CartSchema.validate at hv
      simpa [List.all_map, Function.comp_def] using hv
    rw [hall, hm, hp, hd]
    exact ⟨_, _, rfl⟩

/-- Witness for `C6_createOrder_items_and_total`: a cart with two units of a
package priced 20 gives an order with `totalAmount` 40. -/
theorem C6_createOrder_items_and_total_witness :
    Cart.findOne cartStore 1 = some (0, { user := 1, items := [{ package := 10, quantity := 2 }] })
    ∧ createOrder cartStore { id := 1, role := "user" }
        { pickupDate := some 100, deliveryDate := some 200, paymentMethod := none } 5
        = ({ cartStore with carts := [{ user := 1, items := [] }], orders := [cartStoreOrder] },
           .json 201 cartStoreOrder)
    ∧ cartStoreOrder.items = [{ package := 10, quantity := 2, price := 20 }]
    ∧ cartStoreOrder.totalAmount = 40
    ∧ (cartStoreOrder.items
          = [({ package := 10, quantity := 2 } : CartItem)].map (fun it =>
              { package := it.package, quantity := it.quantity,
                price := Package.priceOf cartStore.packages it.package })
        ∧ cartStoreOrder.totalAmount
            = (cartStoreOrder.items.map (fun line => line.quantity * line.price)).sum
        ∧ ({ cartStore with carts := [{ user := 1, items := [] }],
                            orders := [cartStoreOrder] } : Store).orders
            = cartStore.orders ++ [cartStoreOrder]) :=
  ⟨by decide, by decide, by decide, by decide,
   (C6_createOrder_items_and_total cartStore { id := 1, role := "user" } 0
      { user := 1, items := [{ package := 10, quantity := 2 }] }
      { pickupDate := some 100, deliveryDate := some 200, paymentMethod := none } 5
      (by decide) (by decide) (by decide)).1
      { cartStore with carts := [{ user := 1, items := [] }], orders := [cartStoreOrder] }
      201 cartStoreOrder (by decide)⟩

/-- C7: whenever `createOrder` replies with an order, the reply is a 201, the
order is owned by the caller, has status `pending`, payment status `pending`
and a history of exactly one `pending` entry attributed to the caller; it is
the order appended to the store; no cart is added or removed, and the caller's
cart is still there, at the same position, with an empty item list. -/
theorem C7_created_order_and_cleared_cart (s t : Store) (user : Actor) (req : OrderRequest)
    (now code : Nat) (o : Order)
    (h : createOrder s user req now = (t, .json code o)) :
    code = 201
    ∧ o.user = user.id ∧ o.status = some "pending" ∧ o.paymentStatus = "pending"
    ∧ o.statusHistory = [{ status := some "pending", timestamp := now, updatedBy := user.id }]
    ∧ t.orders = s.orders ++ [o]
    ∧ t.carts.length = s.carts.length
    ∧ ∃ (i : Nat) (c : Cart), Cart.findOne s user.id = some (i, c)
        ∧ Cart.findOne t user.id = some (i, { c with items := [] }) := by
  unfold createOrder at h
  split at h
  · simp at h
  · rename_i i cart hcart
    split at h
    · simp at h
    · split at h
      · simp at h
      · dsimp only at h
        split at h
        · simp at h
        · rename_i s1 hcreate
          rw [Order.create_order_eq_ok] at hcreate
          simp only [Prod.mk.injEq, Reply.json.injEq] at h
          obtain ⟨ht, hcode, ho⟩ := h
          have hcart1 : Cart.findOne s1 user.id = some (i, cart) := by
            rw [hcreate.2]; exact hcart
          obtain ⟨hfind, hcarts⟩ := Cart.findOne_findOneAndUpdate hcart1 []
          subst ho
          refine ⟨hcode.symm, rfl, rfl, rfl, rfl, ?_, ?_, i, cart, hcart, ?_⟩
          · rw [← ht, Cart.findOneAndUpdate_orders, hcreate.2]
          · rw [← ht, hcarts, List.length_set, hcreate.2]
          · rw [← ht]; exact hfind

/-- Witness for `C7_created_order_and_cleared_cart`: checkout on `cartStore`. -/
theorem C7_created_order_and_cleared_cart_witness :
    createOrder cartStore { id := 1, role := "user" }
        { pickupDate := some 100, deliveryDate := some 200, paymentMethod := none } 5
        = ({ cartStore with carts := [{ user := 1, items := [] }], orders := [cartStoreOrder] },
           .json 201 cartStoreOrder)
    ∧ cartStoreOrder.user = 1 ∧ cartStoreOrder.status = some "pending"
    ∧ cartStoreOrder.paymentStatus = "pending"
    ∧ cartStoreOrder.statusHistory = [{ status := some "pending", timestamp := 5, updatedBy := 1 }] :=
  have h := C7_created_order_and_cleared_cart cartStore
    { cartStore with carts := [{ user := 1, items := [] }], orders := [cartStoreOrder] }
    { id := 1, role := "user" }
    { pickupDate := some 100, deliveryDate := some 200, paymentMethod := none } 5 201
    cartStoreOrder (by decide)
  ⟨by decide, h.2.1, h.2.2.1, h.2.2.2.1, h.2.2.2.2.1⟩

/-- C8: when the caller has no cart, or a cart with an empty item list,
`createOrder` replies 400 and the store, orders and carts included, is
unchanged. -/
theorem C8_createOrder_empty_cart (s : Store) (user : Actor) (req : OrderRequest) (now : Nat)
    (h : Cart.findOne s user.id = none
      ∨ ∃ (i : Nat) (c : Cart), Cart.findOne s user.id = some (i, c) ∧ c.items = []) :
    createOrder s user req now = (s, .fail 400 "Your cart is empty") := by
  unfold createOrder
  rcases h with h | ⟨i, c, h, hc⟩
  · rw [h]
  · rw [h]
    dsimp only
    rw [if_pos (by rw [hc]; rfl)]

/-- Witness for `C8_createOrder_empty_cart`: user 1 has no cart in
`sampleStore`. -/
theorem C8_createOrder_empty_cart_witness :
    Cart.findOne sampleStore 1 = none
    ∧ createOrder sampleStore { id := 1, role := "user" }
        { pickupDate := some 100, deliveryDate := some 200, paymentMethod := none } 5
        = (sampleStore, .fail 400 "Your cart is empty") :=
  ⟨by decide,
   C8_createOrder_empty_cart sampleStore { id := 1, role := "user" }
     { pickupDate := some 100, deliveryDate := some 200, paymentMethod := none } 5
     (Or.inl (by decide))⟩

/-- C9: when some line of the caller's cart names a package the catalog does
not have, `createOrder` fails with the thrown type error and the store is
unchanged: no order is created and the cart keeps its items. -/
theorem C9_createOrder_unresolved_package (s : Store) (user : Actor) (req : OrderRequest)
    (now i : Nat) (cart : Cart)
    (hcart : Cart.findOne s user.id = some (i, cart))
    (hmissing : ∃ it ∈ cart.items, Package.findById s.packages it.package = none) :
    createOrder s user req now = (s, .next .typeError)
    ∧ (createOrder s user req now).1.orders = s.orders
    ∧ Cart.findOne (createOrder s user req now).1 user.id = some (i, cart) := by
  have h : createOrder s user req now = (s, .next .typeError) := by
    unfold createOrder
    rw [hcart]
    dsimp only
    have hlen : ¬ cart.items.length = 0 := by
      obtain ⟨it, hit, _⟩ := hmissing
      intro h0
      rw [List.length_eq_zero.mp h0] at hit
      simp at hit
    rw [if_neg hlen, orderItems_of_unresolved s.packages cart.items 0 hmissing]
  rw [h]
  exact ⟨rfl, rfl, hcart⟩

/-- Witness for `C9_createOrder_unresolved_package`: the catalog of `cartStore`
has lost package 10. -/
theorem C9_createOrder_unresolved_package_witness :
    Cart.findOne { cartStore with packages := [] } 1
        = some (0, { user := 1, items := [{ package := 10, quantity := 2 }] })
    ∧ Package.findById [] 10 = none
    ∧ createOrder { cartStore with packages := [] } { id := 1, role := "user" }
        { pickupDate := some 100, deliveryDate := some 200, paymentMethod := none } 5
        = ({ cartStore with packages := [] }, .next .typeError) :=
  ⟨by decide, by decide,
   (C9_createOrder_unresolved_package { cartStore with packages := [] }
      { id := 1, role := "user" }
      { pickupDate := some 100, deliveryDate := some 200, paymentMethod := none } 5 0
      { user := 1, items := [{ package := 10, quantity := 2 }] } (by decide)
      ⟨{ package := 10, quantity := 2 }, by decide, by decide⟩).1⟩

/-! ## C10: one cart line per package -/

theorem updateOrderStatus_carts (s : Store) (user : Actor) (id : Nat) (status : Option String)
    (now : Nat) : (updateOrderStatus s user id status now).1.carts = s.carts := by
  unfold updateOrderStatus
  repeat' first | split | dsimp only
  all_goals first | rfl | simp_all [Order.save_order_eq_ok]

theorem cancelOrder_carts (s : Store) (user : Actor) (id : Nat) (now : Nat) :
    (cancelOrder s user id now).1.carts = s.carts := by
  unfold cancelOrder
  repeat' first | split | dsimp only
  all_goals first | rfl | simp_all [Order.save_order_eq_ok]

theorem assignWorker_carts (s : Store) (id workerId : Nat) :
    (assignWorker s id workerId).1.carts = s.carts := by
  unfold assignWorker
  repeat' first | split | dsimp only
  all_goals first | rfl | simp_all [Order.save_order_eq_ok]

theorem assignDeliverer_carts (s : Store) (id delivererId : Nat) :
    (assignDeliverer s id delivererId).1.carts = s.carts := by
  unfold assignDeliverer
  repeat' first | split | dsimp only
  all_goals first | rfl | simp_all [Order.save_order_eq_ok]

theorem processPayment_carts (s : Store) (user : Actor) (orderId : Nat) (stripe : Int → Charge)
    (now : Nat) : (processPayment s user orderId stripe now).1.carts = s.carts := by
  unfold processPayment
  repeat' first | split | dsimp only
  all_goals first | rfl | simp_all [Order.save_order_eq_ok, Payment.create_payment_eq_ok]

theorem createCashOnDeliveryPayment_carts (s : Store) (user : Actor) (orderId : Nat)
    (now : Nat) : (createCashOnDeliveryPayment s user orderId now).1.carts = s.carts := by
  unfold createCashOnDeliveryPayment
  repeat' first | split | dsimp only
  all_goals first | rfl | simp_all [Order.save_order_eq_ok, Payment.create_payment_eq_ok]

theorem markCashPaymentAsPaid_carts (s : Store) (paymentId : Nat) :
    (markCashPaymentAsPaid s paymentId).1.carts = s.carts := by
  unfold markCashPaymentAsPaid
  repeat' first | split | dsimp only
  all_goals first | rfl | simp_all [Order.save_order_eq_ok, Payment.save_payment_eq_ok]

theorem Cart.ok_of_items_nil (c : Cart) : Cart.ok { c with items := [] } := by
  constructor
  · simp
  · rfl

theorem map_package_modify (items : List CartItem) (f : CartItem → CartItem)
    (hf : ∀ x, (f x).package = x.package) (k : Nat) :
    (items.modify f k).map (fun item => item.package) = items.map (fun item => item.package) := by
  apply List.ext_getElem?
  intro n
  rw [List.getElem?_map, List.getElem?_map, List.getElem?_modify]
  cases items[n]? with
  | none => rfl
  | some a =>
    by_cases hkn : k = n
    · simp [hkn, hf]
    · simp [hkn]

theorem Cart.findOneAndUpdate_carts_ok (s : Store) (user : Nat)
    (h : ∀ c ∈ s.carts, c.ok) : ∀ c ∈ (Cart.findOneAndUpdate s user []).carts, c.ok := by
  unfold Cart.findOneAndUpdate
  split
  · exact h
  · exact forall_mem_set h (Cart.ok_of_items_nil _) _

theorem createOrder_carts_ok (s : Store) (user : Actor) (req : OrderRequest) (now : Nat)
    (h : ∀ c ∈ s.carts, c.ok) : ∀ c ∈ (createOrder s user req now).1.carts, c.ok := by
  unfold createOrder
  repeat' first | split | dsimp only
  all_goals first | exact h | skip
  rename_i s1 hcreate
  rw [Order.create_order_eq_ok] at hcreate
  apply Cart.findOneAndUpdate_carts_ok
  rw [hcreate.2]
  exact h

theorem getCart_carts_ok (s : Store) (user : Actor) (h : ∀ c ∈ s.carts, c.ok) :
    ∀ c ∈ (getCart s user).1.carts, c.ok := by
  unfold getCart
  split
  · rw [cartReply_fst]; exact h
  · split
    · exact h
    · rename_i s1 hcreate
      rw [Cart.create_cart_eq_ok] at hcreate
      rw [cartReply_fst, hcreate.2]
      intro c hc
      rcases List.mem_append.mp hc with hc | hc
      · exact h c hc
      · rw [List.mem_singleton.mp hc]
        exact Cart.ok_of_items_nil { user := user.id, items := [] }

theorem addToCart_carts_ok (s : Store) (user : Actor) (packageId : Nat) (quantity : Option Int)
    (h : ∀ c ∈ s.carts, c.ok) : ∀ c ∈ (addToCart s user packageId quantity).1.carts, c.ok := by
  unfold addToCart
  dsimp only
  split
  · exact h
  · split
    · exact h
    · rename_i s1 hsaved
      rw [cartReply_fst]
      split at hsaved
      · rw [Cart.create_cart_eq_ok] at hsaved
        rw [hsaved.2]
        intro c hc
        rcases List.mem_append.mp hc with hc | hc
        · exact h c hc
        · rw [List.mem_singleton.mp hc]
          exact ⟨by simp, hsaved.1⟩
      · rename_i i cart hfind
        have hcart : cart.ok := h cart (List.getElem?_mem (Cart.findOne_eq_some hfind).2.1)
        split at hsaved
        · rename_i itemIndex _
          rw [Cart.save_cart_eq_ok] at hsaved
          rw [hsaved.2]
          refine forall_mem_set h ⟨?_, hsaved.1⟩ _
          have hmap := map_package_modify cart.items
            (fun item => { item with quantity := item.quantity + quantity.getD 1 })
            (fun _ => rfl) itemIndex
          show ((cart.items.modify _ _).map _).Nodup
          rw [hmap]
          exact hcart.1
        · rename_i hidx
          rw [Cart.save_cart_eq_ok] at hsaved
          rw [hsaved.2]
          refine forall_mem_set h ⟨?_, hsaved.1⟩ _
          show ((cart.items ++ [_]).map _).Nodup
          rw [List.map_append, List.map_singleton]
          rw [List.findIdx?_eq_none_iff] at hidx
          refine List.Nodup.append hcart.1 (List.nodup_singleton _) ?_
          intro a ha hb
          rw [List.mem_singleton] at hb
          obtain ⟨x, hx, hxa⟩ := List.mem_map.mp ha
          have := hidx x hx
          rw [hb] at hxa
          simp [hxa] at this

theorem updateCartItem_carts_ok (s : Store) (user : Actor) (packageId : Nat)
    (quantity : Option Int) (h : ∀ c ∈ s.carts, c.ok) :
    ∀ c ∈ (updateCartItem s user packageId quantity).1.carts, c.ok := by
  unfold updateCartItem
  split
  · exact h
  · cases hfind : Cart.findOne s user.id with
    | none => exact h
    | some found =>
      obtain ⟨i, cart⟩ := found
      dsimp only
      split
      · exact h
      · rename_i itemIndex _
        cases quantity with
        | none => exact h
        | some q =>
          dsimp only
          split
          · exact h
          · rename_i s1 hsaved
            have hcart : cart.ok := h cart (List.getElem?_mem (Cart.findOne_eq_some hfind).2.1)
            rw [Cart.save_cart_eq_ok] at hsaved
            rw [cartReply_fst, hsaved.2]
            refine forall_mem_set h ⟨?_, hsaved.1⟩ _
            have hmap := map_package_modify cart.items
              (fun item => { item with quantity := q }) (fun _ => rfl) itemIndex
            show ((cart.items.modify _ _).map _).Nodup
            rw [hmap]
            exact hcart.1

theorem removeFromCart_carts_ok (s : Store) (user : Actor) (packageId : Nat)
    (h : ∀ c ∈ s.carts, c.ok) : ∀ c ∈ (removeFromCart s user packageId).1.carts, c.ok := by
  unfold removeFromCart
  cases hfind : Cart.findOne s user.id with
  | none => exact h
  | some found =>
    obtain ⟨i, cart⟩ := found
    dsimp only
    split
    · exact h
    · rename_i s1 hsaved
      have hcart : cart.ok := h cart (List.getElem?_mem (Cart.findOne_eq_some hfind).2.1)
      rw [Cart.save_cart_eq_ok] at hsaved
      rw [cartReply_fst, hsaved.2]
      refine forall_mem_set h ⟨?_, hsaved.1⟩ _
      exact List.Nodup.sublist ((List.filter_sublist _).map _) hcart.1

theorem clearCart_carts_ok (s : Store) (user : Actor) (h : ∀ c ∈ s.carts, c.ok) :
    ∀ c ∈ (clearCart s user).1.carts, c.ok := by
  unfold clearCart
  repeat' first | split | dsimp only
  all_goals first | exact h | skip
  rename_i s1 hsaved
  rw [Cart.save_cart_eq_ok] at hsaved
  rw [hsaved.2]
  exact forall_mem_set h (Cart.ok_of_items_nil _) _

/-- Every step keeps the cart invariant of every stored cart. -/
theorem Step.carts_stay_ok {s t : Store} (hstep : Step s t) (h : ∀ c ∈ s.carts, c.ok) :
    ∀ c ∈ t.carts, c.ok := by
  cases hstep with
  | getCart user => exact getCart_carts_ok s user h
  | addToCart user packageId quantity => exact addToCart_carts_ok s user packageId quantity h
  | updateCartItem user packageId quantity =>
    exact updateCartItem_carts_ok s user packageId quantity h
  | removeFromCart user packageId => exact removeFromCart_carts_ok s user packageId h
  | clearCart user => exact clearCart_carts_ok s user h
  | directory users packages => exact h
  | createFeedback user req => rw [(createFeedback_frame s user req).2.1]; exact h
  | updateFeedback user id body => rw [(updateFeedback_frame s user id body).2.1]; exact h
  | deleteFeedback user id => rw [(deleteFeedback_frame s user id).2.1]; exact h
  | respondToFeedback user id comment now =>
    rw [(respondToFeedback_frame s user id comment now).2.1]; exact h
  | createOrder user req now => exact createOrder_carts_ok s user req now h
  | updateOrderStatus user id status now => rw [updateOrderStatus_carts]; exact h
  | cancelOrder user id now => rw [cancelOrder_carts]; exact h
  | assignWorker id workerId => rw [assignWorker_carts]; exact h
  | assignDeliverer id delivererId => rw [assignDeliverer_carts]; exact h
  | processPayment user orderId stripe now => rw [processPayment_carts]; exact h
  | createCashOnDeliveryPayment user orderId now =>
    rw [createCashOnDeliveryPayment_carts]; exact h
  | markCashPaymentAsPaid paymentId => rw [markCashPaymentAsPaid_carts]; exact h

/-- In every reachable state every cart satisfies the cart invariant. -/
theorem Reachable.carts_all_ok {s : Store} (h : Reachable s) : ∀ c ∈ s.carts, c.ok := by
  induction h with
  | init users packages => intro c hc; simp at hc
  | step _ hstep ih => exact Step.carts_stay_ok hstep ih

/-- In a list without duplicate packages, the line found for a package is the
line that names it. -/
theorem findIdx?_of_nodup {items : List CartItem} {k : Nat} {line : CartItem} {packageId : Nat}
    (hnodup : (items.map (fun item => item.package)).Nodup)
    (hk : items[k]? = some line) (hline : line.package = packageId) :
    items.findIdx? (fun item => decide (item.package = packageId)) = some k := by
  obtain ⟨hlt, hget⟩ := List.getElem?_eq_some_iff.mp hk
  rw [List.findIdx?_eq_some_iff_getElem]
  refine ⟨hlt, by simp [hget, hline], ?_⟩
  intro j hjk hp
  have hjlt : j < items.length := Nat.lt_trans hjk hlt
  have hpj : items[j].package = packageId := by simpa using hp
  have hjm : j < (items.map (fun item => item.package)).length := by simpa using hjlt
  have hkm : k < (items.map (fun item => item.package)).length := by simpa using hlt
  have heq : (items.map (fun item => item.package))[j] = (items.map (fun item => item.package))[k] := by
    rw [List.getElem_map, List.getElem_map, hpj, hget, hline]
  have := (List.Nodup.getElem_inj_iff hnodup).mp heq
  omega

theorem CartSchema.validate_modify_add {cart : Cart} (h : CartSchema.validate cart = true)
    {q : Int} (hq : 1 ≤ q) (k : Nat) :
    CartSchema.validate
      { cart with
        items := cart.items.modify (fun item => { item with quantity := item.quantity + q }) k }
      = true := by
  unfold CartSchema.validate at h ⊢
  rw [List.all_eq_true] at h ⊢
  intro x hx
  obtain ⟨n, hn⟩ := List.mem_iff_getElem?.mp hx
  dsimp only at hn
  rw [List.getElem?_modify] at hn
  cases hget : cart.items[n]? with
  | none => rw [hget] at hn; simp at hn
  | some a =>
    rw [hget] at hn
    have ha := h a (List.getElem?_mem hget)
    simp only [decide_eq_true_eq] at ha ⊢
    simp only [Option.map_eq_map, Option.map_some', Option.some.injEq] at hn
    by_cases hkn : k = n
    · rw [if_pos hkn] at hn
      rw [← hn]
      show 1 ≤ a.quantity + q
      omega
    · rw [if_neg hkn] at hn
      rw [← hn]
      exact ha

/-- C10: in every reachable state (any sequence of `addToCart`,
`updateCartItem`, `removeFromCart`, `clearCart`, `createOrder` and the other
handlers, from a store without carts) no cart has two lines for the same
package; and there `addToCart` of a package of the catalog that the caller's
cart already holds, with a quantity of at least 1 (1 when the request gives
none), keeps the cart at its position with the same number of lines, adds
exactly that quantity to the line of the package and leaves every other line
as it is. -/
theorem C10_one_line_per_package (s : Store) (hs : Reachable s) :
    (∀ c ∈ s.carts, (c.items.map (fun item => item.package)).Nodup)
    ∧ ∀ (user : Actor) (packageId : Nat) (quantity : Option Int) (i : Nat) (cart : Cart)
        (k : Nat) (line : CartItem),
        (Package.findById s.packages packageId).isSome = true →
        Cart.findOne s user.id = some (i, cart) →
        cart.items[k]? = some line → line.package = packageId → 1 ≤ quantity.getD 1 →
        ∃ cart1 : Cart,
          Cart.findOne (addToCart s user packageId quantity).1 user.id = some (i, cart1)
          ∧ cart1.items.length = cart.items.length
          ∧ cart1.items[k]? = some { line with quantity := line.quantity + quantity.getD 1 }
          ∧ ∀ j, j ≠ k → cart1.items[j]? = cart.items[j]? := by
  have hok := Reachable.carts_all_ok hs
  refine ⟨fun c hc => (hok c hc).1, ?_⟩
  intro user packageId quantity i cart k line hpkg hfind hk hline hq
  obtain ⟨pkg, hpkg⟩ := Option.isSome_iff_exists.mp hpkg
  obtain ⟨hidx, hci, hcu⟩ := Cart.findOne_eq_some hfind
  have hcart : cart.ok := hok cart (List.getElem?_mem hci)
  have hline_idx := findIdx?_of_nodup hcart.1 hk hline
  have hvalid := CartSchema.validate_modify_add hcart.2 hq k
  have hstore : (addToCart s user packageId quantity).1
      = { s with
          carts := s.carts.set i
            ({ cart with
               items := cart.items.modify
                 (fun item => { item with quantity := item.quantity + quantity.getD 1 }) k }) } := by
    unfold addToCart
    dsimp only
    rw [hpkg, hfind]
    dsimp only
    rw [hline_idx]
    dsimp only
    unfold Cart.save
    rw [if_pos hvalid]
    dsimp only
    rw [cartReply_fst]
  rw [hstore]
  refine ⟨({ cart with
             items := cart.items.modify
               (fun item => { item with quantity := item.quantity + quantity.getD 1 }) k }),
    ?_, ?_, ?_, ?_⟩
  · apply Cart.findOne_of_findIdx
    · show (s.carts.set i _).findIdx? _ = some i
      rw [findIdx?_set_of_eq _ s.carts i cart _ 0 hci (by simp), hidx]
    · show (s.carts.set i _)[i]? = _
      rw [List.getElem?_set_self (List.getElem?_eq_some_iff.mp hci).1]
  · simp
  · simp [hk]
  · intro j hj
    simp [List.getElem?_modify_ne _ _ (Ne.symm hj)]

/-- Witness for `C10_one_line_per_package`: after one `addToCart` of package 10
the store is reachable, the cart of user 1 has the single line 10 × 1, and a
second `addToCart` with quantity 1 gives the single line 10 × 2. -/
theorem C10_one_line_per_package_witness :
    Cart.findOne oneAddStore 1 = some (0, { user := 1, items := [{ package := 10, quantity := 1 }] })
    ∧ (addToCart oneAddStore { id := 1, role := "user" } 10 (some 1)).1.carts
        = [{ user := 1, items := [{ package := 10, quantity := 2 }] }]
    ∧ (∀ c ∈ oneAddStore.carts, (c.items.map (fun item => item.package)).Nodup)
    ∧ ∃ cart1 : Cart,
        Cart.findOne (addToCart oneAddStore { id := 1, role := "user" } 10 (some 1)).1 1
          = some (0, cart1)
        ∧ cart1.items.length = 1
        ∧ cart1.items[0]? = some { package := 10, quantity := 1 + 1 }
        ∧ ∀ j, j ≠ 0 → cart1.items[j]? = [({ package := 10, quantity := 1 } : CartItem)][j]? :=
  have hreach : Reachable oneAddStore :=
    Reachable.step (Reachable.init [] [{ id := 10, price := 20 }])
      (Step.addToCart _ { id := 1, role := "user" } 10 (some 1))
  ⟨by decide, by decide, (C10_one_line_per_package oneAddStore hreach).1,
   (C10_one_line_per_package oneAddStore hreach).2 { id := 1, role := "user" } 10 (some 1) 0
     { user := 1, items := [{ package := 10, quantity := 1 }] } 0 { package := 10, quantity := 1 }
     (by decide) (by decide) (by decide) (by decide) (by decide)⟩

/-! ## C11: what a status update leaves alone -/

/-- C11: whenever `updateOrderStatus` replies with an order, the reply is a 200,
the order's status is the requested one, its history is the previous history
followed by exactly one entry with the requested status, the time of the call
and the caller, every other field of the order is as before, the order is
stored at its position, and payments, carts, feedbacks, users and packages are
unchanged. -/
theorem C11_updateOrderStatus_frame (s t : Store) (user : Actor) (id : Nat)
    (status : Option String) (now code : Nat) (o1 : Order)
    (h : updateOrderStatus s user id status now = (t, .json code o1)) :
    ∃ order : Order, Order.findById s id = some order
      ∧ code = 200
      ∧ o1.status = status
      ∧ o1.statusHistory
          = order.statusHistory ++ [{ status := status, timestamp := now, updatedBy := user.id }]
      ∧ o1.user = order.user ∧ o1.items = order.items ∧ o1.totalAmount = order.totalAmount
      ∧ o1.paymentStatus = order.paymentStatus ∧ o1.paymentMethod = order.paymentMethod
      ∧ o1.paymentId = order.paymentId
      ∧ o1.pickupDate = order.pickupDate ∧ o1.deliveryDate = order.deliveryDate
      ∧ o1.assignedWorker = order.assignedWorker
      ∧ o1.assignedDeliverer = order.assignedDeliverer
      ∧ t.orders = s.orders.set id o1
      ∧ t.orders[id]? = some o1
      ∧ t.payments = s.payments ∧ t.carts = s.carts ∧ t.feedbacks = s.feedbacks
      ∧ t.users = s.users ∧ t.packages = s.packages := by
  cases hfind : Order.findById s id with
  | none => simp [updateOrderStatus, hfind] at h
  | some order =>
    rw [updateOrderStatus_of_found hfind] at h
    split at h
    · simp at h
    · split at h
      · simp only [Prod.mk.injEq, Reply.json.injEq] at h
        obtain ⟨ht, hcode, ho⟩ := h
        subst ho
        subst ht
        obtain ⟨o, ho, _⟩ := Order.findById_eq_some.mp hfind
        have hlt : id < s.orders.length := (List.getElem?_eq_some_iff.mp ho).1
        refine ⟨order, rfl, hcode.symm, rfl, rfl, rfl, rfl, rfl, rfl, rfl, rfl, rfl, rfl, rfl,
          rfl, rfl, ?_, rfl, rfl, rfl, rfl, rfl⟩
        exact List.getElem?_set_self hlt
      · simp at h

/-- Witness for `C11_updateOrderStatus_frame`: an admin moves the confirmed
order 0 of `sampleStore` to `picked-up`. -/
theorem C11_updateOrderStatus_frame_witness :
    updateOrderStatus sampleStore { id := 9, role := "admin" } 0 (some "picked-up") 4
        = ({ sampleStore with orders := [sampleOrder.withStatus (some "picked-up") 4 9] },
           .json 200 (sampleOrder.withStatus (some "picked-up") 4 9))
    ∧ ∃ order : Order, Order.findById sampleStore 0 = some order
      ∧ 200 = 200
      ∧ (sampleOrder.withStatus (some "picked-up") 4 9).status = some "picked-up"
      ∧ (sampleOrder.withStatus (some "picked-up") 4 9).statusHistory
          = order.statusHistory ++ [{ status := some "picked-up", timestamp := 4, updatedBy := 9 }]
      ∧ (sampleOrder.withStatus (some "picked-up") 4 9).user = order.user
      ∧ (sampleOrder.withStatus (some "picked-up") 4 9).items = order.items
      ∧ (sampleOrder.withStatus (some "picked-up") 4 9).totalAmount = order.totalAmount
      ∧ (sampleOrder.withStatus (some "picked-up") 4 9).paymentStatus = order.paymentStatus
      ∧ (sampleOrder.withStatus (some "picked-up") 4 9).paymentMethod = order.paymentMethod
      ∧ (sampleOrder.withStatus (some "picked-up") 4 9).paymentId = order.paymentId
      ∧ (sampleOrder.withStatus (some "picked-up") 4 9).pickupDate = order.pickupDate
      ∧ (sampleOrder.withStatus (some "picked-up") 4 9).deliveryDate = order.deliveryDate
      ∧ (sampleOrder.withStatus (some "picked-up") 4 9).assignedWorker = order.assignedWorker
      ∧ (sampleOrder.withStatus (some "picked-up") 4 9).assignedDeliverer
          = order.assignedDeliverer
      ∧ ({ sampleStore with orders := [sampleOrder.withStatus (some "picked-up") 4 9] } :
            Store).orders
          = sampleStore.orders.set 0 (sampleOrder.withStatus (some "picked-up") 4 9)
      ∧ ({ sampleStore with orders := [sampleOrder.withStatus (some "picked-up") 4 9] } :
            Store).orders[0]?
          = some (sampleOrder.withStatus (some "picked-up") 4 9)
      ∧ ({ sampleStore with orders := [sampleOrder.withStatus (some "picked-up") 4 9] } :
            Store).payments = sampleStore.payments
      ∧ ({ sampleStore with orders := [sampleOrder.withStatus (some "picked-up") 4 9] } :
            Store).carts = sampleStore.carts
      ∧ ({ sampleStore with orders := [sampleOrder.withStatus (some "picked-up") 4 9] } :
            Store).feedbacks = sampleStore.feedbacks
      ∧ ({ sampleStore with orders := [sampleOrder.withStatus (some "picked-up") 4 9] } :
            Store).users = sampleStore.users
      ∧ ({ sampleStore with orders := [sampleOrder.withStatus (some "picked-up") 4 9] } :
            Store).packages = sampleStore.packages :=
  ⟨by decide,
   C11_updateOrderStatus_frame sampleStore
     { sampleStore with orders := [sampleOrder.withStatus (some "picked-up") 4 9] }
     { id := 9, role := "admin" } 0 (some "picked-up") 4 200
     (sampleOrder.withStatus (some "picked-up") 4 9) (by decide)⟩

/-! ## Outcome of the handlers that write a status -/

/-- The order at a position after one order has been overwritten, for a
relation that every order has to itself. -/
theorem getElem?_set_rel (P : Order → Order → Prop) (hrefl : ∀ o, P o o) {l : List Order}
    {j : Nat} {oj o1 : Order} (hj : l[j]? = some oj) (hP : P oj o1)
    {i : Nat} {o : Order} (h : l[i]? = some o) :
    ∃ o2, (l.set j o1)[i]? = some o2 ∧ P o o2 := by
  by_cases hij : j = i
  · subst hij
    rw [hj] at h
    rw [← Option.some.inj h]
    exact ⟨o1, List.getElem?_set_self (List.getElem?_eq_some_iff.mp hj).1, hP⟩
  · exact ⟨o, by rw [List.getElem?_set_ne hij, h], hrefl o⟩

theorem updateOrderStatus_outcome (s : Store) (user : Actor) (id : Nat)
    (status : Option String) (now : Nat) :
    ((updateOrderStatus s user id status now).1 = s
        ∧ (updateOrderStatus s user id status now).2.isJson = false)
    ∨ ∃ o, Order.findById s id = some o
        ∧ (updateOrderStatus s user id status now).1.orders
            = s.orders.set id (o.withStatus status now user.id)
        ∧ (updateOrderStatus s user id status now).2.isJson = true := by
  cases hfind : Order.findById s id with
  | none => left; simp [updateOrderStatus, hfind, Reply.isJson]
  | some order =>
    rw [updateOrderStatus_of_found hfind]
    split
    · left; exact ⟨rfl, rfl⟩
    · split
      · right; exact ⟨order, rfl, rfl, rfl⟩
      · left; exact ⟨rfl, rfl⟩

theorem cancelOrder_outcome (s : Store) (user : Actor) (id : Nat) (now : Nat) :
    ((cancelOrder s user id now).1 = s ∧ (cancelOrder s user id now).2.isJson = false)
    ∨ ∃ o, Order.findById s id = some o
        ∧ (cancelOrder s user id now).1.orders
            = s.orders.set id (o.withStatus (some "cancelled") now user.id)
        ∧ (cancelOrder s user id now).2.isJson = true := by
  unfold cancelOrder
  cases hfind : Order.findById s id with
  | none => left; exact ⟨rfl, rfl⟩
  | some order =>
    dsimp only
    split
    · left; exact ⟨rfl, rfl⟩
    · split
      · left; exact ⟨rfl, rfl⟩
      · cases hsave : Order.save s id (order.withStatus (some "cancelled") now user.id) with
        | error e => left; exact ⟨rfl, rfl⟩
        | ok t =>
          rw [Order.save_order_eq_ok] at hsave
          right
          exact ⟨order, rfl, by rw [hsave.2], rfl⟩

theorem processPayment_outcome (s : Store) (user : Actor) (orderId : Nat)
    (stripe : Int → Charge) (now : Nat) :
    ((processPayment s user orderId stripe now).1.orders = s.orders
        ∧ (processPayment s user orderId stripe now).2.isJson = false)
    ∨ ∃ o o1, Order.findById s orderId = some o
        ∧ (processPayment s user orderId stripe now).1.orders = s.orders.set orderId o1
        ∧ (processPayment s user orderId stripe now).2.isJson = true
        ∧ ((o.status ≠ some "pending"
              ∧ o1 = { o with paymentStatus := "paid", paymentId := some s.payments.length })
          ∨ (o.status = some "pending"
              ∧ o1 = ({ o with paymentStatus := "paid", paymentId := some s.payments.length } :
                  Order).withStatus (some "confirmed") now user.id)) := by
  unfold processPayment
  cases hfind : Order.findById s orderId with
  | none => left; exact ⟨rfl, rfl⟩
  | some order =>
    dsimp only
    split
    · left; exact ⟨rfl, rfl⟩
    · split
      · left; exact ⟨rfl, rfl⟩
      · split
        · left; exact ⟨rfl, rfl⟩
        · left; exact ⟨rfl, rfl⟩
        · split
          · left; exact ⟨rfl, rfl⟩
          · rename_i s1 hcreate
            rw [Payment.create_payment_eq_ok] at hcreate
            split
            · left; exact ⟨by rw [hcreate.2], rfl⟩
            · rename_i s2 hsave
              rw [Order.save_order_eq_ok] at hsave
              right
              by_cases hp : order.status = some "pending"
              · refine ⟨order, _, rfl, ?_, rfl, Or.inr ⟨hp, rfl⟩⟩
                rw [hsave.2, hcreate.2, if_pos hp]
              · refine ⟨order, _, rfl, ?_, rfl, Or.inl ⟨hp, rfl⟩⟩
                rw [hsave.2, hcreate.2, if_neg hp]

theorem createCashOnDeliveryPayment_outcome (s : Store) (user : Actor) (orderId : Nat)
    (now : Nat) :
    ((createCashOnDeliveryPayment s user orderId now).1.orders = s.orders
        ∧ (createCashOnDeliveryPayment s user orderId now).2.isJson = false)
    ∨ ∃ o o1, Order.findById s orderId = some o
        ∧ (createCashOnDeliveryPayment s user orderId now).1.orders = s.orders.set orderId o1
        ∧ (createCashOnDeliveryPayment s user orderId now).2.isJson = true
        ∧ ((o.status ≠ some "pending"
              ∧ o1 = { o with paymentMethod := "cash-on-delivery",
                              paymentId := some s.payments.length })
          ∨ (o.status = some "pending"
              ∧ o1 = ({ o with paymentMethod := "cash-on-delivery",
                               paymentId := some s.payments.length } :
                  Order).withStatus (some "confirmed") now user.id)) := by
  unfold createCashOnDeliveryPayment
  cases hfind : Order.findById s orderId with
  | none => left; exact ⟨rfl, rfl⟩
  | some order =>
    dsimp only
    split
    · left; exact ⟨rfl, rfl⟩
    · split
      · left; exact ⟨rfl, rfl⟩
      · split
        · left; exact ⟨rfl, rfl⟩
        · rename_i s1 hcreate
          rw [Payment.create_payment_eq_ok] at hcreate
          split
          · left; exact ⟨by rw [hcreate.2], rfl⟩
          · rename_i s2 hsave
            rw [Order.save_order_eq_ok] at hsave
            right
            by_cases hp : order.status = some "pending"
            · refine ⟨order, _, rfl, ?_, rfl, Or.inr ⟨hp, rfl⟩⟩
              rw [hsave.2, hcreate.2, if_pos hp]
            · refine ⟨order, _, rfl, ?_, rfl, Or.inl ⟨hp, rfl⟩⟩
              rw [hsave.2, hcreate.2, if_neg hp]

/-! ## C12: the history only grows -/

theorem Order.isPendingAt_of_found {s : Store} {i : Nat} {o : Order}
    (h : Order.findById s i = some o) :
    Order.isPendingAt s i = decide (o.status = some "pending") := by
  unfold Order.isPendingAt
  rw [h]

/-- One request, seen from one stored order: a successful status transition
appends exactly one entry, carrying the new status; anything else leaves the
history as it is, and the status the order is read with. -/
theorem request_history_step (r : Request) (s : Store) (i : Nat) (o : Order)
    (h : s.orders[i]? = some o) :
    ∃ o2, (r.serve s).orders[i]? = some o2
      ∧ (r.writesStatus s i = true →
          ∃ e, o2.statusHistory = o.statusHistory ++ [e] ∧ e.status = o2.status)
      ∧ (r.writesStatus s i = false →
          o2.statusHistory = o.statusHistory
          ∧ o2.applyDefaults.status = o.applyDefaults.status) := by
  have hsame : ∀ (t : Store) (w : Bool), t.orders = s.orders → w = false →
      ∃ o2, t.orders[i]? = some o2
        ∧ (w = true → ∃ e, o2.statusHistory = o.statusHistory ++ [e] ∧ e.status = o2.status)
        ∧ (w = false → o2.statusHistory = o.statusHistory
            ∧ o2.applyDefaults.status = o.applyDefaults.status) := by
    intro t w ht hw
    exact ⟨o, by rw [ht, h], fun hf => absurd hf (by simp [hw]), fun _ => ⟨rfl, rfl⟩⟩
  have hquiet : ∀ (t : Store) (w : Bool) (j : Nat) (oj o1 : Order),
      Order.findById s j = some oj →
      t.orders = s.orders.set j o1 → o1.statusHistory = oj.statusHistory →
      o1.status = oj.status → w = false →
      ∃ o2, t.orders[i]? = some o2
        ∧ (w = true → ∃ e, o2.statusHistory = o.statusHistory ++ [e] ∧ e.status = o2.status)
        ∧ (w = false → o2.statusHistory = o.statusHistory
            ∧ o2.applyDefaults.status = o.applyDefaults.status) := by
    intro t w j oj o1 hj ht hh hs hw
    obtain ⟨a, ha, hoa⟩ := Order.findById_eq_some.mp hj
    obtain ⟨o2, ho2, hrel⟩ := getElem?_set_rel
      (fun a b => b.statusHistory = a.statusHistory
        ∧ b.applyDefaults.status = a.applyDefaults.status)
      (fun _ => ⟨rfl, rfl⟩) ha
      ⟨by rw [hh, hoa]; rfl,
       by show some (o1.status.getD "pending") = _
          rw [hs, hoa]; rfl⟩ h
    exact ⟨o2, by rw [ht, ho2], fun hf => absurd hf (by simp [hw]), fun _ => hrel⟩
  have hloud : ∀ (t : Store) (w : Bool) (j : Nat) (oj ob : Order) (st : Option String)
      (now u : Nat), Order.findById s j = some oj → ob.statusHistory = oj.statusHistory →
      t.orders = s.orders.set j (ob.withStatus st now u) → w = decide (j = i) →
      ∃ o2, t.orders[i]? = some o2
        ∧ (w = true → ∃ e, o2.statusHistory = o.statusHistory ++ [e] ∧ e.status = o2.status)
        ∧ (w = false → o2.statusHistory = o.statusHistory
            ∧ o2.applyDefaults.status = o.applyDefaults.status) := by
    intro t w j oj ob st now u hj hob ht hw
    obtain ⟨a, ha, hoa⟩ := Order.findById_eq_some.mp hj
    by_cases hji : j = i
    · subst hji
      rw [ha] at h
      have ho : a = o := Option.some.inj h
      subst ho
      refine ⟨ob.withStatus st now u, ?_,
        fun _ => ⟨{ status := st, timestamp := now, updatedBy := u }, ?_, rfl⟩, fun hf => ?_⟩
      · rw [ht]; exact List.getElem?_set_self (List.getElem?_eq_some_iff.mp ha).1
      · show ob.statusHistory ++ _ = _
        rw [hob, hoa]; rfl
      · rw [hw] at hf; simp at hf
    · refine ⟨o, ?_, fun hf => ?_, fun _ => ⟨rfl, rfl⟩⟩
      · rw [ht, List.getElem?_set_ne hji, h]
      · rw [hw] at hf; simp [hji] at hf
  cases r with
  | getCart user => exact hsame _ _ (getCart_orders s user) rfl
  | addToCart user packageId quantity => exact hsame _ _ (addToCart_orders s user _ _) rfl
  | updateCartItem user packageId quantity =>
    exact hsame _ _ (updateCartItem_orders s user _ _) rfl
  | removeFromCart user packageId => exact hsame _ _ (removeFromCart_orders s user _) rfl
  | clearCart user => exact hsame _ _ (clearCart_orders s user) rfl
  | directory users packages => exact hsame _ _ rfl rfl
  | createFeedback user req => exact hsame _ _ (createFeedback_frame s user req).1 rfl
  | updateFeedback user id body => exact hsame _ _ (updateFeedback_frame s user id body).1 rfl
  | deleteFeedback user id => exact hsame _ _ (deleteFeedback_frame s user id).1 rfl
  | respondToFeedback user id comment now =>
    exact hsame _ _ (respondToFeedback_frame s user id comment now).1 rfl
  | createOrder user req now =>
    rcases createOrder_orders s user req now with he | ⟨o1, he, _⟩
    · exact hsame _ _ he rfl
    · refine ⟨o, ?_, fun hf => absurd hf (by simp [Request.writesStatus]), fun _ => ⟨rfl, rfl⟩⟩
      show (createOrder s user req now).1.orders[i]? = some o
      rw [he, List.getElem?_append_left (List.getElem?_eq_some_iff.mp h).1, h]
  | assignWorker id workerId =>
    rcases assignWorker_orders s id workerId with he | ⟨oj, hj, he⟩
    · exact hsame _ _ he rfl
    · exact hquiet _ _ id oj _ hj he rfl rfl rfl
  | assignDeliverer id delivererId =>
    rcases assignDeliverer_orders s id delivererId with he | ⟨oj, hj, he⟩
    · exact hsame _ _ he rfl
    · exact hquiet _ _ id oj _ hj he rfl rfl rfl
  | markCashPaymentAsPaid paymentId =>
    rcases markCashPaymentAsPaid_orders s paymentId with he | ⟨p, oj, _, hj, he⟩
    · exact hsame _ _ he rfl
    · exact hquiet _ _ p.order oj _ hj he rfl rfl rfl
  | updateOrderStatus user id status now =>
    rcases updateOrderStatus_outcome s user id status now with ⟨he, hj⟩ | ⟨oj, hj, he, hjs⟩
    · exact hsame _ _ (by rw [Request.serve, he]) (by simp [Request.writesStatus, hj])
    · exact hloud _ _ id oj oj status now user.id hj rfl he
        (by simp [Request.writesStatus, hjs])
  | cancelOrder user id now =>
    rcases cancelOrder_outcome s user id now with ⟨he, hj⟩ | ⟨oj, hj, he, hjs⟩
    · exact hsame _ _ (by rw [Request.serve, he]) (by simp [Request.writesStatus, hj])
    · exact hloud _ _ id oj oj (some "cancelled") now user.id hj rfl he
        (by simp [Request.writesStatus, hjs])
  | processPayment user orderId stripe now =>
    rcases processPayment_outcome s user orderId stripe now with
      ⟨he, hj⟩ | ⟨oj, o1, hj, he, hjs, ⟨hnp, ho1⟩ | ⟨hp, ho1⟩⟩
    · exact hsame _ _ he (by simp [Request.writesStatus, hj])
    · refine hquiet _ _ orderId oj o1 hj he (by rw [ho1]) (by rw [ho1]) ?_
      simp only [Request.writesStatus, hjs, Bool.and_true]
      by_cases hji : orderId = i
      · subst hji
        rw [Order.isPendingAt_of_found hj]
        simp [hnp]
      · simp [hji]
    · rw [ho1] at he
      refine hloud _ _ orderId oj
        ({ oj with paymentStatus := "paid", paymentId := some s.payments.length })
        (some "confirmed") now user.id hj rfl he ?_
      simp only [Request.writesStatus, hjs, Bool.and_true]
      by_cases hji : orderId = i
      · subst hji
        rw [Order.isPendingAt_of_found hj]
        simp [hp]
      · simp [hji]
  | createCashOnDeliveryPayment user orderId now =>
    rcases createCashOnDeliveryPayment_outcome s user orderId now with
      ⟨he, hj⟩ | ⟨oj, o1, hj, he, hjs, ⟨hnp, ho1⟩ | ⟨hp, ho1⟩⟩
    · exact hsame _ _ he (by simp [Request.writesStatus, hj])
    · refine hquiet _ _ orderId oj o1 hj he (by rw [ho1]) (by rw [ho1]) ?_
      simp only [Request.writesStatus, hjs, Bool.and_true]
      by_cases hji : orderId = i
      · subst hji
        rw [Order.isPendingAt_of_found hj]
        simp [hnp]
      · simp [hji]
    · rw [ho1] at he
      refine hloud _ _ orderId oj
        ({ oj with paymentMethod := "cash-on-delivery", paymentId := some s.payments.length })
        (some "confirmed") now user.id hj rfl he ?_
      simp only [Request.writesStatus, hjs, Bool.and_true]
      by_cases hji : orderId = i
      · subst hji
        rw [Order.isPendingAt_of_found hj]
        simp [hp]
      · simp [hji]

/-- An order that `createOrder` replies with is the document it built, appended
to the stored orders. -/
theorem createOrder_created {s t : Store} {user : Actor} {req : OrderRequest} {now code : Nat}
    {o : Order} (h : createOrder s user req now = (t, .json code o)) :
    code = 201 ∧ o = createOrder.document user req now o.items o.totalAmount
      ∧ t.orders = s.orders ++ [o] := by
  unfold createOrder at h
  split at h
  · simp at h
  · split at h
    · simp at h
    · split at h
      · simp at h
      · dsimp only at h
        split at h
        · simp at h
        · rename_i s1 hcreate
          rw [Order.create_order_eq_ok] at hcreate
          simp only [Prod.mk.injEq, Reply.json.injEq] at h
          obtain ⟨ht, hcode, ho⟩ := h
          subst ho
          refine ⟨hcode.symm, rfl, ?_⟩
          rw [← ht, Cart.findOneAndUpdate_orders, hcreate.2]

/-- Over a run the history of a stored order keeps its old entries as a prefix
and grows by one entry per status transition. -/
theorem serveAll_history (i : Nat) :
    ∀ (rs : List Request) (s : Store) (o : Order), s.orders[i]? = some o →
      ∃ o3, (serveAll rs s).orders[i]? = some o3
        ∧ o.statusHistory <+: o3.statusHistory
        ∧ o3.statusHistory.length = o.statusHistory.length + transitions i rs s
  | [], s, o, h => ⟨o, h, List.prefix_refl _, rfl⟩
  | r :: rs, s, o, h => by
    obtain ⟨o2, ho2, hw, hq⟩ := request_history_step r s i o h
    obtain ⟨o3, ho3, hpre, hlen⟩ := serveAll_history i rs (r.serve s) o2 ho2
    refine ⟨o3, ho3, ?_, ?_⟩
    · refine List.IsPrefix.trans ?_ hpre
      cases hws : r.writesStatus s i with
      | true =>
        obtain ⟨e, he, _⟩ := hw hws
        rw [he]; exact List.prefix_append _ _
      | false => rw [(hq hws).1]
    · have hcons : transitions i (r :: rs) s
          = (if r.writesStatus s i = true then 1 else 0) + transitions i rs (r.serve s) := rfl
      rw [hlen, hcons]
      cases hws : r.writesStatus s i with
      | true =>
        obtain ⟨e, he, _⟩ := hw hws
        rw [he, List.length_append, if_pos rfl, List.length_singleton]
        omega
      | false =>
        rw [(hq hws).1, if_neg (by simp)]
        omega

/-- C12: `statusHistory` is append-only.  For a stored order and any request,
the order is still stored afterwards and its previous history is a prefix of
the new one; a successful status transition of the order appends exactly one
entry, whose status is the new status, and any other request leaves the
history as it is and the status the order is read with (so a change of that
status always comes with exactly one new entry); over any run the history grows
by the number of status transitions; and for an order just created by
`createOrder` the history after a run with `n` status transitions has length
`n + 1`. -/
theorem C12_history_append_only (s : Store) (i : Nat) (o : Order)
    (h : s.orders[i]? = some o) :
    (∀ r : Request, ∃ o2, (r.serve s).orders[i]? = some o2
        ∧ o.statusHistory <+: o2.statusHistory
        ∧ (r.writesStatus s i = true →
            ∃ e, o2.statusHistory = o.statusHistory ++ [e] ∧ e.status = o2.status)
        ∧ (r.writesStatus s i = false →
            o2.statusHistory = o.statusHistory
            ∧ o2.applyDefaults.status = o.applyDefaults.status)
        ∧ (o2.applyDefaults.status ≠ o.applyDefaults.status →
            o2.statusHistory.length = o.statusHistory.length + 1))
    ∧ (∀ rs : List Request, ∃ o3, (serveAll rs s).orders[i]? = some o3
        ∧ o.statusHistory <+: o3.statusHistory
        ∧ o3.statusHistory.length = o.statusHistory.length + transitions i rs s)
    ∧ (∀ (s0 : Store) (user : Actor) (req : OrderRequest) (now code : Nat),
        createOrder s0 user req now = (s, .json code o) → i = s0.orders.length →
        ∀ rs : List Request, ∃ o3, (serveAll rs s).orders[i]? = some o3
          ∧ o3.statusHistory.length = transitions i rs s + 1) := by
  refine ⟨?_, fun rs => serveAll_history i rs s o h, ?_⟩
  · intro r
    obtain ⟨o2, ho2, hw, hq⟩ := request_history_step r s i o h
    refine ⟨o2, ho2, ?_, hw, hq, ?_⟩
    · cases hws : r.writesStatus s i with
      | true =>
        obtain ⟨e, he, _⟩ := hw hws
        rw [he]; exact List.prefix_append _ _
      | false => rw [(hq hws).1]
    · intro hne
      cases hws : r.writesStatus s i with
      | true =>
        obtain ⟨e, he, _⟩ := hw hws
        rw [he, List.length_append]; rfl
      | false => exact absurd (hq hws).2 hne
  · intro s0 user req now code hcreate _ rs
    obtain ⟨o3, ho3, _, hlen⟩ := serveAll_history i rs s o h
    have hdoc := (createOrder_created hcreate).2.1
    have hone : o.statusHistory.length = 1 := by rw [hdoc]; rfl
    refine ⟨o3, ho3, ?_⟩
    rw [hlen, hone]
    omega

/-- Witness for `C12_history_append_only`: the order created in
`checkedOutStore` has three history entries after `sampleRun`, which holds two
successful status transitions. -/
theorem C12_history_append_only_witness :
    checkedOutStore.orders[0]? = some cartStoreOrder
    ∧ createOrder twoAddStore { id := 1, role := "user" }
        { pickupDate := some 100, deliveryDate := some 200, paymentMethod := none } 5
        = (checkedOutStore, .json 201 cartStoreOrder)
    ∧ transitions 0 sampleRun checkedOutStore = 2
    ∧ ∃ o3, (serveAll sampleRun checkedOutStore).orders[0]? = some o3
        ∧ o3.statusHistory.length = transitions 0 sampleRun checkedOutStore + 1 :=
  ⟨by decide, by decide, by decide,
   (C12_history_append_only checkedOutStore 0 cartStoreOrder (by decide)).2.2 twoAddStore
     { id := 1, role := "user" }
     { pickupDate := some 100, deliveryDate := some 200, paymentMethod := none } 5 201
     (by decide) (by decide) sampleRun⟩

/-! ## C13: owner, lines and total never change -/

/-- Every served request is a step of the system. -/
theorem serve_is_step (r : Request) (s : Store) : Step s (r.serve s) := by
  cases r with
  | getCart user => exact Step.getCart s user
  | addToCart user packageId quantity => exact Step.addToCart s user packageId quantity
  | updateCartItem user packageId quantity =>
    exact Step.updateCartItem s user packageId quantity
  | removeFromCart user packageId => exact Step.removeFromCart s user packageId
  | clearCart user => exact Step.clearCart s user
  | createOrder user req now => exact Step.createOrder s user req now
  | updateOrderStatus user id status now => exact Step.updateOrderStatus s user id status now
  | assignWorker id workerId => exact Step.assignWorker s id workerId
  | assignDeliverer id delivererId => exact Step.assignDeliverer s id delivererId
  | cancelOrder user id now => exact Step.cancelOrder s user id now
  | processPayment user orderId stripe now =>
    exact Step.processPayment s user orderId stripe now
  | createCashOnDeliveryPayment user orderId now =>
    exact Step.createCashOnDeliveryPayment s user orderId now
  | markCashPaymentAsPaid paymentId => exact Step.markCashPaymentAsPaid s paymentId
  | directory users packages => exact Step.directory s users packages
  | createFeedback user req => exact Step.createFeedback s user req
  | updateFeedback user id body => exact Step.updateFeedback s user id body
  | deleteFeedback user id => exact Step.deleteFeedback s user id
  | respondToFeedback user id comment now =>
    exact Step.respondToFeedback s user id comment now

/-- A step keeps every stored order at its position, with the same owner, lines
and total, and with a payment status that is the old one or `paid`. -/
theorem Step.order_contract {s t : Store} (hstep : Step s t) {i : Nat} {o : Order}
    (h : s.orders[i]? = some o) :
    ∃ o2, t.orders[i]? = some o2
      ∧ o2.user = o.user ∧ o2.items = o.items ∧ o2.totalAmount = o.totalAmount
      ∧ (o2.paymentStatus = o.paymentStatus ∨ o2.paymentStatus = "paid") := by
  have hsame : ∀ u : Store, u.orders = s.orders →
      ∃ o2, u.orders[i]? = some o2
        ∧ o2.user = o.user ∧ o2.items = o.items ∧ o2.totalAmount = o.totalAmount
        ∧ (o2.paymentStatus = o.paymentStatus ∨ o2.paymentStatus = "paid") :=
    fun u hu => ⟨o, by rw [hu, h], rfl, rfl, rfl, Or.inl rfl⟩
  have hset : ∀ (u : Store) (j : Nat) (oj o1 : Order), Order.findById s j = some oj →
      u.orders = s.orders.set j o1 →
      o1.user = oj.user → o1.items = oj.items → o1.totalAmount = oj.totalAmount →
      (o1.paymentStatus = oj.paymentStatus ∨ o1.paymentStatus = "paid") →
      ∃ o2, u.orders[i]? = some o2
        ∧ o2.user = o.user ∧ o2.items = o.items ∧ o2.totalAmount = o.totalAmount
        ∧ (o2.paymentStatus = o.paymentStatus ∨ o2.paymentStatus = "paid") := by
    intro u j oj o1 hj hu h1 h2 h3 h4
    obtain ⟨a, ha, hoa⟩ := Order.findById_eq_some.mp hj
    rw [hoa] at h1 h2 h3 h4
    obtain ⟨o2, ho2, hrel⟩ := getElem?_set_rel
      (fun a b => b.user = a.user ∧ b.items = a.items ∧ b.totalAmount = a.totalAmount
        ∧ (b.paymentStatus = a.paymentStatus ∨ b.paymentStatus = "paid"))
      (fun _ => ⟨rfl, rfl, rfl, Or.inl rfl⟩) ha ⟨h1, h2, h3, h4⟩ h
    exact ⟨o2, by rw [hu, ho2], hrel⟩
  cases hstep with
  | getCart user => exact hsame _ (getCart_orders s user)
  | addToCart user packageId quantity => exact hsame _ (addToCart_orders s user _ _)
  | updateCartItem user packageId quantity => exact hsame _ (updateCartItem_orders s user _ _)
  | removeFromCart user packageId => exact hsame _ (removeFromCart_orders s user _)
  | clearCart user => exact hsame _ (clearCart_orders s user)
  | directory users packages => exact hsame _ rfl
  | createFeedback user req => exact hsame _ (createFeedback_frame s user req).1
  | updateFeedback user id body => exact hsame _ (updateFeedback_frame s user id body).1
  | deleteFeedback user id => exact hsame _ (deleteFeedback_frame s user id).1
  | respondToFeedback user id comment now =>
    exact hsame _ (respondToFeedback_frame s user id comment now).1
  | createOrder user req now =>
    rcases createOrder_orders s user req now with he | ⟨o1, he, _⟩
    · exact hsame _ he
    · refine ⟨o, ?_, rfl, rfl, rfl, Or.inl rfl⟩
      rw [he, List.getElem?_append_left (List.getElem?_eq_some_iff.mp h).1, h]
  | updateOrderStatus user id status now =>
    rcases updateOrderStatus_orders s user id status now with he | ⟨oj, hj, he⟩
    · exact hsame _ he
    · exact hset _ id oj _ hj he rfl rfl rfl (Or.inl rfl)
  | cancelOrder user id now =>
    rcases cancelOrder_orders s user id now with he | ⟨oj, hj, _, he⟩
    · exact hsame _ he
    · exact hset _ id oj _ hj he rfl rfl rfl (Or.inl rfl)
  | assignWorker id workerId =>
    rcases assignWorker_orders s id workerId with he | ⟨oj, hj, he⟩
    · exact hsame _ he
    · exact hset _ id oj _ hj he rfl rfl rfl (Or.inl rfl)
  | assignDeliverer id delivererId =>
    rcases assignDeliverer_orders s id delivererId with he | ⟨oj, hj, he⟩
    · exact hsame _ he
    · exact hset _ id oj _ hj he rfl rfl rfl (Or.inl rfl)
  | processPayment user orderId stripe now =>
    rcases processPayment_orders s user orderId stripe now with
      he | ⟨oj, o1, hj, he, ⟨_, ho1⟩ | ⟨_, ho1⟩⟩
    · exact hsame _ he
    · exact hset _ orderId oj o1 hj he (by rw [ho1]) (by rw [ho1]) (by rw [ho1])
        (Or.inr (by rw [ho1]))
    · exact hset _ orderId oj o1 hj he (by rw [ho1]; rfl) (by rw [ho1]; rfl)
        (by rw [ho1]; rfl) (Or.inr (by rw [ho1]; rfl))
  | createCashOnDeliveryPayment user orderId now =>
    rcases createCashOnDeliveryPayment_orders s user orderId now with
      he | ⟨oj, o1, hj, he, ⟨_, ho1⟩ | ⟨_, ho1⟩⟩
    · exact hsame _ he
    · exact hset _ orderId oj o1 hj he (by rw [ho1]) (by rw [ho1]) (by rw [ho1])
        (Or.inl (by rw [ho1]))
    · exact hset _ orderId oj o1 hj he (by rw [ho1]; rfl) (by rw [ho1]; rfl)
        (by rw [ho1]; rfl) (Or.inl (by rw [ho1]; rfl))
  | markCashPaymentAsPaid paymentId =>
    rcases markCashPaymentAsPaid_orders s paymentId with he | ⟨p, oj, _, hj, he⟩
    · exact hsame _ he
    · exact hset _ p.order oj _ hj he rfl rfl rfl (Or.inr rfl)

/-- Over a run every stored order keeps its owner, lines and total. -/
theorem serveAll_contract (i : Nat) :
    ∀ (rs : List Request) (s : Store) (o : Order), s.orders[i]? = some o →
      ∃ o3, (serveAll rs s).orders[i]? = some o3
        ∧ o3.user = o.user ∧ o3.items = o.items ∧ o3.totalAmount = o.totalAmount
  | [], _, o, h => ⟨o, h, rfl, rfl, rfl⟩
  | r :: rs, s, o, h => by
    obtain ⟨o2, ho2, h1, h2, h3, _⟩ := Step.order_contract (serve_is_step r s) h
    obtain ⟨o3, ho3, g1, g2, g3⟩ := serveAll_contract i rs (r.serve s) o2 ho2
    exact ⟨o3, ho3, g1.trans h1, g2.trans h2, g3.trans h3⟩

/-- C13: an order that `createOrder` has replied with stays stored at its
position after any run of requests (status updates, cancellation, assignments,
the three payment handlers, further checkouts, cart requests and changes of
the catalog prices), with the owner, the lines (package, quantity, price) and
the `totalAmount` it was created with. -/
theorem C13_order_contract_immutable (s0 s1 : Store) (user : Actor) (req : OrderRequest)
    (now code : Nat) (o : Order)
    (hcreate : createOrder s0 user req now = (s1, .json code o)) (rs : List Request) :
    ∃ o3, (serveAll rs s1).orders[s0.orders.length]? = some o3
      ∧ o3.user = o.user ∧ o3.items = o.items ∧ o3.totalAmount = o.totalAmount := by
  have horders := (createOrder_created hcreate).2.2
  have h : s1.orders[s0.orders.length]? = some o := by
    rw [horders]; exact List.getElem?_concat_length _ _
  exact serveAll_contract _ rs s1 o h

/-- Witness for `C13_order_contract_immutable`: after `sampleRun`, which ends
with the price of package 10 raised from 20 to 35, the order created in
`checkedOutStore` still has its line at price 20 and its total of 40. -/
theorem C13_order_contract_immutable_witness :
    createOrder twoAddStore { id := 1, role := "user" }
        { pickupDate := some 100, deliveryDate := some 200, paymentMethod := none } 5
        = (checkedOutStore, .json 201 cartStoreOrder)
    ∧ (serveAll sampleRun checkedOutStore).packages = [{ id := 10, price := 35 }]
    ∧ cartStoreOrder.items = [{ package := 10, quantity := 2, price := 20 }]
    ∧ cartStoreOrder.totalAmount = 40
    ∧ ∃ o3, (serveAll sampleRun checkedOutStore).orders[twoAddStore.orders.length]? = some o3
        ∧ o3.user = cartStoreOrder.user ∧ o3.items = cartStoreOrder.items
        ∧ o3.totalAmount = cartStoreOrder.totalAmount :=
  ⟨by decide, by decide, by decide, by decide,
   C13_order_contract_immutable twoAddStore checkedOutStore { id := 1, role := "user" }
     { pickupDate := some 100, deliveryDate := some 200, paymentMethod := none } 5 201
     cartStoreOrder (by decide) sampleRun⟩

/-! ## C14 to C16: paying by card -/

/-- C14: `processPayment` replies 404 when the order is absent, otherwise 403
when the caller is not the order's owner, otherwise 400 when the order's
payment status is already `paid`; in each case, whatever the gateway would
answer, the store is returned as it was: no payment is created and the order
is unchanged. -/
theorem C14_processPayment_refusals (s : Store) (user : Actor) (orderId : Nat)
    (stripe : Int → Charge) (now : Nat) :
    (Order.findById s orderId = none →
        processPayment s user orderId stripe now = (s, .fail 404 "Order not found"))
    ∧ (∀ order : Order, Order.findById s orderId = some order → order.user ≠ user.id →
        processPayment s user orderId stripe now
          = (s, .fail 403 "Not authorized to process payment for this order"))
    ∧ (∀ order : Order, Order.findById s orderId = some order → order.user = user.id →
        order.paymentStatus = "paid" →
        processPayment s user orderId stripe now = (s, .fail 400 "Order is already paid")) := by
  refine ⟨?_, ?_, ?_⟩
  · intro h
    unfold processPayment
    rw [h]
  · intro order h hne
    unfold processPayment
    rw [h]
    dsimp only
    rw [if_pos hne]
  · intro order h heq hpaid
    unfold processPayment
    rw [h]
    dsimp only
    rw [if_neg (not_not.mpr heq), if_pos hpaid]

/-- Witness for `C14_processPayment_refusals`: order 5 does not exist in
`checkedOutStore`, user 2 does not own order 0. -/
theorem C14_processPayment_refusals_witness :
    Order.findById checkedOutStore 5 = none
    ∧ processPayment checkedOutStore { id := 1, role := "user" } 5 acceptingGateway 6
        = (checkedOutStore, .fail 404 "Order not found")
    ∧ Order.findById checkedOutStore 0 = some cartStoreOrder
    ∧ processPayment checkedOutStore { id := 2, role := "user" } 0 acceptingGateway 6
        = (checkedOutStore, .fail 403 "Not authorized to process payment for this order") :=
  ⟨by decide,
   (C14_processPayment_refusals checkedOutStore { id := 1, role := "user" } 5
      acceptingGateway 6).1 (by decide),
   by decide,
   (C14_processPayment_refusals checkedOutStore { id := 2, role := "user" } 0
      acceptingGateway 6).2.1 cartStoreOrder (by decide) (by decide)⟩

/-- Marking an order paid, with any payment id, keeps it valid. -/
theorem OrderSchema.validate_paid {order : Order} (h : OrderSchema.validate order = true)
    (paymentId : Option Nat) :
    OrderSchema.validate { order with paymentStatus := "paid", paymentId := paymentId } = true := by
  unfold OrderSchema.validate at h ⊢
  simp only [Bool.and_eq_true] at h
  obtain ⟨⟨⟨⟨⟨⟨h1, h2⟩, _⟩, h4⟩, h5⟩, h6⟩, h7⟩ := h
  simp [paymentStatusEnum, h1, h2, h4, h5, h6, h7]

/-- The handler `processPayment` in closed form when the caller owns the order,
the order is valid and not yet paid, and the gateway returns an intent. -/
theorem processPayment_of_intent {s : Store} {user : Actor} {orderId : Nat}
    {stripe : Int → Charge} {order : Order} {transactionId : String}
    (hfind : Order.findById s orderId = some order)
    (howner : order.user = user.id)
    (hunpaid : order.paymentStatus ≠ "paid")
    (hvalid : OrderSchema.validate order = true)
    (hcharge : stripe (order.totalAmount * 100) = .intent transactionId) (now : Nat) :
    processPayment s user orderId stripe now =
      ({ s with
         payments := s.payments ++
           [{ order := orderId, user := user.id, amount := order.totalAmount,
              paymentMethod := "credit-card", status := "successful",
              transactionId := some transactionId, paymentGateway := "stripe" }]
         orders := s.orders.set orderId
           (if order.status = some "pending" then
              ({ order with paymentStatus := "paid", paymentId := some s.payments.length } :
                Order).withStatus (some "confirmed") now user.id
            else { order with paymentStatus := "paid", paymentId := some s.payments.length }) },
       .json 200
         ({ order := orderId, user := user.id, amount := order.totalAmount,
            paymentMethod := "credit-card", status := "successful",
            transactionId := some transactionId, paymentGateway := "stripe" },
          if order.status = some "pending" then
            ({ order with paymentStatus := "paid", paymentId := some s.payments.length } :
              Order).withStatus (some "confirmed") now user.id
          else { order with paymentStatus := "paid", paymentId := some s.payments.length })) := by
  have hv2 : OrderSchema.validate
      (if order.status = some "pending" then
        ({ order with paymentStatus := "paid", paymentId := some s.payments.length } :
          Order).withStatus (some "confirmed") now user.id
       else { order with paymentStatus := "paid", paymentId := some s.payments.length }) = true := by
    have hp := OrderSchema.validate_paid hvalid (some s.payments.length)
    split
    · rw [OrderSchema.validate_withStatus hp]; decide
    · exact hp
  unfold processPayment
  rw [hfind]
  dsimp only
  rw [if_neg (not_not.mpr howner), if_neg hunpaid, hcharge]
  dsimp only
  have hcreate : ∀ p : Payment, p.paymentMethod = "credit-card" → p.status = "successful" →
      Payment.create s p = .ok { s with payments := s.payments ++ [p] } := by
    intro p h1 h2
    unfold Payment.create PaymentSchema.validate
    rw [h1, h2]
    rfl
  rw [hcreate _ rfl rfl]
  dsimp only
  unfold Order.save
  rw [if_pos hv2]

/-- C15: when the caller owns the stored (schema-valid) order, the order is not
yet paid and the gateway returns an intent, `processPayment` replies 200,
appends exactly one payment, which is for this order, has status `successful`,
the order's `totalAmount` as amount and the intent id as `transactionId`, and
stores the order with payment status `paid`; if the order was `pending` its
status becomes `confirmed` and exactly one `confirmed` entry attributed to the
caller is appended to the history, otherwise status and history are unchanged. -/
theorem C15_processPayment_success (s : Store) (user : Actor) (orderId : Nat)
    (stripe : Int → Charge) (order : Order) (transactionId : String) (now : Nat)
    (hfind : Order.findById s orderId = some order)
    (howner : order.user = user.id)
    (hunpaid : order.paymentStatus ≠ "paid")
    (hvalid : OrderSchema.validate order = true)
    (hcharge : stripe (order.totalAmount * 100) = .intent transactionId) :
    ∃ (t : Store) (payment : Payment) (order2 : Order),
      processPayment s user orderId stripe now = (t, .json 200 (payment, order2))
      ∧ t.payments = s.payments ++ [payment]
      ∧ payment.order = orderId ∧ payment.status = "successful"
      ∧ payment.amount = order.totalAmount ∧ payment.transactionId = some transactionId
      ∧ t.orders = s.orders.set orderId order2
      ∧ order2.paymentStatus = "paid"
      ∧ (order.status = some "pending" →
          order2.status = some "confirmed"
          ∧ order2.statusHistory = order.statusHistory ++
              [{ status := some "confirmed", timestamp := now, updatedBy := user.id }])
      ∧ (order.status ≠ some "pending" →
          order2.status = order.status ∧ order2.statusHistory = order.statusHistory) := by
  refine ⟨_, _, _, processPayment_of_intent hfind howner hunpaid hvalid hcharge now,
    rfl, rfl, rfl, rfl, rfl, rfl, ?_, ?_, ?_⟩
  · split <;> rfl
  · intro hp
    rw [if_pos hp]
    exact ⟨rfl, rfl⟩
  · intro hp
    rw [if_neg hp]
    exact ⟨rfl, rfl⟩

/-- Witness for `C15_processPayment_success`: the owner pays the pending order 0
of `checkedOutStore` through `acceptingGateway`; the order becomes paid and
confirmed and `samplePayment` is the one payment. -/
theorem C15_processPayment_success_witness :
    Order.findById checkedOutStore 0 = some cartStoreOrder
    ∧ cartStoreOrder.status = some "pending"
    ∧ processPayment checkedOutStore { id := 1, role := "user" } 0 acceptingGateway 6
        = ({ checkedOutStore with
             payments := [samplePayment]
             orders :=
               [({ cartStoreOrder with paymentStatus := "paid", paymentId := some 0 } :
                   Order).withStatus (some "confirmed") 6 1] },
           .json 200
             (samplePayment,
              ({ cartStoreOrder with paymentStatus := "paid", paymentId := some 0 } :
                  Order).withStatus (some "confirmed") 6 1))
    ∧ ∃ (t : Store) (payment : Payment) (order2 : Order),
      processPayment checkedOutStore { id := 1, role := "user" } 0 acceptingGateway 6
        = (t, .json 200 (payment, order2))
      ∧ t.payments = checkedOutStore.payments ++ [payment]
      ∧ payment.order = 0 ∧ payment.status = "successful"
      ∧ payment.amount = cartStoreOrder.totalAmount ∧ payment.transactionId = some "pi_1"
      ∧ t.orders = checkedOutStore.orders.set 0 order2
      ∧ order2.paymentStatus = "paid"
      ∧ (cartStoreOrder.status = some "pending" →
          order2.status = some "confirmed"
          ∧ order2.statusHistory = cartStoreOrder.statusHistory ++
              [{ status := some "confirmed", timestamp := 6, updatedBy := 1 }])
      ∧ (cartStoreOrder.status ≠ some "pending" →
          order2.status = cartStoreOrder.status
          ∧ order2.statusHistory = cartStoreOrder.statusHistory) :=
  ⟨by decide, by decide, by decide,
   C15_processPayment_success checkedOutStore { id := 1, role := "user" } 0 acceptingGateway
     cartStoreOrder "pi_1" 6 (by decide) (by decide) (by decide) (by decide) rfl⟩

/-- C16: when the caller owns the order, the order is not yet paid and the
gateway declines the charge with a card error, `processPayment` replies 400
with the gateway's message and returns the store as it was: no payment is
created and the order, with its status, payment status, history and payment
id, is unchanged. -/
theorem C16_processPayment_declined (s : Store) (user : Actor) (orderId : Nat)
    (stripe : Int → Charge) (order : Order) (message : String) (now : Nat)
    (hfind : Order.findById s orderId = some order)
    (howner : order.user = user.id)
    (hunpaid : order.paymentStatus ≠ "paid")
    (hcharge : stripe (order.totalAmount * 100) = .cardError message) :
    processPayment s user orderId stripe now = (s, .fail 400 message)
    ∧ (processPayment s user orderId stripe now).1.payments = s.payments
    ∧ Order.findById (processPayment s user orderId stripe now).1 orderId = some order := by
  have h : processPayment s user orderId stripe now = (s, .fail 400 message) := by
    unfold processPayment
    rw [hfind]
    dsimp only
    rw [if_neg (not_not.mpr howner), if_neg hunpaid, hcharge]
  rw [h]
  exact ⟨rfl, rfl, hfind⟩

/-- Witness for `C16_processPayment_declined`: the owner's card is declined for
order 0 of `checkedOutStore`. -/
theorem C16_processPayment_declined_witness :
    Order.findById checkedOutStore 0 = some cartStoreOrder
    ∧ processPayment checkedOutStore { id := 1, role := "user" } 0 decliningGateway 6
        = (checkedOutStore, .fail 400 "Your card was declined.") :=
  ⟨by decide,
   (C16_processPayment_declined checkedOutStore { id := 1, role := "user" } 0 decliningGateway
      cartStoreOrder "Your card was declined." 6 (by decide) (by decide) (by decide) rfl).1⟩

/-! ## C18: asking for cash on delivery -/

/-- Choosing cash on delivery, with any payment id, keeps an order valid. -/
theorem OrderSchema.validate_cash {order : Order} (h : OrderSchema.validate order = true)
    (paymentId : Option Nat) :
    OrderSchema.validate
      { order with paymentMethod := "cash-on-delivery", paymentId := paymentId } = true := by
  unfold OrderSchema.validate at h ⊢
  simp only [Bool.and_eq_true] at h
  obtain ⟨⟨⟨⟨⟨⟨h1, h2⟩, h3⟩, _⟩, h5⟩, h6⟩, h7⟩ := h
  simp [paymentMethodEnum, h1, h2, h3, h5, h6, h7]

/-- C18, counterexample: order 0 of `paidStore` is paid, so its payment status
is not `pending`, yet for user 2, who does not own it,
`createCashOnDeliveryPayment` replies 403, not 400. -/
theorem C18_counterexample :
    Order.findById paidStore 0 = some paidOrder
    ∧ paidOrder.paymentStatus = "paid"
    ∧ paidOrder.paymentStatus ≠ "pending"
    ∧ paidOrder.user ≠ 2
    ∧ createCashOnDeliveryPayment paidStore { id := 2, role := "user" } 0 7
        = (paidStore, .fail 403 "Not authorized to process payment for this order") := by
  decide

/-- C18, as amended: for an existing order whose payment status is not
`pending`, `createCashOnDeliveryPayment` fails and returns the store as it was
(no payment created, order unchanged), with 400 when the caller owns the order
and with 403 otherwise; for the owner of an order whose payment status is
`pending` it appends exactly one payment with status `pending`, method
`cash-on-delivery` and the order's `totalAmount` as amount, and replies 200
when the stored order is schema-valid. -/
theorem C18_cashOnDelivery_request (s : Store) (user : Actor) (orderId : Nat) (now : Nat)
    (order : Order) (hfind : Order.findById s orderId = some order) :
    (order.paymentStatus ≠ "pending" →
        (order.user = user.id →
          createCashOnDeliveryPayment s user orderId now
            = (s, .fail 400 "Payment status already updated for this order"))
        ∧ (order.user ≠ user.id →
          createCashOnDeliveryPayment s user orderId now
            = (s, .fail 403 "Not authorized to process payment for this order")))
    ∧ (order.paymentStatus = "pending" → order.user = user.id →
        (createCashOnDeliveryPayment s user orderId now).1.payments
          = s.payments ++
              [{ order := orderId, user := user.id, amount := order.totalAmount,
                 paymentMethod := "cash-on-delivery", status := "pending",
                 transactionId := none, paymentGateway := "cash" }]
        ∧ (OrderSchema.validate order = true →
            (createCashOnDeliveryPayment s user orderId now).2.isJson = true)) := by
  constructor
  · intro hnp
    constructor
    · intro howner
      unfold createCashOnDeliveryPayment
      rw [hfind]
      dsimp only
      rw [if_neg (not_not.mpr howner), if_pos hnp]
    · intro hne
      unfold createCashOnDeliveryPayment
      rw [hfind]
      dsimp only
      rw [if_pos hne]
  · intro hp howner
    have hcreate : ∀ p : Payment, p.paymentMethod = "cash-on-delivery" → p.status = "pending" →
        Payment.create s p = .ok { s with payments := s.payments ++ [p] } := by
      intro p h1 h2
      unfold Payment.create PaymentSchema.validate
      rw [h1, h2]
      rfl
    unfold createCashOnDeliveryPayment
    rw [hfind]
    dsimp only
    rw [if_neg (not_not.mpr howner), if_neg (not_not.mpr hp), hcreate _ rfl rfl]
    dsimp only
    constructor
    · split
      · rfl
      · rename_i s2 hsave
        rw [Order.save_order_eq_ok] at hsave
        rw [hsave.2]
    · intro hvalid
      have hv2 : OrderSchema.validate
          (if order.status = some "pending" then
            ({ order with paymentMethod := "cash-on-delivery",
                          paymentId := some s.payments.length } :
              Order).withStatus (some "confirmed") now user.id
           else { order with paymentMethod := "cash-on-delivery",
                             paymentId := some s.payments.length }) = true := by
        have hc := OrderSchema.validate_cash hvalid (some s.payments.length)
        split
        · rw [OrderSchema.validate_withStatus hc]; decide
        · exact hc
      unfold Order.save
      rw [if_pos hv2]
      rfl

/-- Witness for `C18_cashOnDelivery_request`: the owner asks for cash on delivery
for the pending order 0 of `checkedOutStore`. -/
theorem C18_cashOnDelivery_request_witness :
    Order.findById checkedOutStore 0 = some cartStoreOrder
    ∧ cartStoreOrder.paymentStatus = "pending"
    ∧ (createCashOnDeliveryPayment checkedOutStore { id := 1, role := "user" } 0 6).1.payments
        = checkedOutStore.payments ++
            [{ order := 0, user := 1, amount := cartStoreOrder.totalAmount,
               paymentMethod := "cash-on-delivery", status := "pending",
               transactionId := none, paymentGateway := "cash" }]
    ∧ (createCashOnDeliveryPayment checkedOutStore { id := 1, role := "user" } 0 6).1.payments
        = [sampleCashPayment] :=
  ⟨by decide, by decide,
   ((C18_cashOnDelivery_request checkedOutStore { id := 1, role := "user" } 0 6 cartStoreOrder
      (by decide)).2 (by decide) (by decide)).1,
   by decide⟩

/-! ## C20: who may leave feedback, and when -/

/-- Whatever `createFeedback` replies, it either leaves the store as it was and
the reply is not a success, or it replies 201 with a feedback of the caller
for the requested order, appended to the feedbacks, and then the order exists,
is owned by the caller and is delivered, and the caller had no feedback for it. -/
theorem createFeedback_outcome (s : Store) (user : Actor) (req : FeedbackRequest) :
    ((createFeedback s user req).1 = s ∧ (createFeedback s user req).2.isJson = false)
    ∨ ∃ (f : Feedback) (order : Order),
        createFeedback s user req
          = ({ s with feedbacks := s.feedbacks ++ [f], feedbackSeq := s.feedbackSeq + 1 },
             .json 201 f)
        ∧ f.user = user.id ∧ f.order = req.orderId
        ∧ Order.findById s req.orderId = some order
        ∧ order.user = user.id ∧ order.status = some "delivered"
        ∧ Feedback.findOne s user.id req.orderId = none := by
  unfold createFeedback
  cases hfind : Order.findById s req.orderId with
  | none => left; exact ⟨rfl, rfl⟩
  | some order =>
    dsimp only
    split
    · left; exact ⟨rfl, rfl⟩
    · rename_i howner
      split
      · left; exact ⟨rfl, rfl⟩
      · rename_i hdelivered
        cases hexisting : Feedback.findOne s user.id req.orderId with
        | some f => left; exact ⟨rfl, rfl⟩
        | none =>
          dsimp only
          split
          · left; exact ⟨rfl, rfl⟩
          · rename_i s1 hcreate
            rw [Feedback.create_feedback_eq_ok] at hcreate
            right
            refine ⟨createFeedback.document user req s.feedbackSeq, order, ?_, rfl, rfl, rfl,
              not_not.mp howner, not_not.mp hdelivered, rfl⟩
            rw [hcreate.2]

/-- C20: `createFeedback` replies 404 when the order is absent, otherwise 403
when the caller does not own the order, otherwise 400 when the order's status
is not `delivered`, otherwise 400 when the caller already has a feedback for
the order; in each of these cases, and whenever the reply is not a success,
the store is returned as it was, so no feedback is created; and whenever the
feedbacks change, exactly one feedback of the caller for that order was
appended, the order exists, is owned by the caller and is delivered. -/
theorem C20_createFeedback_gate (s : Store) (user : Actor) (req : FeedbackRequest) :
    (Order.findById s req.orderId = none →
        createFeedback s user req = (s, .fail 404 "Order not found"))
    ∧ (∀ order : Order, Order.findById s req.orderId = some order → order.user ≠ user.id →
        createFeedback s user req
          = (s, .fail 403 "Not authorized to create feedback for this order"))
    ∧ (∀ order : Order, Order.findById s req.orderId = some order → order.user = user.id →
        order.status ≠ some "delivered" →
        createFeedback s user req
          = (s, .fail 400 "Cannot provide feedback until order is delivered"))
    ∧ (∀ (order : Order) (existing : Feedback), Order.findById s req.orderId = some order →
        order.user = user.id → order.status = some "delivered" →
        Feedback.findOne s user.id req.orderId = some existing →
        createFeedback s user req
          = (s, .fail 400 "Feedback already submitted for this order"))
    ∧ ((createFeedback s user req).2.isJson = false → (createFeedback s user req).1 = s)
    ∧ ((createFeedback s user req).1.feedbacks ≠ s.feedbacks →
        ∃ (f : Feedback) (order : Order),
          (createFeedback s user req).1.feedbacks = s.feedbacks ++ [f]
          ∧ (createFeedback s user req).2 = .json 201 f
          ∧ f.user = user.id ∧ f.order = req.orderId
          ∧ Order.findById s req.orderId = some order
          ∧ order.user = user.id ∧ order.status = some "delivered") := by
  refine ⟨?_, ?_, ?_, ?_, ?_, ?_⟩
  · intro h
    unfold createFeedback
    rw [h]
  · intro order h hne
    unfold createFeedback
    rw [h]
    dsimp only
    rw [if_pos hne]
  · intro order h howner hnd
    unfold createFeedback
    rw [h]
    dsimp only
    rw [if_neg (not_not.mpr howner), if_pos hnd]
  · intro order existing h howner hd hex
    unfold createFeedback
    rw [h]
    dsimp only
    rw [if_neg (not_not.mpr howner), if_neg (not_not.mpr hd), hex]
  · intro hfail
    rcases createFeedback_outcome s user req with ⟨hs, _⟩ | ⟨f, order, heq, _⟩
    · exact hs
    · rw [heq] at hfail
      simp [Reply.isJson] at hfail
  · intro hchanged
    rcases createFeedback_outcome s user req with ⟨hs, _⟩ | ⟨f, order, heq, h1, h2, h3, h4, h5, _⟩
    · rw [hs] at hchanged
      exact absurd rfl hchanged
    · exact ⟨f, order, by rw [heq], by rw [heq], h1, h2, h3, h4, h5⟩

/-- Witness for `C20_createFeedback_gate`: user 1 owns the delivered order 0 of
`deliveredStore` and leaves `sampleFeedback`; on the confirmed order 0 of
`sampleStore` the same request is refused with 400. -/
theorem C20_createFeedback_gate_witness :
    createFeedback deliveredStore { id := 1, role := "user" } sampleFeedbackRequest
        = ({ deliveredStore with feedbacks := [sampleFeedback], feedbackSeq := 1 },
           .json 201 sampleFeedback)
    ∧ Order.findById sampleStore 0 = some sampleOrder
    ∧ sampleOrder.status ≠ some "delivered"
    ∧ createFeedback sampleStore { id := 1, role := "user" } sampleFeedbackRequest
        = (sampleStore, .fail 400 "Cannot provide feedback until order is delivered") :=
  ⟨by decide, by decide, by decide,
   (C20_createFeedback_gate sampleStore { id := 1, role := "user" } sampleFeedbackRequest).2.2.1
     sampleOrder (by decide) (by decide) (by decide)⟩

/-! ## Stored orders are valid, payments refer to stored orders -/

theorem updateOrderStatus_orders_valid (s : Store) (user : Actor) (id : Nat)
    (status : Option String) (now : Nat)
    (h : ∀ o ∈ s.orders, OrderSchema.validate o = true) :
    ∀ o ∈ (updateOrderStatus s user id status now).1.orders, OrderSchema.validate o = true := by
  unfold updateOrderStatus
  repeat' first | split | dsimp only
  all_goals first | exact h | skip
  all_goals simp only [Order.save_order_eq_ok] at *
  all_goals
    casesm* _ ∧ _
    subst_vars
    first | exact h | exact forall_mem_set h (by assumption) _

theorem cancelOrder_orders_valid (s : Store) (user : Actor) (id : Nat) (now : Nat)
    (h : ∀ o ∈ s.orders, OrderSchema.validate o = true) :
    ∀ o ∈ (cancelOrder s user id now).1.orders, OrderSchema.validate o = true := by
  unfold cancelOrder
  repeat' first | split | dsimp only
  all_goals first | exact h | skip
  all_goals simp only [Order.save_order_eq_ok] at *
  all_goals
    casesm* _ ∧ _
    subst_vars
    first | exact h | exact forall_mem_set h (by assumption) _

theorem assignWorker_orders_valid (s : Store) (id workerId : Nat)
    (h : ∀ o ∈ s.orders, OrderSchema.validate o = true) :
    ∀ o ∈ (assignWorker s id workerId).1.orders, OrderSchema.validate o = true := by
  unfold assignWorker
  repeat' first | split | dsimp only
  all_goals first | exact h | skip
  all_goals simp only [Order.save_order_eq_ok] at *
  all_goals
    casesm* _ ∧ _
    subst_vars
    first | exact h | exact forall_mem_set h (by assumption) _

theorem assignDeliverer_orders_valid (s : Store) (id delivererId : Nat)
    (h : ∀ o ∈ s.orders, OrderSchema.validate o = true) :
    ∀ o ∈ (assignDeliverer s id delivererId).1.orders, OrderSchema.validate o = true := by
  unfold assignDeliverer
  repeat' first | split | dsimp only
  all_goals first | exact h | skip
  all_goals simp only [Order.save_order_eq_ok] at *
  all_goals
    casesm* _ ∧ _
    subst_vars
    first | exact h | exact forall_mem_set h (by assumption) _

theorem processPayment_orders_valid (s : Store) (user : Actor) (orderId : Nat)
    (stripe : Int → Charge) (now : Nat)
    (h : ∀ o ∈ s.orders, OrderSchema.validate o = true) :
    ∀ o ∈ (processPayment s user orderId stripe now).1.orders, OrderSchema.validate o = true := by
  unfold processPayment
  repeat' first | split | dsimp only
  all_goals first | exact h | skip
  all_goals simp only [Order.save_order_eq_ok, Payment.create_payment_eq_ok] at *
  all_goals
    casesm* _ ∧ _
    subst_vars
    first | exact h | exact forall_mem_set h (by assumption) _

theorem createCashOnDeliveryPayment_orders_valid (s : Store) (user : Actor) (orderId : Nat)
    (now : Nat) (h : ∀ o ∈ s.orders, OrderSchema.validate o = true) :
    ∀ o ∈ (createCashOnDeliveryPayment s user orderId now).1.orders,
      OrderSchema.validate o = true := by
  unfold createCashOnDeliveryPayment
  repeat' first | split | dsimp only
  all_goals first | exact h | skip
  all_goals simp only [Order.save_order_eq_ok, Payment.create_payment_eq_ok] at *
  all_goals
    casesm* _ ∧ _
    subst_vars
    first | exact h | exact forall_mem_set h (by assumption) _

theorem markCashPaymentAsPaid_orders_valid (s : Store) (paymentId : Nat)
    (h : ∀ o ∈ s.orders, OrderSchema.validate o = true) :
    ∀ o ∈ (markCashPaymentAsPaid s paymentId).1.orders, OrderSchema.validate o = true := by
  unfold markCashPaymentAsPaid
  repeat' first | split | dsimp only
  all_goals first | exact h | skip
  all_goals simp only [Order.save_order_eq_ok, Payment.save_payment_eq_ok] at *
  all_goals
    casesm* _ ∧ _
    subst_vars
    first | exact h | exact forall_mem_set h (by assumption) _

theorem createOrder_orders_valid (s : Store) (user : Actor) (req : OrderRequest) (now : Nat)
    (h : ∀ o ∈ s.orders, OrderSchema.validate o = true) :
    ∀ o ∈ (createOrder s user req now).1.orders, OrderSchema.validate o = true := by
  unfold createOrder
  repeat' first | split | dsimp only
  all_goals first | exact h | skip
  rename_i s1 hcreate
  rw [Order.create_order_eq_ok] at hcreate
  rw [Cart.findOneAndUpdate_orders, hcreate.2]
  intro o ho
  rcases List.mem_append.mp ho with ho | ho
  · exact h o ho
  · rw [List.mem_singleton.mp ho]; exact hcreate.1

/-- Every step keeps every stored order schema-valid. -/
theorem Step.orders_stay_valid {s t : Store} (hstep : Step s t)
    (h : ∀ o ∈ s.orders, OrderSchema.validate o = true) :
    ∀ o ∈ t.orders, OrderSchema.validate o = true := by
  cases hstep with
  | getCart user => rw [getCart_orders]; exact h
  | addToCart user packageId quantity => rw [addToCart_orders]; exact h
  | updateCartItem user packageId quantity => rw [updateCartItem_orders]; exact h
  | removeFromCart user packageId => rw [removeFromCart_orders]; exact h
  | clearCart user => rw [clearCart_orders]; exact h
  | directory users packages => exact h
  | createFeedback user req => rw [(createFeedback_frame s user req).1]; exact h
  | updateFeedback user id body => rw [(updateFeedback_frame s user id body).1]; exact h
  | deleteFeedback user id => rw [(deleteFeedback_frame s user id).1]; exact h
  | respondToFeedback user id comment now =>
    rw [(respondToFeedback_frame s user id comment now).1]; exact h
  | createOrder user req now => exact createOrder_orders_valid s user req now h
  | updateOrderStatus user id status now =>
    exact updateOrderStatus_orders_valid s user id status now h
  | cancelOrder user id now => exact cancelOrder_orders_valid s user id now h
  | assignWorker id workerId => exact assignWorker_orders_valid s id workerId h
  | assignDeliverer id delivererId => exact assignDeliverer_orders_valid s id delivererId h
  | processPayment user orderId stripe now =>
    exact processPayment_orders_valid s user orderId stripe now h
  | createCashOnDeliveryPayment user orderId now =>
    exact createCashOnDeliveryPayment_orders_valid s user orderId now h
  | markCashPaymentAsPaid paymentId => exact markCashPaymentAsPaid_orders_valid s paymentId h

/-- In every reachable state every stored order is schema-valid. -/
theorem Reachable.orders_valid {s : Store} (h : Reachable s) :
    ∀ o ∈ s.orders, OrderSchema.validate o = true := by
  induction h with
  | init users packages => intro o ho; simp at ho
  | step _ hstep ih => exact Step.orders_stay_valid hstep ih

theorem Cart.findOneAndUpdate_payments (s : Store) (user : Nat) (items : List CartItem) :
    (Cart.findOneAndUpdate s user items).payments = s.payments := by
  unfold Cart.findOneAndUpdate
  split <;> rfl

theorem updateOrderStatus_payments (s : Store) (user : Actor) (id : Nat)
    (status : Option String) (now : Nat) :
    (updateOrderStatus s user id status now).1.payments = s.payments := by
  unfold updateOrderStatus
  repeat' first | split | dsimp only
  all_goals first | rfl | simp_all [Order.save_order_eq_ok]

theorem cancelOrder_payments (s : Store) (user : Actor) (id : Nat) (now : Nat) :
    (cancelOrder s user id now).1.payments = s.payments := by
  unfold cancelOrder
  repeat' first | split | dsimp only
  all_goals first | rfl | simp_all [Order.save_order_eq_ok]

theorem assignWorker_payments (s : Store) (id workerId : Nat) :
    (assignWorker s id workerId).1.payments = s.payments := by
  unfold assignWorker
  repeat' first | split | dsimp only
  all_goals first | rfl | simp_all [Order.save_order_eq_ok]

theorem assignDeliverer_payments (s : Store) (id delivererId : Nat) :
    (assignDeliverer s id delivererId).1.payments = s.payments := by
  unfold assignDeliverer
  repeat' first | split | dsimp only
  all_goals first | rfl | simp_all [Order.save_order_eq_ok]

theorem createOrder_payments (s : Store) (user : Actor) (req : OrderRequest) (now : Nat) :
    (createOrder s user req now).1.payments = s.payments := by
  unfold createOrder
  repeat' first | split | dsimp only
  rename_i s1 hcreate
  rw [Order.create_order_eq_ok] at hcreate
  rw [Cart.findOneAndUpdate_payments, hcreate.2]

theorem getCart_payments (s : Store) (user : Actor) :
    (getCart s user).1.payments = s.payments := by
  unfold getCart
  split
  · rw [cartReply_fst]
  · split
    · rfl
    · rename_i s1 h
      rw [Cart.create_cart_eq_ok] at h
      rw [cartReply_fst, h.2]

theorem addToCart_payments (s : Store) (user : Actor) (packageId : Nat)
    (quantity : Option Int) : (addToCart s user packageId quantity).1.payments = s.payments := by
  unfold addToCart
  dsimp only
  split
  · rfl
  · split
    · rfl
    · rename_i s1 h
      rw [cartReply_fst]
      split at h
      · rw [Cart.create_cart_eq_ok] at h; rw [h.2]
      · split at h <;> (rw [Cart.save_cart_eq_ok] at h; rw [h.2])

theorem updateCartItem_payments (s : Store) (user : Actor) (packageId : Nat)
    (quantity : Option Int) :
    (updateCartItem s user packageId quantity).1.payments = s.payments := by
  unfold updateCartItem
  split
  · rfl
  · split
    · rfl
    · split
      · rfl
      · split
        · rfl
        · split
          · rfl
          · rename_i s1 h
            rw [Cart.save_cart_eq_ok] at h
            rw [cartReply_fst, h.2]

theorem removeFromCart_payments (s : Store) (user : Actor) (packageId : Nat) :
    (removeFromCart s user packageId).1.payments = s.payments := by
  unfold removeFromCart
  split
  · rfl
  · split
    · rfl
    · rename_i s1 h
      rw [Cart.save_cart_eq_ok] at h
      rw [cartReply_fst, h.2]

theorem clearCart_payments (s : Store) (user : Actor) :
    (clearCart s user).1.payments = s.payments := by
  unfold clearCart
  split
  · rfl
  · dsimp only
    split
    · rfl
    · rename_i s1 h
      rw [Cart.save_cart_eq_ok] at h
      rw [h.2]

/-! ## C17: payments per order -/

theorem processPayment_payments_effect (s : Store) (user : Actor) (orderId : Nat)
    (stripe : Int → Charge) (now : Nat)
    (hv : ∀ o ∈ s.orders, OrderSchema.validate o = true) :
    PaymentsEffect s (processPayment s user orderId stripe now).1 := by
  cases hfind : Order.findById s orderId with
  | none =>
    left
    unfold processPayment
    rw [hfind]
  | some order =>
    by_cases howner : order.user = user.id
    · by_cases hpaid : order.paymentStatus = "paid"
      · left
        unfold processPayment
        rw [hfind]
        dsimp only
        rw [if_neg (not_not.mpr howner), if_pos hpaid]
      · cases hcharge : stripe (order.totalAmount * 100) with
        | cardError message =>
          left
          unfold processPayment
          rw [hfind]
          dsimp only
          rw [if_neg (not_not.mpr howner), if_neg hpaid, hcharge]
        | failed message =>
          left
          unfold processPayment
          rw [hfind]
          dsimp only
          rw [if_neg (not_not.mpr howner), if_neg hpaid, hcharge]
        | intent transactionId =>
          have hvalid := Order.findById_valid hv hfind
          obtain ⟨a, ha, hoa⟩ := Order.findById_eq_some.mp hfind
          rw [processPayment_of_intent hfind howner hpaid hvalid hcharge now]
          right; right; left
          exact ⟨_, a, _, rfl, rfl, rfl, ha, by rw [hoa] at hpaid; exact hpaid,
            List.getElem?_set_self (List.getElem?_eq_some_iff.mp ha).1, by split <;> rfl⟩
    · left
      unfold processPayment
      rw [hfind]
      dsimp only
      rw [if_pos howner]

theorem createCashOnDeliveryPayment_payments_effect (s : Store) (user : Actor)
    (orderId : Nat) (now : Nat) :
    PaymentsEffect s (createCashOnDeliveryPayment s user orderId now).1 := by
  unfold createCashOnDeliveryPayment
  cases hfind : Order.findById s orderId with
  | none => left; rfl
  | some order =>
    dsimp only
    split
    · left; rfl
    · split
      · left; rfl
      · split
        · left; rfl
        · rename_i s1 hcreate
          rw [Payment.create_payment_eq_ok] at hcreate
          obtain ⟨a, ha, _⟩ := Order.findById_eq_some.mp hfind
          right; left
          refine ⟨{ order := orderId, user := user.id, amount := order.totalAmount,
                    paymentMethod := "cash-on-delivery", status := "pending",
                    transactionId := none, paymentGateway := "cash" }, a, ?_, rfl, ha⟩
          split
          · rw [hcreate.2]
          · rename_i s2 hsave
            rw [Order.save_order_eq_ok] at hsave
            rw [hsave.2, hcreate.2]

theorem markCashPaymentAsPaid_payments_effect (s : Store) (paymentId : Nat) :
    PaymentsEffect s (markCashPaymentAsPaid s paymentId).1 := by
  unfold markCashPaymentAsPaid
  cases hfind : Payment.findById s paymentId with
  | none => left; rfl
  | some payment =>
    dsimp only
    split
    · left; rfl
    · rename_i hmethod
      split
      · left; rfl
      · rename_i s1 hsave1
        rw [Payment.save_payment_eq_ok] at hsave1
        right; right; right
        refine ⟨paymentId, payment, hfind, not_not.mp hmethod, ?_⟩
        split
        · rw [hsave1.2]
        · split
          · rw [hsave1.2]
          · rename_i s2 hsave2
            rw [Order.save_order_eq_ok] at hsave2
            rw [hsave2.2, hsave1.2]

/-- What a step does to the payments, in a store whose orders are valid. -/
theorem Step.payments_effect {s t : Store} (hstep : Step s t)
    (hv : ∀ o ∈ s.orders, OrderSchema.validate o = true) : PaymentsEffect s t := by
  cases hstep with
  | getCart user => exact Or.inl (getCart_payments s user)
  | addToCart user packageId quantity => exact Or.inl (addToCart_payments s user _ _)
  | updateCartItem user packageId quantity => exact Or.inl (updateCartItem_payments s user _ _)
  | removeFromCart user packageId => exact Or.inl (removeFromCart_payments s user _)
  | clearCart user => exact Or.inl (clearCart_payments s user)
  | directory users packages => exact Or.inl rfl
  | createFeedback user req => exact Or.inl (createFeedback_frame s user req).2.2
  | updateFeedback user id body => exact Or.inl (updateFeedback_frame s user id body).2.2
  | deleteFeedback user id => exact Or.inl (deleteFeedback_frame s user id).2.2
  | respondToFeedback user id comment now =>
    exact Or.inl (respondToFeedback_frame s user id comment now).2.2
  | createOrder user req now => exact Or.inl (createOrder_payments s user req now)
  | updateOrderStatus user id status now =>
    exact Or.inl (updateOrderStatus_payments s user id status now)
  | cancelOrder user id now => exact Or.inl (cancelOrder_payments s user id now)
  | assignWorker id workerId => exact Or.inl (assignWorker_payments s id workerId)
  | assignDeliverer id delivererId => exact Or.inl (assignDeliverer_payments s id delivererId)
  | processPayment user orderId stripe now =>
    exact processPayment_payments_effect s user orderId stripe now hv
  | createCashOnDeliveryPayment user orderId now =>
    exact createCashOnDeliveryPayment_payments_effect s user orderId now
  | markCashPaymentAsPaid paymentId => exact markCashPaymentAsPaid_payments_effect s paymentId

theorem getElem?_append_singleton {α : Type} {l : List α} {a p : α} {k : Nat}
    (h : (l ++ [a])[k]? = some p) : l[k]? = some p ∨ (k = l.length ∧ p = a) := by
  by_cases hk : k < l.length
  · left
    rw [List.getElem?_append_left hk] at h
    exact h
  · right
    have hle : l.length ≤ k := Nat.le_of_not_lt hk
    rw [List.getElem?_append_right hle] at h
    have hz : k - l.length = 0 := by
      by_contra hne
      have hpos : 1 ≤ k - l.length := Nat.one_le_iff_ne_zero.mpr hne
      have hnone : ([a] : List α)[k - l.length]? = none :=
        List.getElem?_eq_none (by simpa using hpos)
      rw [hnone] at h
      exact absurd h (by simp)
    rw [hz] at h
    simp only [List.getElem?_cons_zero, Option.some.injEq] at h
    exact ⟨by omega, h.symm⟩

theorem getElem?_set_inv {α : Type} {l : List α} {x p : α} {k0 k : Nat}
    (h : (l.set k0 x)[k]? = some p) : (k = k0 ∧ p = x) ∨ (k ≠ k0 ∧ l[k]? = some p) := by
  by_cases hk : k0 = k
  · left
    subst hk
    have hlt : k0 < l.length := by
      have := (List.getElem?_eq_some_iff.mp h).1
      simpa using this
    rw [List.getElem?_set_self hlt] at h
    exact ⟨rfl, (Option.some.inj h).symm⟩
  · right
    rw [List.getElem?_set_ne hk] at h
    exact ⟨fun hkk => hk hkk.symm, h⟩

/-- Every step keeps the payment invariant, in a store whose orders are valid. -/
theorem Step.payments_stay_ok {s t : Store} (hstep : Step s t)
    (hv : ∀ o ∈ s.orders, OrderSchema.validate o = true) (hok : PaymentsOk s) :
    PaymentsOk t := by
  have hcard : "cash-on-delivery" ≠ "credit-card" := by decide
  have hold : ∀ (k : Nat) (p : Payment), s.payments[k]? = some p →
      ∃ o, t.orders[p.order]? = some o
        ∧ (p.paymentMethod = "credit-card" →
            p.status = "successful" ∧ o.paymentStatus = "paid") := by
    intro k p hp
    obtain ⟨o, ho, hc⟩ := hok.1 k p hp
    obtain ⟨o2, ho2, _, _, _, hps⟩ := Step.order_contract hstep ho
    refine ⟨o2, ho2, fun hm => ⟨(hc hm).1, ?_⟩⟩
    rcases hps with hps | hps
    · rw [hps]; exact (hc hm).2
    · exact hps
  rcases Step.payments_effect hstep hv with
    he | ⟨p0, o0, he, hm0, ho0⟩ | ⟨p0, o0, o1, he, hm0, hs0, ho0, hnp, ho1, hp1⟩
      | ⟨k0, p0, hk0, hm0, he⟩
  · constructor
    · intro k p hp
      rw [he] at hp
      exact hold k p hp
    · intro k1 k2 p1 p2 h1 h2
      rw [he] at h1 h2
      exact hok.2 k1 k2 p1 p2 h1 h2
  · constructor
    · intro k p hp
      rw [he] at hp
      rcases getElem?_append_singleton hp with hp | ⟨_, hp⟩
      · exact hold k p hp
      · subst hp
        obtain ⟨o2, ho2, _⟩ := Step.order_contract hstep ho0
        exact ⟨o2, ho2, fun hm => absurd (hm0.symm.trans hm) hcard⟩
    · intro k1 k2 p1 p2 h1 h2 hm1 hm2 hord
      rw [he] at h1 h2
      rcases getElem?_append_singleton h1 with g1 | ⟨_, g1⟩
      · rcases getElem?_append_singleton h2 with g2 | ⟨_, g2⟩
        · exact hok.2 k1 k2 p1 p2 g1 g2 hm1 hm2 hord
        · subst g2
          exact absurd (hm0.symm.trans hm2) hcard
      · subst g1
        exact absurd (hm0.symm.trans hm1) hcard
  · constructor
    · intro k p hp
      rw [he] at hp
      rcases getElem?_append_singleton hp with hp | ⟨_, hp⟩
      · exact hold k p hp
      · subst hp
        exact ⟨o1, ho1, fun _ => ⟨hs0, hp1⟩⟩
    · intro k1 k2 p1 p2 h1 h2 hm1 hm2 hord
      have hfresh : ∀ (k : Nat) (p : Payment), s.payments[k]? = some p →
          p.paymentMethod = "credit-card" → p.order ≠ p0.order := by
        intro k p hp hm heq
        obtain ⟨o, ho, hc⟩ := hok.1 k p hp
        rw [heq, ho0] at ho
        rw [Option.some.inj ho] at hnp
        exact hnp (hc hm).2
      rw [he] at h1 h2
      rcases getElem?_append_singleton h1 with g1 | ⟨hk1, g1⟩
      · rcases getElem?_append_singleton h2 with g2 | ⟨_, g2⟩
        · exact hok.2 k1 k2 p1 p2 g1 g2 hm1 hm2 hord
        · subst g2
          exact absurd hord (hfresh k1 p1 g1 hm1)
      · rcases getElem?_append_singleton h2 with g2 | ⟨hk2, g2⟩
        · subst g1
          exact absurd hord.symm (hfresh k2 p2 g2 hm2)
        · rw [hk1, hk2]
  · constructor
    · intro k p hp
      rw [he] at hp
      rcases getElem?_set_inv hp with ⟨_, hp⟩ | ⟨_, hp⟩
      · subst hp
        obtain ⟨o, ho, _⟩ := hold k0 p0 hk0
        exact ⟨o, ho, fun hm => absurd (hm0.symm.trans hm) hcard⟩
      · exact hold k p hp
    · intro k1 k2 p1 p2 h1 h2 hm1 hm2 hord
      rw [he] at h1 h2
      rcases getElem?_set_inv h1 with ⟨_, g1⟩ | ⟨_, g1⟩
      · subst g1
        exact absurd (hm0.symm.trans hm1) hcard
      · rcases getElem?_set_inv h2 with ⟨_, g2⟩ | ⟨_, g2⟩
        · subst g2
          exact absurd (hm0.symm.trans hm2) hcard
        · exact hok.2 k1 k2 p1 p2 g1 g2 hm1 hm2 hord

/-- In every reachable state the payment invariant holds. -/
theorem Reachable.payments_ok {s : Store} (h : Reachable s) : PaymentsOk s := by
  induction h with
  | init users packages =>
    constructor
    · intro k p hp; simp at hp
    · intro k1 k2 p1 p2 h1; simp at h1
  | step hs hstep ih => exact Step.payments_stay_ok hstep (Reachable.orders_valid hs) ih

theorem checkedOutStore_reachable : Reachable checkedOutStore :=
  Reachable.step
    (Reachable.step
      (Reachable.step (Reachable.init [] [{ id := 10, price := 20 }])
        (Step.addToCart _ { id := 1, role := "user" } 10 (some 1)))
      (Step.addToCart _ { id := 1, role := "user" } 10 (some 1)))
    (Step.createOrder _ { id := 1, role := "user" }
      { pickupDate := some 100, deliveryDate := some 200, paymentMethod := none } 5)

/-- C17, counterexample: `cashTwiceStore`, reached from `checkedOutStore` by two
`createCashOnDeliveryPayment` requests of the owner for order 0, holds two
payments for order 0, both with status `pending`, so neither is failed. -/
theorem C17_counterexample :
    Reachable cashTwiceStore
    ∧ cashTwiceStore.payments = [sampleCashPayment, sampleCashPayment]
    ∧ cashTwiceStore.payments.length = 2
    ∧ sampleCashPayment.order = 0
    ∧ sampleCashPayment.status = "pending"
    ∧ sampleCashPayment.status ≠ "failed" :=
  ⟨Reachable.step
    (Reachable.step checkedOutStore_reachable
      (Step.createCashOnDeliveryPayment _ { id := 1, role := "user" } 0 6))
    (Step.createCashOnDeliveryPayment _ { id := 1, role := "user" } 0 7),
   by decide, by decide, by decide, by decide, by decide⟩

/-- C17, as amended: in every reachable state no two card payments (the records
`processPayment` creates, with method `credit-card`) are for the same order,
and every card payment is successful and for a stored order whose payment
status is `paid`. -/
theorem C17_one_card_payment_per_order (s : Store) (hs : Reachable s) :
    (∀ (k1 k2 : Nat) (p1 p2 : Payment), s.payments[k1]? = some p1 → s.payments[k2]? = some p2 →
        p1.paymentMethod = "credit-card" → p2.paymentMethod = "credit-card" →
        p1.order = p2.order → k1 = k2)
    ∧ ∀ (k : Nat) (p : Payment), s.payments[k]? = some p → p.paymentMethod = "credit-card" →
        p.status = "successful"
        ∧ ∃ o, s.orders[p.order]? = some o ∧ o.paymentStatus = "paid" := by
  have hok := Reachable.payments_ok hs
  refine ⟨hok.2, ?_⟩
  intro k p hp hm
  obtain ⟨o, ho, hc⟩ := hok.1 k p hp
  exact ⟨(hc hm).1, o, ho, (hc hm).2⟩

/-- Witness for `C17_one_card_payment_per_order`: `paidStore` is reachable and
its one payment is the card payment of order 0, which is paid. -/
theorem C17_one_card_payment_per_order_witness :
    paidStore.payments = [samplePayment]
    ∧ paidStore.payments[0]? = some samplePayment
    ∧ samplePayment.paymentMethod = "credit-card"
    ∧ samplePayment.status = "successful"
    ∧ ∃ o, paidStore.orders[samplePayment.order]? = some o ∧ o.paymentStatus = "paid" :=
  ⟨by decide, by decide, by decide,
   (C17_one_card_payment_per_order paidStore
      (Reachable.step checkedOutStore_reachable
        (Step.processPayment _ { id := 1, role := "user" } 0 acceptingGateway 6))).2
      0 samplePayment (by decide) (by decide)⟩

/-! ## C19: settling a cash payment -/

/-- C19: in a reachable state `markCashPaymentAsPaid` replies 404 when the
payment is absent and 400 when its method is not `cash-on-delivery`, in both
cases returning the store as it was; otherwise the payment's order is stored
and the handler replies 200, stores the payment with status `successful` and
every other field, the amount included, as before, and stores the order with
payment status `paid` and every other field, status and history included, as
before. -/
theorem C19_markCashPaymentAsPaid (s : Store) (hs : Reachable s) (paymentId : Nat) :
    (Payment.findById s paymentId = none →
        markCashPaymentAsPaid s paymentId = (s, .fail 404 "Payment not found"))
    ∧ (∀ payment : Payment, Payment.findById s paymentId = some payment →
        payment.paymentMethod ≠ "cash-on-delivery" →
        markCashPaymentAsPaid s paymentId
          = (s, .fail 400 "Only cash on delivery payments can be manually marked as paid"))
    ∧ (∀ payment : Payment, Payment.findById s paymentId = some payment →
        payment.paymentMethod = "cash-on-delivery" →
        ∃ order : Order, Order.findById s payment.order = some order
          ∧ markCashPaymentAsPaid s paymentId
              = ({ s with
                   payments := s.payments.set paymentId { payment with status := "successful" }
                   orders := s.orders.set payment.order { order with paymentStatus := "paid" } },
                 .json 200 { payment with status := "successful" })
          ∧ Payment.findById (markCashPaymentAsPaid s paymentId).1 paymentId
              = some { payment with status := "successful" }
          ∧ Order.findById (markCashPaymentAsPaid s paymentId).1 payment.order
              = some { order with paymentStatus := "paid" }
          ∧ ({ payment with status := "successful" } : Payment).amount = payment.amount
          ∧ ({ order with paymentStatus := "paid" } : Order).status = order.status
          ∧ ({ order with paymentStatus := "paid" } : Order).statusHistory
              = order.statusHistory) := by
  refine ⟨?_, ?_, ?_⟩
  · intro h
    unfold markCashPaymentAsPaid
    rw [h]
  · intro payment h hm
    unfold markCashPaymentAsPaid
    rw [h]
    dsimp only
    rw [if_pos hm]
  · intro payment h hm
    obtain ⟨a, ha, _⟩ := (Reachable.payments_ok hs).1 paymentId payment h
    have horder : Order.findById s payment.order = some a.applyDefaults :=
      Order.findById_of_stored ha
    have hvalid : OrderSchema.validate a.applyDefaults = true :=
      OrderSchema.validate_applyDefaults
        (Reachable.orders_valid hs a (List.getElem?_mem ha))
    generalize hord : a.applyDefaults = order at horder hvalid
    have hidem : order.applyDefaults = order := by rw [← hord]; rfl
    have hv1 : PaymentSchema.validate { payment with status := "successful" } = true := by
      unfold PaymentSchema.validate
      show (decide (payment.paymentMethod ∈ paymentMethodEnum)
        && decide ("successful" ∈ paymentRecordStatusEnum)) = true
      rw [hm]
      decide
    have hv2 : OrderSchema.validate { order with paymentStatus := "paid" } = true :=
      OrderSchema.validate_paid hvalid order.paymentId
    have heq : markCashPaymentAsPaid s paymentId
        = ({ s with
             payments := s.payments.set paymentId { payment with status := "successful" }
             orders := s.orders.set payment.order { order with paymentStatus := "paid" } },
           .json 200 { payment with status := "successful" }) := by
      unfold markCashPaymentAsPaid
      rw [h]
      dsimp only
      rw [if_neg (not_not.mpr hm)]
      unfold Payment.save
      rw [if_pos hv1]
      dsimp only
      have hfo : Order.findById
          { s with payments := s.payments.set paymentId { payment with status := "successful" } }
          payment.order = some order := horder
      rw [hfo]
      dsimp only
      unfold Order.save
      rw [if_pos hv2]
    refine ⟨order, horder, heq, ?_, ?_, rfl, rfl, rfl⟩
    · rw [heq]
      exact List.getElem?_set_self (List.getElem?_eq_some_iff.mp h).1
    · have hload : ({ order with paymentStatus := "paid" } : Order).applyDefaults
          = { order with paymentStatus := "paid" } :=
        congrArg (fun o : Order => ({ o with paymentStatus := "paid" } : Order)) hidem
      have h5 : Order.findById (markCashPaymentAsPaid s paymentId).1 payment.order
          = some ({ order with paymentStatus := "paid" } : Order).applyDefaults := by
        rw [heq]
        exact Order.findById_of_stored
          (List.getElem?_set_self (List.getElem?_eq_some_iff.mp ha).1)
      rw [hload] at h5
      exact h5

/-- Witness for `C19_markCashPaymentAsPaid`: the cash payment 0 of `cashStore` is
settled; it becomes successful and order 0 becomes paid. -/
theorem C19_markCashPaymentAsPaid_witness :
    Payment.findById cashStore 0 = some sampleCashPayment
    ∧ markCashPaymentAsPaid cashStore 0
        = ({ cashStore with
             payments := [{ sampleCashPayment with status := "successful" }]
             orders := [{ cashOrder with paymentStatus := "paid" }] },
           .json 200 { sampleCashPayment with status := "successful" })
    ∧ Payment.findById cashStore 7 = none
    ∧ markCashPaymentAsPaid cashStore 7 = (cashStore, .fail 404 "Payment not found") :=
  ⟨by decide, by decide, by decide,
   (C19_markCashPaymentAsPaid cashStore
      (Reachable.step checkedOutStore_reachable
        (Step.createCashOnDeliveryPayment _ { id := 1, role := "user" } 0 6)) 7).1
      (by decide)⟩

/-! ## C21: one feedback per user and order -/

theorem twoDeliveredStore_reachable : Reachable twoDeliveredStore :=
  Reachable.step
    (Reachable.step
      (Reachable.step
        (Reachable.step checkedOutStore_reachable
          (Step.addToCart _ { id := 1, role := "user" } 10 (some 1)))
        (Step.createOrder _ { id := 1, role := "user" }
          { pickupDate := some 100, deliveryDate := some 200, paymentMethod := none } 6))
      (Step.updateOrderStatus _ { id := 9, role := "admin" } 0 (some "delivered") 7))
    (Step.updateOrderStatus _ { id := 9, role := "admin" } 1 (some "delivered") 8)

theorem Feedback.findById_getElem? {s : Store} {id i : Nat} {f : Feedback}
    (h : Feedback.findById s id = some (i, f)) : s.feedbacks[i]? = some f := by
  unfold Feedback.findById at h
  split at h
  · exact absurd h (by simp)
  · split at h
    · exact absurd h (by simp)
    · rename_i hf
      simp only [Option.some.injEq, Prod.mk.injEq] at h
      rw [← h.1, ← h.2]; exact hf

theorem set_getElem?_self {α : Type} {l : List α} {i : Nat} {a : α} (h : l[i]? = some a) :
    l.set i a = l := by
  apply List.ext_getElem?
  intro k
  by_cases hk : i = k
  · subst hk
    rw [List.getElem?_set_self (List.getElem?_eq_some_iff.mp h).1, h]
  · rw [List.getElem?_set_ne hk]

/-- Overwriting a feedback by one with the same user and order keeps the list of
(user, order) pairs. -/
theorem map_key_set {l : List Feedback} {i : Nat} {f g : Feedback} (h : l[i]? = some f)
    (hu : g.user = f.user) (ho : g.order = f.order) :
    (l.set i g).map (fun f => (f.user, f.order)) = l.map (fun f => (f.user, f.order)) := by
  rw [List.map_set]
  apply set_getElem?_self
  rw [List.getElem?_map, h, hu, ho]
  rfl

theorem createFeedback_unique (s : Store) (user : Actor) (req : FeedbackRequest)
    (h : FeedbackUnique s) : FeedbackUnique (createFeedback s user req).1 := by
  unfold createFeedback
  repeat' first | split | dsimp only
  all_goals first | exact h | skip
  rename_i hnone _ s1 hcreate
  rw [Feedback.create_feedback_eq_ok] at hcreate
  rw [hcreate.2]
  unfold FeedbackUnique at h ⊢
  dsimp only
  rw [List.map_append, List.nodup_append]
  refine ⟨h, by simp, ?_⟩
  intro key hk hk2
  simp only [List.map_cons, List.map_nil, List.mem_singleton] at hk2
  obtain ⟨f, hf, hfk⟩ := List.mem_map.mp hk
  unfold Feedback.findOne at hnone
  have := List.find?_eq_none.mp hnone f hf
  apply this
  rw [hk2] at hfk
  simp only [createFeedback.document, Prod.mk.injEq] at hfk
  simp [hfk.1, hfk.2]

theorem deleteFeedback_unique (s : Store) (user : Actor) (id : Nat)
    (h : FeedbackUnique s) : FeedbackUnique (deleteFeedback s user id).1 := by
  unfold deleteFeedback
  repeat' first | split | dsimp only
  all_goals first | exact h | skip
  unfold FeedbackUnique Feedback.deleteOne at *
  exact List.Nodup.sublist ((List.eraseIdx_sublist _ _).map _) h

theorem respondToFeedback_unique (s : Store) (user : Actor) (id : Nat)
    (comment : Option String) (now : Nat) (h : FeedbackUnique s) :
    FeedbackUnique (respondToFeedback s user id comment now).1 := by
  unfold respondToFeedback
  repeat' first | split | dsimp only
  all_goals first | exact h | skip
  rename_i i feedback hfind _ s1 hsave
  rw [Feedback.save_feedback_eq_ok] at hsave
  rw [hsave.2]
  unfold FeedbackUnique at h ⊢
  dsimp only
  rw [map_key_set (Feedback.findById_getElem? hfind) ?_ ?_]
  · exact h
  · rfl
  · rfl

theorem updateFeedback_unique (s : Store) (user : Actor) (id : Nat) (body : FeedbackUpdate)
    (hu : body.user = none) (ho : body.order = none) (h : FeedbackUnique s) :
    FeedbackUnique (updateFeedback s user id body).1 := by
  unfold updateFeedback
  repeat' first | split | dsimp only
  all_goals first | exact h | skip
  rename_i hupd
  rcases Feedback.findByIdAndUpdate_of_ok hupd with ⟨_, ⟨_, ht, _⟩ | ⟨i, f, hfind, ht, _⟩⟩
  · rw [ht]; exact h
  · rw [ht]
    unfold FeedbackUnique at h ⊢
    dsimp only
    rw [map_key_set (Feedback.findById_getElem? hfind) ?_ ?_]
    · exact h
    · simp [FeedbackUpdate.applyTo, hu]
    · simp [FeedbackUpdate.applyTo, ho]

/-- C21 (defect in the code): `updateFeedback` hands the request body to
`findByIdAndUpdate` as it is, so the owner of a feedback can point it at another
order.  `movedFeedbackStore` is reachable (user 1 leaves feedback for the
delivered orders 0 and 1, then updates feedback 1 with the body `order: 0`, which
is answered 200) and holds two feedback records of user 1 for order 0.  The
other three handlers keep the records unique, and so does `updateFeedback` when
the body names neither `user` nor `order`. -/
theorem C21_updateFeedback_breaks_uniqueness :
    Reachable movedFeedbackStore
    ∧ (updateFeedback twoFeedbackStore { id := 1, role := "user" } 1 moveToOrderZero).2.isJson
        = true
    ∧ FeedbackUnique twoFeedbackStore
    ∧ movedFeedbackStore.feedbacks.map (fun f => (f.id, f.user, f.order))
        = [(0, 1, 0), (1, 1, 0)]
    ∧ ¬ FeedbackUnique movedFeedbackStore
    ∧ (∀ (s : Store) (user : Actor) (req : FeedbackRequest),
        FeedbackUnique s → FeedbackUnique (createFeedback s user req).1)
    ∧ (∀ (s : Store) (user : Actor) (id : Nat),
        FeedbackUnique s → FeedbackUnique (deleteFeedback s user id).1)
    ∧ (∀ (s : Store) (user : Actor) (id : Nat) (comment : Option String) (now : Nat),
        FeedbackUnique s → FeedbackUnique (respondToFeedback s user id comment now).1)
    ∧ ∀ (s : Store) (user : Actor) (id : Nat) (body : FeedbackUpdate),
        body.user = none → body.order = none →
        FeedbackUnique s → FeedbackUnique (updateFeedback s user id body).1 :=
  ⟨Reachable.step
    (Reachable.step
      (Reachable.step twoDeliveredStore_reachable
        (Step.createFeedback _ { id := 1, role := "user" } sampleFeedbackRequest))
      (Step.createFeedback _ { id := 1, role := "user" } { sampleFeedbackRequest with orderId := 1 }))
    (Step.updateFeedback _ { id := 1, role := "user" } 1 moveToOrderZero),
   by decide, by unfold FeedbackUnique; decide, by decide, by unfold FeedbackUnique; decide,
   createFeedback_unique, deleteFeedback_unique, respondToFeedback_unique,
   updateFeedback_unique⟩

/-! ## C22: listing orders within the caller's scope -/

theorem getOrders.scope_iff (user : Actor) (order : Order) :
    getOrders.scope user order = true ↔ order.inScope user := by
  unfold getOrders.scope Order.inScope
  by_cases ha : user.role = "admin"
  · simp [ha]
  by_cases hm : user.role = "manager"
  · simp [hm]
  by_cases hw : user.role = "worker"
  · simp [hw]
  by_cases hd : user.role = "deliverer"
  · simp [hd]
  simp [ha, hm, hw, hd]

theorem getOrders.statusFilter_iff (status : Option String) (order : Order) :
    getOrders.statusFilter status order = true ↔ order.hasStatus status := by
  unfold getOrders.statusFilter Order.hasStatus
  cases status with
  | none => simp
  | some st =>
    by_cases h : st = ""
    · simp [h]
    · simp [h]

theorem Order.mem_find {s : Store} {filter : Order → Bool} {d : Nat × Order} :
    d ∈ Order.find s filter ↔ s.orders[d.1]? = some d.2 ∧ filter d.2 = true := by
  unfold Order.find
  rw [List.mem_filter, List.mem_enum_iff_getElem?]

theorem Order.nodup_find (s : Store) (filter : Order → Bool) : (Order.find s filter).Nodup := by
  unfold Order.find
  exact List.Nodup.filter _ (List.Nodup.of_map _ (List.nodup_enum_map_fst _))

theorem Order.inScope_applyDefaults (user : Actor) (o : Order) :
    o.applyDefaults.inScope user ↔ o.inScope user := Iff.rfl

theorem Order.hasStatus_applyDefaults {status : Option String} {o : Order}
    (h : o.hasStatus status) : o.applyDefaults.hasStatus status := by
  intro st hst hne
  show some (o.status.getD "pending") = some st
  rw [h st hst hne]
  rfl

theorem getOrders.mem_sorted {s : Store} {user : Actor} {q : OrdersQuery} {d : Nat × Order} :
    d ∈ getOrders.sorted s user q ↔
      ∃ o, s.orders[d.1]? = some o ∧ d.2 = o.applyDefaults
        ∧ o.inScope user ∧ o.hasStatus q.status := by
  have hfind : ∀ e : Nat × Order, e ∈ Order.find s
      (fun order => getOrders.scope user order && getOrders.statusFilter q.status order) ↔
      s.orders[e.1]? = some e.2 ∧ e.2.inScope user ∧ e.2.hasStatus q.status := by
    intro e
    rw [Order.mem_find, Bool.and_eq_true, getOrders.scope_iff, getOrders.statusFilter_iff]
  have hmap : ∀ l : List (Nat × Order),
      (∀ e, e ∈ l ↔ s.orders[e.1]? = some e.2 ∧ e.2.inScope user ∧ e.2.hasStatus q.status) →
      (d ∈ l.map (fun d => (d.1, d.2.applyDefaults)) ↔
        ∃ o, s.orders[d.1]? = some o ∧ d.2 = o.applyDefaults
          ∧ o.inScope user ∧ o.hasStatus q.status) := by
    intro l hl
    rw [List.mem_map]
    constructor
    · rintro ⟨e, he, hed⟩
      obtain ⟨h1, h2, h3⟩ := (hl e).mp he
      rw [← hed]
      exact ⟨e.2, h1, rfl, h2, h3⟩
    · rintro ⟨o, h1, h2, h3, h4⟩
      refine ⟨(d.1, o), (hl (d.1, o)).mpr ⟨h1, h3, h4⟩, ?_⟩
      show (d.1, o.applyDefaults) = d
      rw [← h2]
  unfold getOrders.sorted
  dsimp only
  apply hmap
  intro e
  split
  · rw [(List.perm_insertionSort _ _).mem_iff]; exact hfind e
  · rw [List.mem_reverse]; exact hfind e

theorem getOrders.nodup_sorted (s : Store) (user : Actor) (q : OrdersQuery) :
    (getOrders.sorted s user q).Nodup := by
  have hfst : ∀ l : List (Nat × Order), (l.map Prod.fst).Nodup →
      (l.map (fun d => (d.1, d.2.applyDefaults))).Nodup := by
    intro l hl
    apply List.Nodup.of_map Prod.fst
    rw [List.map_map]
    exact hl
  have hfound : ((Order.find s
      (fun order => getOrders.scope user order
        && getOrders.statusFilter q.status order)).map Prod.fst).Nodup := by
    unfold Order.find
    exact List.Nodup.sublist ((List.filter_sublist _).map _) (List.nodup_enum_map_fst _)
  unfold getOrders.sorted
  dsimp only
  apply hfst
  split
  · exact ((List.perm_insertionSort _ _).map _).nodup_iff.mpr hfound
  · rw [List.map_reverse, List.nodup_reverse]; exact hfound

/-- C22: the documents `getOrders` pages through are exactly the stored orders
in the actor's scope that pass the status filter, each once, loaded with the
schema defaults; the reply is 200 with, as data, the window of that list that
`skip` and `limit` cut out, that is `limit` documents from position
`(page - 1) * limit` on (or the database refuses a negative skip and nothing is
returned); so every order returned is the order loaded from its id, in the
actor's scope, with the status asked for. -/
theorem C22_getOrders_scope (s : Store) (user : Actor) (q : OrdersQuery) :
    (∀ d : Nat × Order, d ∈ getOrders.sorted s user q ↔
        ∃ o, s.orders[d.1]? = some o ∧ d.2 = o.applyDefaults
          ∧ o.inScope user ∧ o.hasStatus q.status)
    ∧ (getOrders.sorted s user q).Nodup
    ∧ (((getOrders.page q - 1) * getOrders.limit q < 0
          ∧ getOrders s user q = .next (.upstream "Skip value must be non-negative"))
      ∨ (0 ≤ (getOrders.page q - 1) * getOrders.limit q
          ∧ ∃ page : OrdersPage, getOrders s user q = .json 200 page
            ∧ page.data = ((getOrders.sorted s user q).drop
                ((getOrders.page q - 1) * getOrders.limit q).toNat).take (getOrders.limit q).natAbs
            ∧ page.count = page.data.length
            ∧ ∀ d ∈ page.data,
                Order.findById s d.1 = some d.2 ∧ d.2.inScope user
                  ∧ d.2.hasStatus q.status)) := by
  refine ⟨fun d => getOrders.mem_sorted, getOrders.nodup_sorted s user q, ?_⟩
  by_cases hneg : (getOrders.page q - 1) * getOrders.limit q < 0
  · left
    refine ⟨hneg, ?_⟩
    unfold getOrders
    simp only [hneg, if_true]
  · right
    refine ⟨Int.not_lt.mp hneg, ?_⟩
    unfold getOrders
    simp only [hneg, if_false]
    refine ⟨_, rfl, rfl, rfl, ?_⟩
    intro d hd
    obtain ⟨o, h1, h2, h3, h4⟩ :=
      getOrders.mem_sorted.mp (List.mem_of_mem_drop (List.mem_of_mem_take hd))
    rw [h2]
    exact ⟨Order.findById_of_stored h1, h3, Order.hasStatus_applyDefaults h4⟩

/-- Witness for `C22_getOrders_scope`: worker 7 asks `fiveOrderStore` for the
second page of two of the processing orders, oldest first, and gets orders 3
and 4; worker 5, to whom no order is assigned, gets an empty page; the owner,
user 1, gets the same page as worker 7; and the confirmed order 2 is in the
scope of worker 7 but not in the list, as it is not processing. -/
theorem C22_getOrders_scope_witness :
    getOrders fiveOrderStore { id := 7, role := "worker" } sampleQuery
      = .json 200 { count := 2, next := none, prev := some (1, 2),
                    data := [(3, processingOrder), (4, processingOrder)] }
    ∧ getOrders fiveOrderStore { id := 5, role := "worker" } sampleQuery
      = .json 200 { count := 0, next := none, prev := some (1, 2), data := [] }
    ∧ getOrders fiveOrderStore { id := 1, role := "user" } sampleQuery
      = .json 200 { count := 2, next := none, prev := some (1, 2),
                    data := [(3, processingOrder), (4, processingOrder)] }
    ∧ ((2, sampleOrder) ∈ getOrders.sorted fiveOrderStore { id := 7, role := "worker" } sampleQuery ↔
        ∃ o, fiveOrderStore.orders[2]? = some o ∧ sampleOrder = o.applyDefaults
          ∧ o.inScope { id := 7, role := "worker" }
          ∧ o.hasStatus sampleQuery.status) :=
  ⟨by decide, by decide, by decide,
   (C22_getOrders_scope fiveOrderStore { id := 7, role := "worker" } sampleQuery).1
     (2, sampleOrder)⟩

/-! ## C23: reading an order one does not own -/

theorem User.findById_user_id {users : List User} {id : Nat} {u : User}
    (h : User.findById users id = some u) : u.id = id := by
  unfold User.findById at h
  have := List.find?_some h
  simpa using this

theorem unassignedStore_reachable : Reachable unassignedStore :=
  Reachable.step checkedOutStore_reachable
    (Step.directory _
      [{ id := 1, role := "user" }, { id := 2, role := "user" },
       { id := 3, role := "manager" }, { id := 7, role := "worker" },
       { id := 8, role := "deliverer" }, { id := 9, role := "admin" }]
      [{ id := 10, price := 20 }])

/-- C23 (defect in the code): `getOrder` does not refuse a plain user who does
not own the order when the order has no worker or no deliverer assigned: the
authorisation condition guards each comparison with the field itself
(`order.assignedWorker && ...`), so an unset field makes the whole condition
false.  On `unassignedStore`, which is reachable, user 2 reads order 0 of
user 1.  In general, for an actor of role `user` who is not the owner (whose
user document exists), the reply is 200 with the order as soon as one of the
two assignments is unset, and 403 only when both are set, to users that exist
and are not the actor. -/
theorem C23_unassigned_order_not_refused :
    Reachable unassignedStore
    ∧ Order.findById unassignedStore 0 = some cartStoreOrder
    ∧ cartStoreOrder.user = 1
    ∧ cartStoreOrder.assignedWorker = none ∧ cartStoreOrder.assignedDeliverer = none
    ∧ getOrder unassignedStore { id := 2, role := "user" } 0 = .json 200 cartStoreOrder
    ∧ (∀ (s : Store) (user : Actor) (id : Nat) (order : Order) (owner : User),
        user.role = "user" → Order.findById s id = some order → order.user ≠ user.id →
        User.findById s.users order.user = some owner →
        order.assignedWorker = none ∨ order.assignedDeliverer = none →
        getOrder s user id = .json 200 order)
    ∧ ∀ (s : Store) (user : Actor) (id : Nat) (order : Order) (owner worker deliverer : User),
        user.role = "user" → Order.findById s id = some order → order.user ≠ user.id →
        User.findById s.users order.user = some owner →
        order.assignedWorker.bind (User.findById s.users) = some worker →
        order.assignedDeliverer.bind (User.findById s.users) = some deliverer →
        worker.id ≠ user.id → deliverer.id ≠ user.id →
        getOrder s user id = .fail 403 "Not authorized to access this order" := by
  refine ⟨unassignedStore_reachable, by decide, by decide, by decide, by decide, by decide,
    ?_, ?_⟩
  · intro s user id order owner hrole hfind hne howner hun
    have hid : owner.id ≠ user.id := by rw [User.findById_user_id howner]; exact hne
    unfold getOrder
    rw [hfind]
    dsimp only
    rw [howner]
    unfold getOrder.notAuthorized
    rcases hun with h | h
    · rw [h]; simp [hrole, hid]
    · rw [h]
      cases hw : order.assignedWorker.bind (User.findById s.users) with
      | none => simp [hrole, hid]
      | some w =>
        by_cases hwid : w.id = user.id
        · simp [hrole, hid, hwid]
        · simp [hrole, hid, hwid]
  · intro s user id order owner worker deliverer hrole hfind hne howner hw hd hwid hdid
    have hid : owner.id ≠ user.id := by rw [User.findById_user_id howner]; exact hne
    unfold getOrder
    rw [hfind]
    dsimp only
    rw [howner, hw, hd]
    unfold getOrder.notAuthorized
    simp [hrole, hid, hwid, hdid]

/-! ## C24: who may not cancel -/

/-- C24: for an order that exists, an actor who is neither its owner nor an
admin gets 403 from `cancelOrder`, whatever the status of the order, and the
store, hence the status and the history of the order, is as before. -/
theorem C24_cancelOrder_forbidden (s : Store) (user : Actor) (id : Nat) (now : Nat)
    (order : Order) (hfind : Order.findById s id = some order)
    (howner : order.user ≠ user.id) (hrole : user.role ≠ "admin") :
    cancelOrder s user id now = (s, .fail 403 "Not authorized to cancel this order")
    ∧ Order.findById (cancelOrder s user id now).1 id = some order
    ∧ ∀ o1, Order.findById (cancelOrder s user id now).1 id = some o1 →
        o1.status = order.status ∧ o1.statusHistory = order.statusHistory := by
  have h : cancelOrder s user id now = (s, .fail 403 "Not authorized to cancel this order") := by
    unfold cancelOrder
    rw [hfind]
    dsimp only
    rw [if_pos ⟨howner, hrole⟩]
  rw [h]
  refine ⟨rfl, hfind, ?_⟩
  intro o1 ho1
  rw [hfind] at ho1
  rw [← Option.some.inj ho1]
  exact ⟨rfl, rfl⟩

/-- Witness for `C24_cancelOrder_forbidden`: worker 7, to whom the confirmed
order 0 of `sampleStore` is assigned, and manager 3 are both refused. -/
theorem C24_cancelOrder_forbidden_witness :
    sampleOrder.status = some "confirmed"
    ∧ sampleOrder.assignedWorker = some 7
    ∧ cancelOrder sampleStore { id := 7, role := "worker" } 0 9
        = (sampleStore, .fail 403 "Not authorized to cancel this order")
    ∧ cancelOrder sampleStore { id := 3, role := "manager" } 0 9
        = (sampleStore, .fail 403 "Not authorized to cancel this order") :=
  ⟨by decide, by decide,
   (C24_cancelOrder_forbidden sampleStore { id := 7, role := "worker" } 0 9 sampleOrder
      (by decide) (by decide) (by decide)).1,
   (C24_cancelOrder_forbidden sampleStore { id := 3, role := "manager" } 0 9 sampleOrder
      (by decide) (by decide) (by decide)).1⟩

/-! ## C25: what admins and managers may do -/

/-- C25, counterexample: manager 3, who does not own the pending order 0 of
`unassignedStore`, is refused with 403 by `cancelOrder`. -/
theorem C25_counterexample :
    Order.findById unassignedStore 0 = some cartStoreOrder
    ∧ cartStoreOrder.status = some "pending"
    ∧ cartStoreOrder.user = 1
    ∧ cancelOrder unassignedStore { id := 3, role := "manager" } 0 9
        = (unassignedStore, .fail 403 "Not authorized to cancel this order") :=
  ⟨by decide, by decide, by decide, by decide⟩

/-- C25, as amended: for an order that exists, an admin or a manager always
gets the order from `getOrder` and is never answered 403 by `updateOrderStatus`;
an admin is never answered 403 by `cancelOrder`; a manager is answered 403 by
`cancelOrder` exactly when the order is not the manager's own. -/
theorem C25_admin_and_manager (s : Store) (user : Actor) (id : Nat) (order : Order)
    (hfind : Order.findById s id = some order)
    (hrole : user.role = "admin" ∨ user.role = "manager") :
    getOrder s user id = .json 200 order
    ∧ (∀ (status : Option String) (now : Nat) (error : String),
        (updateOrderStatus s user id status now).2 ≠ .fail 403 error)
    ∧ (user.role = "admin" →
        ∀ (now : Nat) (error : String), (cancelOrder s user id now).2 ≠ .fail 403 error)
    ∧ (user.role = "manager" →
        ∀ now : Nat,
          (cancelOrder s user id now = (s, .fail 403 "Not authorized to cancel this order")
            ↔ order.user ≠ user.id)
          ∧ (order.user = user.id →
              ∀ error : String, (cancelOrder s user id now).2 ≠ .fail 403 error)) := by
  have hnot403 : ∀ (now : Nat) (error : String),
      ¬ (order.user ≠ user.id ∧ user.role ≠ "admin") →
      (cancelOrder s user id now).2 ≠ .fail 403 error := by
    intro now error hno
    unfold cancelOrder
    rw [hfind]
    dsimp only
    rw [if_neg hno]
    split
    · simp
    · split <;> simp
  refine ⟨?_, ?_, ?_, ?_⟩
  · unfold getOrder
    rw [hfind]
    dsimp only
    unfold getOrder.notAuthorized
    rcases hrole with h | h
    · simp [h]
    · simp [h]
  · intro status now error
    rw [updateOrderStatus_of_found hfind]
    split
    · simp
    · split <;> simp
  · intro hadmin now error
    exact hnot403 now error (fun h => h.2 hadmin)
  · intro hmanager now
    have hna : user.role ≠ "admin" := by rw [hmanager]; decide
    refine ⟨⟨?_, ?_⟩, ?_⟩
    · intro h hown
      have := hnot403 now "Not authorized to cancel this order" (fun h2 => h2.1 hown)
      rw [h] at this
      exact this rfl
    · intro hne
      unfold cancelOrder
      rw [hfind]
      dsimp only
      rw [if_pos ⟨hne, hna⟩]
    · intro hown error
      exact hnot403 now error (fun h => h.1 hown)

/-- Witness for `C25_admin_and_manager`: on `unassignedStore` manager 3 reads
order 0 of user 1 and admin 9 cancels it. -/
theorem C25_admin_and_manager_witness :
    getOrder unassignedStore { id := 3, role := "manager" } 0 = .json 200 cartStoreOrder
    ∧ (cancelOrder unassignedStore { id := 9, role := "admin" } 0 9).2
        = .json 200 (cartStoreOrder.withStatus (some "cancelled") 9 9) :=
  ⟨(C25_admin_and_manager unassignedStore { id := 3, role := "manager" } 0 cartStoreOrder
      (by decide) (Or.inr (by decide))).1,
   by decide⟩

/-! ## C26: assigning a worker and a deliverer -/

theorem OrderSchema.validate_assignedWorker {order : Order}
    (h : OrderSchema.validate order = true) (workerId : Option Nat) :
    OrderSchema.validate { order with assignedWorker := workerId } = true := h

theorem OrderSchema.validate_assignedDeliverer {order : Order}
    (h : OrderSchema.validate order = true) (delivererId : Option Nat) :
    OrderSchema.validate { order with assignedDeliverer := delivererId } = true := h

/-- C26: in a reachable state `assignWorker` replies 404 and leaves the store as
it is when no user has the given id, when that user's role is not `worker`, or
when there is no such order; otherwise it replies 200 and stores the order with
`assignedWorker` set to the given id and every other field, `status` and
`statusHistory` included, as before, whatever the status and the previous
assignment were, and touches no other order.  The same holds for
`assignDeliverer` with the role `deliverer` and the field `assignedDeliverer`. -/
theorem C26_assignment (s : Store) (hs : Reachable s) (id userId : Nat) :
    (User.findById s.users userId = none →
        assignWorker s id userId = (s, .fail 404 "Worker not found"))
    ∧ (∀ u, User.findById s.users userId = some u → u.role ≠ "worker" →
        assignWorker s id userId = (s, .fail 404 "Worker not found"))
    ∧ (∀ u, User.findById s.users userId = some u → u.role = "worker" →
        Order.findById s id = none →
        assignWorker s id userId = (s, .fail 404 "Order not found"))
    ∧ (∀ u order, User.findById s.users userId = some u → u.role = "worker" →
        Order.findById s id = some order →
        assignWorker s id userId
          = ({ s with orders := s.orders.set id { order with assignedWorker := some userId } },
             .json 200 { order with assignedWorker := some userId }))
    ∧ (User.findById s.users userId = none →
        assignDeliverer s id userId = (s, .fail 404 "Deliverer not found"))
    ∧ (∀ u, User.findById s.users userId = some u → u.role ≠ "deliverer" →
        assignDeliverer s id userId = (s, .fail 404 "Deliverer not found"))
    ∧ (∀ u, User.findById s.users userId = some u → u.role = "deliverer" →
        Order.findById s id = none →
        assignDeliverer s id userId = (s, .fail 404 "Order not found"))
    ∧ ∀ u order, User.findById s.users userId = some u → u.role = "deliverer" →
        Order.findById s id = some order →
        assignDeliverer s id userId
          = ({ s with orders := s.orders.set id { order with assignedDeliverer := some userId } },
             .json 200 { order with assignedDeliverer := some userId }) := by
  have hvalid : ∀ order, Order.findById s id = some order → OrderSchema.validate order = true :=
    fun order h => Order.findById_valid (Reachable.orders_valid hs) h
  refine ⟨?_, ?_, ?_, ?_, ?_, ?_, ?_, ?_⟩
  · intro hu
    unfold assignWorker
    rw [hu]
  · intro u hu hr
    unfold assignWorker
    rw [hu]
    dsimp only
    rw [if_pos hr]
  · intro u hu hr hfind
    unfold assignWorker
    rw [hu]
    dsimp only
    rw [if_neg (not_not.mpr hr), hfind]
  · intro u order hu hr hfind
    unfold assignWorker
    rw [hu]
    dsimp only
    rw [if_neg (not_not.mpr hr), hfind]
    dsimp only
    unfold Order.save
    rw [if_pos (OrderSchema.validate_assignedWorker (hvalid order hfind) _)]
  · intro hu
    unfold assignDeliverer
    rw [hu]
  · intro u hu hr
    unfold assignDeliverer
    rw [hu]
    dsimp only
    rw [if_pos hr]
  · intro u hu hr hfind
    unfold assignDeliverer
    rw [hu]
    dsimp only
    rw [if_neg (not_not.mpr hr), hfind]
  · intro u order hu hr hfind
    unfold assignDeliverer
    rw [hu]
    dsimp only
    rw [if_neg (not_not.mpr hr), hfind]
    dsimp only
    unfold Order.save
    rw [if_pos (OrderSchema.validate_assignedDeliverer (hvalid order hfind) _)]

/-- Witness for `C26_assignment`: on `unassignedStore`, which is reachable,
worker 7 and deliverer 8 are assigned to the pending order 0; user 2, who is
not a worker, and the unknown user 4 are not. -/
theorem C26_assignment_witness :
    Reachable unassignedStore
    ∧ assignWorker unassignedStore 0 7
        = ({ unassignedStore with orders := [{ cartStoreOrder with assignedWorker := some 7 }] },
           .json 200 { cartStoreOrder with assignedWorker := some 7 })
    ∧ assignDeliverer unassignedStore 0 8
        = ({ unassignedStore with
              orders := [{ cartStoreOrder with assignedDeliverer := some 8 }] },
           .json 200 { cartStoreOrder with assignedDeliverer := some 8 })
    ∧ assignWorker unassignedStore 0 2 = (unassignedStore, .fail 404 "Worker not found")
    ∧ assignWorker unassignedStore 0 4 = (unassignedStore, .fail 404 "Worker not found") :=
  ⟨unassignedStore_reachable,
   (C26_assignment unassignedStore unassignedStore_reachable 0 7).2.2.2.1
      { id := 7, role := "worker" } cartStoreOrder (by decide) (by decide) (by decide),
   (C26_assignment unassignedStore unassignedStore_reachable 0 8).2.2.2.2.2.2.2
      { id := 8, role := "deliverer" } cartStoreOrder (by decide) (by decide) (by decide),
   (C26_assignment unassignedStore unassignedStore_reachable 0 2).2.1
      { id := 2, role := "user" } (by decide) (by decide),
   (C26_assignment unassignedStore unassignedStore_reachable 0 4).1 (by decide)⟩

/-! ## C27: a status update needs a known status -/

/-- An order whose status is a string outside the enum does not pass
validation. -/
theorem OrderSchema.validate_withStatus_unknown (order : Order) {st : String}
    (hst : st ∉ statusEnum) (now updatedBy : Nat) :
    OrderSchema.validate (order.withStatus (some st) now updatedBy) = false := by
  unfold OrderSchema.validate
  simp [Order.withStatus, enumValidator, hst]

/-- C27 (defect in the code): a status string outside the eight values is
refused, by the schema validator on save, and the store stays as it is; but a
request without `status` is not refused, as the enum validator does not run on
an unset value: in a reachable state, for any actor but a worker on an order
without assigned worker, `updateOrderStatus` replies 200, unsets the status of
the order and appends a history entry without status.  `unsetStatusStore` is
reachable and its order 0 has no status. -/
theorem C27_missing_status_not_refused :
    (∀ (s : Store) (user : Actor) (id : Nat) (st : String) (now : Nat), st ∉ statusEnum →
        (updateOrderStatus s user id (some st) now).1 = s
        ∧ (updateOrderStatus s user id (some st) now).2.isJson = false)
    ∧ (∀ (s : Store) (user : Actor) (id : Nat) (now : Nat) (order : Order), Reachable s →
        Order.findById s id = some order →
        ¬ (user.role = "worker" ∧ order.assignedWorker = none) →
        updateOrderStatus s user id none now
          = ({ s with orders := s.orders.set id (order.withStatus none now user.id) },
             .json 200 (order.withStatus none now user.id)))
    ∧ Reachable unsetStatusStore
    ∧ updateOrderStatus checkedOutStore { id := 9, role := "admin" } 0 none 6
        = (unsetStatusStore, .json 200 (cartStoreOrder.withStatus none 6 9))
    ∧ unsetStatusStore.orders[0]? = some (cartStoreOrder.withStatus none 6 9)
    ∧ (cartStoreOrder.withStatus none 6 9).status = none
    ∧ (cartStoreOrder.withStatus none 6 9).statusHistory
        = cartStoreOrder.statusHistory ++ [{ status := none, timestamp := 6, updatedBy := 9 }]
    ∧ ¬ ∀ o ∈ unsetStatusStore.orders, ∃ st ∈ statusEnum, o.status = some st := by
  refine ⟨?_, ?_, Reachable.step checkedOutStore_reachable
      (Step.updateOrderStatus _ { id := 9, role := "admin" } 0 none 6),
    by decide, by decide, by decide, by decide, ?_⟩
  · intro s user id st now hst
    cases hfind : Order.findById s id with
    | none => simp [updateOrderStatus, hfind, Reply.isJson]
    | some order =>
      rw [updateOrderStatus_of_found hfind, OrderSchema.validate_withStatus_unknown order hst]
      split
      · exact ⟨rfl, rfl⟩
      · simp [Reply.isJson]
  · intro s user id now order hs hfind hworker
    have hvalid : OrderSchema.validate order = true :=
      Order.findById_valid (Reachable.orders_valid hs) hfind
    rw [updateOrderStatus_of_found hfind, if_neg hworker,
      OrderSchema.validate_withStatus hvalid]
    simp [enumValidator]
  · intro h
    obtain ⟨st, _, hst⟩ := h (cartStoreOrder.withStatus none 6 9) (by decide)
    have hnone : (cartStoreOrder.withStatus none 6 9).status = none := rfl
    rw [hnone] at hst
    exact Option.noConfusion hst

/-! ## C28: two addToCart calls at once -/

/-- One `addToCart` call run alone, move by move, is the handler `addToCart`. -/
theorem addToCart.alone_eq (user : Actor) (packageId : Nat) (quantity : Option Int)
    (s : Store) :
    addToCart.alone user packageId quantity s
      = ((addToCart s user packageId quantity).1,
         .replied (addToCart s user packageId quantity).2) := by
  unfold addToCart.alone addToCart
  dsimp only
  cases hp : Package.findById s.packages packageId with
  | none => simp [addToCart.step, hp]
  | some pkg =>
    simp only [addToCart.step, hp]
    cases hc : Cart.findOne s user.id with
    | none =>
      simp only [addToCart.write]
      cases hs : Cart.create s
          { user := user.id, items := [{ package := packageId, quantity := quantity.getD 1 }] } with
      | error e => rfl
      | ok s1 => simp only [cartReply_fst]
    | some found =>
      obtain ⟨i, cart⟩ := found
      simp only [addToCart.write]
      cases hi : cart.items.findIdx? (fun item => decide (item.package = packageId)) with
      | none =>
        simp only []
        cases hs : Cart.save s i
            { cart with
              items := cart.items ++ [{ package := packageId, quantity := quantity.getD 1 }] } with
        | error e => rfl
        | ok s1 => simp only [cartReply_fst]
      | some itemIndex =>
        simp only []
        cases hs : Cart.save s i
            { cart with
              items := cart.items.modify
                (fun item => { item with quantity := item.quantity + quantity.getD 1 })
                itemIndex } with
        | error e => rfl
        | ok s1 => simp only [cartReply_fst]

theorem Cart.findOne_eq_none {s : Store} {user : Nat} (h : Cart.findOne s user = none) :
    s.carts.findIdx? (fun c => decide (c.user = user)) = none := by
  unfold Cart.findOne at h
  split at h
  · assumption
  · rename_i j hj
    split at h
    · rename_i hc
      have := List.findIdx?_of_eq_some hj
      rw [hc] at this
      simp at this
    · simp at h

theorem modify_append_length {α : Type} (f : α → α) (x : α) :
    ∀ l : List α, (l ++ [x]).modify f l.length = l ++ [f x]
  | [] => rfl
  | a :: l => by
    show a :: (l ++ [x]).modify f l.length = a :: (l ++ [f x])
    rw [modify_append_length f x l]

theorem findIdx?_append_last {items : List CartItem} {packageId : Nat} (q : Int)
    (h : ∀ item ∈ items, item.package ≠ packageId) :
    (items ++ [({ package := packageId, quantity := q } : CartItem)]).findIdx?
        (fun item => decide (item.package = packageId)) = some items.length := by
  have hnone : items.findIdx? (fun item => decide (item.package = packageId)) = none := by
    rw [List.findIdx?_eq_none_iff]
    intro x hx
    simpa using h x hx
  rw [List.findIdx?_append, hnone]
  simp [List.findIdx?_cons]

/-- The first `addToCart` of a package the user has no line for: afterwards the
user's cart is the lines it had followed by one line for the package. -/
theorem addToCart_new_line {s : Store} {user : Actor} {packageId : Nat}
    (hpkg : (Package.findById s.packages packageId).isSome = true)
    (hvalid : ∀ c ∈ s.carts, CartSchema.validate c = true)
    (hnew : ∀ item ∈ Cart.linesOf s user.id, item.package ≠ packageId)
    {q : Int} (hq : 1 ≤ q) :
    ∃ i, Cart.findOne (addToCart s user packageId (some q)).1 user.id
        = some (i, { user := user.id,
                     items := Cart.linesOf s user.id ++ [{ package := packageId, quantity := q }] })
      ∧ (addToCart s user packageId (some q)).1.packages = s.packages := by
  obtain ⟨pkg, hpkg⟩ := Option.isSome_iff_exists.mp hpkg
  cases hfind : Cart.findOne s user.id with
  | none =>
    have hlines : Cart.linesOf s user.id = [] := by
      unfold Cart.linesOf; rw [hfind]
    have hv : CartSchema.validate
        { user := user.id, items := [{ package := packageId, quantity := q }] } = true := by
      simp [CartSchema.validate, hq]
    have hstore : (addToCart s user packageId (some q)).1
        = { s with carts := s.carts ++
              [{ user := user.id, items := [{ package := packageId, quantity := q }] }] } := by
      unfold addToCart
      dsimp only
      rw [hpkg, hfind]
      dsimp only
      unfold Cart.create
      rw [Option.getD_some, if_pos hv]
      dsimp only
      rw [cartReply_fst]
    rw [hstore, hlines]
    refine ⟨s.carts.length, ?_, rfl⟩
    apply Cart.findOne_of_findIdx
    · show (s.carts ++ [_]).findIdx? _ = _
      rw [List.findIdx?_append, Cart.findOne_eq_none hfind]
      simp [List.findIdx?_cons]
    · show (s.carts ++ [_])[s.carts.length]? = _
      simp
  | some found =>
    obtain ⟨i, cart⟩ := found
    obtain ⟨hidx, hci, hu⟩ := Cart.findOne_eq_some hfind
    have hlines : Cart.linesOf s user.id = cart.items := by
      unfold Cart.linesOf; rw [hfind]
    rw [hlines] at hnew ⊢
    have hline : cart.items.findIdx? (fun item => decide (item.package = packageId)) = none := by
      rw [List.findIdx?_eq_none_iff]
      intro x hx
      simpa using hnew x hx
    have hcv : CartSchema.validate cart = true := hvalid cart (List.getElem?_mem hci)
    have hv : CartSchema.validate
        { cart with items := cart.items ++ [{ package := packageId, quantity := q }] } = true := by
      unfold CartSchema.validate at hcv ⊢
      simp [List.all_append, hcv, hq]
    have hstore : (addToCart s user packageId (some q)).1
        = { s with carts := (s.carts.set i
              { cart with items := cart.items ++ [{ package := packageId, quantity := q }] }) } := by
      unfold addToCart
      dsimp only
      rw [hpkg, hfind]
      dsimp only
      rw [hline]
      dsimp only
      unfold Cart.save
      rw [Option.getD_some, if_pos hv]
      dsimp only
      rw [cartReply_fst]
    rw [hstore]
    refine ⟨i, ?_, rfl⟩
    have hcart : ({ cart with items := cart.items ++ [{ package := packageId, quantity := q }] } : Cart)
        = { user := user.id, items := cart.items ++ [{ package := packageId, quantity := q }] } := by
      rw [← hu]
    rw [← hcart]
    apply Cart.findOne_of_findIdx
    · show (s.carts.set i _).findIdx? _ = some i
      rw [findIdx?_set_of_eq _ s.carts i cart _ 0 hci (by simp), hidx]
    · show (s.carts.set i _)[i]? = _
      rw [List.getElem?_set_self (List.getElem?_eq_some_iff.mp hci).1]

/-- An `addToCart` of a package whose line is the last of the user's cart: the
quantity of that line is raised and the other lines stay. -/
theorem addToCart_last_line {s : Store} {user : Actor} {packageId i : Nat}
    {before : List CartItem} {q0 : Int}
    (hpkg : (Package.findById s.packages packageId).isSome = true)
    (hfind : Cart.findOne s user.id
      = some (i, { user := user.id,
                   items := before ++ [{ package := packageId, quantity := q0 }] }))
    (hvalid : ∀ c ∈ s.carts, CartSchema.validate c = true)
    (hnew : ∀ item ∈ before, item.package ≠ packageId)
    {q : Int} (hq : 1 ≤ q) :
    Cart.findOne (addToCart s user packageId (some q)).1 user.id
      = some (i, { user := user.id,
                   items := before ++ [{ package := packageId, quantity := q0 + q }] }) := by
  obtain ⟨pkg, hpkg⟩ := Option.isSome_iff_exists.mp hpkg
  obtain ⟨hidx, hci, _⟩ := Cart.findOne_eq_some hfind
  have hline := findIdx?_append_last q0 hnew
  have hcv := hvalid _ (List.getElem?_mem hci)
  have hv := CartSchema.validate_modify_add hcv hq before.length
  dsimp only at hv
  have hstore : (addToCart s user packageId (some q)).1
      = { s with carts := (s.carts.set i
            { user := user.id,
              items := before ++ [{ package := packageId, quantity := q0 + q }] }) } := by
    unfold addToCart
    dsimp only
    rw [hpkg, hfind]
    dsimp only
    rw [hline]
    dsimp only
    unfold Cart.save
    rw [Option.getD_some, if_pos hv]
    dsimp only
    rw [cartReply_fst, modify_append_length]
  rw [hstore]
  apply Cart.findOne_of_findIdx
  · show (s.carts.set i _).findIdx? _ = some i
    rw [findIdx?_set_of_eq _ s.carts i _ _ 0 hci (by simp), hidx]
  · show (s.carts.set i _)[i]? = _
    rw [List.getElem?_set_self (List.getElem?_eq_some_iff.mp hci).1]

/-- Two `addToCart` calls scheduled one after the other are two calls of the
handler in a row. -/
theorem addToCart.interleave_oneAfterTheOther (user : Actor) (packageId : Nat)
    (quantity : Option Int) (s : Store) :
    addToCart.interleave user packageId quantity oneAfterTheOther (s, .start, .start)
      = ((addToCart (addToCart s user packageId quantity).1 user packageId quantity).1,
         .replied (addToCart s user packageId quantity).2,
         .replied (addToCart (addToCart s user packageId quantity).1 user packageId quantity).2) := by
  have h1 := addToCart.alone_eq user packageId quantity s
  have h2 := addToCart.alone_eq user packageId quantity (addToCart s user packageId quantity).1
  unfold addToCart.alone at h1 h2
  dsimp only at h1 h2
  simp only [oneAfterTheOther, addToCart.interleave]
  rw [h1]
  dsimp only
  rw [h2]

/-- C28, counterexample: two `addToCart` calls of user 1 for one unit of
package 10 that both load the cart before either writes it.  On `catalogStore`,
where the user has no cart, both calls are answered 200 with a line of
quantity 1 and two carts are left, each with one line of quantity 1; the cart
the user is shown next holds quantity 1.  On `oneAddStore`, where the cart
holds one unit already, the same schedule leaves quantity 2 where the calls one
after the other leave 3. -/
theorem C28_counterexample :
    addToCart.interleave { id := 1, role := "user" } 10 (some 1) bothLoadFirst
        (catalogStore, .start, .start)
      = ({ catalogStore with
            carts := [{ user := 1, items := [{ package := 10, quantity := 1 }] },
                      { user := 1, items := [{ package := 10, quantity := 1 }] }] },
         .replied (.json 200 ({ user := 1, items := [{ package := 10, quantity := 1 }] }, 20)),
         .replied (.json 200 ({ user := 1, items := [{ package := 10, quantity := 1 }] }, 20)))
    ∧ Cart.findOne (addToCart.interleave { id := 1, role := "user" } 10 (some 1) bothLoadFirst
        (catalogStore, .start, .start)).1 1
      = some (0, { user := 1, items := [{ package := 10, quantity := 1 }] })
    ∧ oneAddStore.carts = [{ user := 1, items := [{ package := 10, quantity := 1 }] }]
    ∧ (addToCart.interleave { id := 1, role := "user" } 10 (some 1) oneAfterTheOther
        (oneAddStore, .start, .start)).1.carts
      = [{ user := 1, items := [{ package := 10, quantity := 3 }] }]
    ∧ (addToCart.interleave { id := 1, role := "user" } 10 (some 1) bothLoadFirst
        (oneAddStore, .start, .start)).1.carts
      = [{ user := 1, items := [{ package := 10, quantity := 2 }] }] := by
  decide

/-- C28, as amended: two `addToCart` calls of one user for one unit of the same
package that run one after the other, the second starting when the first has
replied, are two calls of the handler in a row; in a reachable state in which
the catalog lists the package and the user has no line for it, the cart of the
user then holds the lines it had followed by a single line for the package, of
quantity 2. -/
theorem C28_addToCart_one_after_the_other (s : Store) (hs : Reachable s) (user : Actor)
    (packageId : Nat)
    (hpkg : (Package.findById s.packages packageId).isSome = true)
    (hnew : ∀ item ∈ Cart.linesOf s user.id, item.package ≠ packageId) :
    addToCart.interleave user packageId (some 1) oneAfterTheOther (s, .start, .start)
      = ((addToCart (addToCart s user packageId (some 1)).1 user packageId (some 1)).1,
         .replied (addToCart s user packageId (some 1)).2,
         .replied (addToCart (addToCart s user packageId (some 1)).1 user packageId (some 1)).2)
    ∧ (∃ i, Cart.findOne
          (addToCart.interleave user packageId (some 1) oneAfterTheOther (s, .start, .start)).1
          user.id
        = some (i, { user := user.id,
                     items := Cart.linesOf s user.id
                       ++ [{ package := packageId, quantity := 2 }] }))
    ∧ (Cart.linesOf s user.id ++ [({ package := packageId, quantity := 2 } : CartItem)]).filter
          (fun item => decide (item.package = packageId))
        = [{ package := packageId, quantity := 2 }] := by
  have hseq := addToCart.interleave_oneAfterTheOther user packageId (some 1) s
  have hvalid : ∀ c ∈ s.carts, CartSchema.validate c = true :=
    fun c hc => (Reachable.carts_all_ok hs c hc).2
  have hvalid1 : ∀ c ∈ (addToCart s user packageId (some 1)).1.carts,
      CartSchema.validate c = true :=
    fun c hc => (addToCart_carts_ok s user packageId (some 1)
      (Reachable.carts_all_ok hs) c hc).2
  obtain ⟨i, hfirst, hpackages⟩ :=
    addToCart_new_line hpkg hvalid hnew (show (1 : Int) ≤ 1 by decide)
  have hpkg1 : (Package.findById (addToCart s user packageId (some 1)).1.packages
      packageId).isSome = true := by
    rw [hpackages]; exact hpkg
  have hsecond := addToCart_last_line hpkg1 hfirst hvalid1 hnew (show (1 : Int) ≤ 1 by decide)
  refine ⟨hseq, ⟨i, ?_⟩, ?_⟩
  · rw [hseq]
    exact hsecond
  · rw [List.filter_append]
    have hnone : (Cart.linesOf s user.id).filter
        (fun item => decide (item.package = packageId)) = [] := by
      rw [List.filter_eq_nil_iff]
      intro x hx
      simpa using hnew x hx
    rw [hnone]
    simp

/-- Witness for `C28_addToCart_one_after_the_other`: user 1 adds package 10
twice, one call after the other, on `catalogStore`, where no user has a cart. -/
theorem C28_addToCart_one_after_the_other_witness :
    Reachable catalogStore
    ∧ Cart.linesOf catalogStore 1 = []
    ∧ ∃ i, Cart.findOne
          (addToCart.interleave { id := 1, role := "user" } 10 (some 1) oneAfterTheOther
            (catalogStore, .start, .start)).1 1
        = some (i, { user := 1,
                     items := Cart.linesOf catalogStore 1
                       ++ [{ package := 10, quantity := 2 }] }) :=
  ⟨Reachable.init [] [{ id := 10, price := 20 }], by decide,
   (C28_addToCart_one_after_the_other catalogStore
      (Reachable.init [] [{ id := 10, price := 20 }]) { id := 1, role := "user" } 10
      (by decide) (by decide)).2.1⟩

/-! ## C29: what asking for cash on delivery does to the order -/

/-- The handler `createCashOnDeliveryPayment` in closed form, from a success
reply: the order it read, the payment it created and the order it stored. -/
theorem createCashOnDeliveryPayment_of_json {s t : Store} {user : Actor} {orderId now code : Nat}
    {payment : Payment} {order1 : Order}
    (h : createCashOnDeliveryPayment s user orderId now = (t, .json code (payment, order1))) :
    ∃ order, Order.findById s orderId = some order
      ∧ order.user = user.id ∧ order.paymentStatus = "pending"
      ∧ t.orders = s.orders.set orderId order1
      ∧ order1 =
          (if order.status = some "pending" then
            ({ order with paymentMethod := "cash-on-delivery",
                          paymentId := some s.payments.length } : Order).withStatus
              (some "confirmed") now user.id
          else { order with paymentMethod := "cash-on-delivery",
                            paymentId := some s.payments.length }) := by
  unfold createCashOnDeliveryPayment at h
  split at h
  · exact absurd h (by simp)
  · rename_i order hfind
    dsimp only at h
    split at h
    · exact absurd h (by simp)
    · rename_i hown
      split at h
      · exact absurd h (by simp)
      · rename_i hpending
        split at h
        · exact absurd h (by simp)
        · rename_i s1 hcreate
          rw [Payment.create_payment_eq_ok] at hcreate
          split at h
          · exact absurd h (by simp)
          · rename_i s2 hsave
            rw [Order.save_order_eq_ok] at hsave
            simp only [Prod.mk.injEq, Reply.json.injEq] at h
            obtain ⟨ht, _, _, ho1⟩ := h
            refine ⟨order, hfind, not_not.mp hown, not_not.mp hpending, ?_, ho1.symm⟩
            rw [← ht, hsave.2, hcreate.2, ← ho1]

/-- C29: whenever `createCashOnDeliveryPayment` replies with success, the order
it returns is the order now stored under that id; its payment status is
`pending`, as it was, and its payment method is `cash-on-delivery`; if the
status was `pending` it is now `confirmed` and the history is the old one with
exactly one `confirmed` entry appended; otherwise status and history are as
they were. -/
theorem C29_cashOnDelivery_effect (s t : Store) (user : Actor) (orderId now code : Nat)
    (payment : Payment) (order1 : Order)
    (h : createCashOnDeliveryPayment s user orderId now = (t, .json code (payment, order1))) :
    ∃ order, Order.findById s orderId = some order
      ∧ Order.findById t orderId = some order1
      ∧ order.paymentStatus = "pending"
      ∧ order1.paymentStatus = "pending"
      ∧ order1.paymentMethod = "cash-on-delivery"
      ∧ (order.status = some "pending" →
          order1.status = some "confirmed"
          ∧ order1.statusHistory = order.statusHistory ++
              [{ status := some "confirmed", timestamp := now, updatedBy := user.id }])
      ∧ (order.status ≠ some "pending" →
          order1.status = order.status ∧ order1.statusHistory = order.statusHistory) := by
  obtain ⟨order, hfind, _, hpending, ht, ho1⟩ := createCashOnDeliveryPayment_of_json h
  obtain ⟨a, ha, _⟩ := Order.findById_eq_some.mp hfind
  have hlt : orderId < s.orders.length := (List.getElem?_eq_some_iff.mp ha).1
  have hidem := Order.findById_applyDefaults hfind
  have hload : order1.applyDefaults = order1 := by
    rw [ho1]
    split
    · rfl
    · exact congrArg
        (fun o : Order => ({ o with paymentMethod := "cash-on-delivery",
                                    paymentId := some s.payments.length } : Order)) hidem
  refine ⟨order, hfind, ?_, hpending, ?_, ?_, ?_, ?_⟩
  · have h2 : t.orders[orderId]? = some order1 := by
      rw [ht, List.getElem?_set_self hlt]
    rw [Order.findById_of_stored h2, hload]
  · rw [ho1]; split
    · exact hpending
    · exact hpending
  · rw [ho1]; split <;> rfl
  · intro hst
    rw [ho1, if_pos hst]
    exact ⟨rfl, rfl⟩
  · intro hst
    rw [ho1, if_neg hst]
    exact ⟨rfl, rfl⟩

/-- Witness for `C29_cashOnDelivery_effect`: the owner asks for cash on delivery
for the pending order 0 of `checkedOutStore`, which becomes confirmed, and for
the confirmed order 0 of `sampleStore`, whose status and history stay. -/
theorem C29_cashOnDelivery_effect_witness :
    (∃ order, Order.findById checkedOutStore 0 = some order
      ∧ Order.findById cashStore 0 = some cashOrder
      ∧ order.paymentStatus = "pending"
      ∧ cashOrder.paymentStatus = "pending"
      ∧ cashOrder.paymentMethod = "cash-on-delivery"
      ∧ (order.status = some "pending" →
          cashOrder.status = some "confirmed"
          ∧ cashOrder.statusHistory = order.statusHistory ++
              [{ status := some "confirmed", timestamp := 6, updatedBy := 1 }])
      ∧ (order.status ≠ some "pending" →
          cashOrder.status = order.status ∧ cashOrder.statusHistory = order.statusHistory))
    ∧ createCashOnDeliveryPayment sampleStore { id := 1, role := "user" } 0 6
        = ({ sampleStore with
              payments := [sampleCashPayment]
              orders := [{ sampleOrder with paymentMethod := "cash-on-delivery",
                                            paymentId := some 0 }] },
           .json 200 (sampleCashPayment,
             { sampleOrder with paymentMethod := "cash-on-delivery", paymentId := some 0 })) :=
  ⟨C29_cashOnDelivery_effect checkedOutStore cashStore { id := 1, role := "user" } 0 6 200
      sampleCashPayment cashOrder (by decide),
   by decide⟩

/-! ## C30: settling a cash payment twice -/

/-- The handler `markCashPaymentAsPaid` in closed form for a cash-on-delivery
payment whose order is stored and valid. -/
theorem markCashPaymentAsPaid_of_cash {s : Store} {paymentId : Nat} {payment : Payment}
    {order : Order} (hpay : Payment.findById s paymentId = some payment)
    (hcod : payment.paymentMethod = "cash-on-delivery")
    (hfind : Order.findById s payment.order = some order)
    (hvalid : OrderSchema.validate order = true) :
    markCashPaymentAsPaid s paymentId
      = ({ s with
            payments := s.payments.set paymentId { payment with status := "successful" }
            orders := s.orders.set payment.order { order with paymentStatus := "paid" } },
         .json 200 { payment with status := "successful" }) := by
  have hpv : PaymentSchema.validate { payment with status := "successful" } = true := by
    simp [PaymentSchema.validate, hcod, paymentMethodEnum, paymentRecordStatusEnum]
  have hov : OrderSchema.validate { order with paymentStatus := "paid" } = true :=
    OrderSchema.validate_paid hvalid order.paymentId
  have hne : ¬ payment.paymentMethod ≠ "cash-on-delivery" := not_not.mpr hcod
  unfold Order.findById at hfind
  simp only [markCashPaymentAsPaid, hpay, hne, if_false, Payment.save, hpv, if_true,
    Order.findById, hfind, Order.save, hov]

/-- C30: for a cash-on-delivery payment whose order is stored (and valid, as
every order of a reachable state is), whatever the status of the payment, one
call of `markCashPaymentAsPaid` replies 200 and leaves the payment with status
`successful` and the order with payment status `paid`; a second call replies
200 with the same payment and leaves the store exactly as after the first. -/
theorem C30_markCashPaymentAsPaid_idempotent (s : Store) (paymentId : Nat) (payment : Payment)
    (order : Order) (hpay : Payment.findById s paymentId = some payment)
    (hcod : payment.paymentMethod = "cash-on-delivery")
    (hfind : Order.findById s payment.order = some order)
    (hvalid : OrderSchema.validate order = true) :
    markCashPaymentAsPaid s paymentId
      = ({ s with
            payments := s.payments.set paymentId { payment with status := "successful" }
            orders := s.orders.set payment.order { order with paymentStatus := "paid" } },
         .json 200 { payment with status := "successful" })
    ∧ Payment.findById (markCashPaymentAsPaid s paymentId).1 paymentId
        = some { payment with status := "successful" }
    ∧ Order.findById (markCashPaymentAsPaid s paymentId).1 payment.order
        = some { order with paymentStatus := "paid" }
    ∧ markCashPaymentAsPaid (markCashPaymentAsPaid s paymentId).1 paymentId
        = ((markCashPaymentAsPaid s paymentId).1,
           .json 200 { payment with status := "successful" }) := by
  have hfirst := markCashPaymentAsPaid_of_cash hpay hcod hfind hvalid
  have hplt : paymentId < s.payments.length := (List.getElem?_eq_some_iff.mp hpay).1
  obtain ⟨a, ha, _⟩ := Order.findById_eq_some.mp hfind
  have holt : payment.order < s.orders.length := (List.getElem?_eq_some_iff.mp ha).1
  have hload : ({ order with paymentStatus := "paid" } : Order).applyDefaults
      = { order with paymentStatus := "paid" } :=
    congrArg (fun o : Order => ({ o with paymentStatus := "paid" } : Order))
      (Order.findById_applyDefaults hfind)
  have hp1 : Payment.findById (markCashPaymentAsPaid s paymentId).1 paymentId
      = some { payment with status := "successful" } := by
    rw [hfirst]
    unfold Payment.findById
    exact List.getElem?_set_self hplt
  have ho1 : Order.findById (markCashPaymentAsPaid s paymentId).1 payment.order
      = some { order with paymentStatus := "paid" } := by
    have h2 : (markCashPaymentAsPaid s paymentId).1.orders[payment.order]?
        = some { order with paymentStatus := "paid" } := by
      rw [hfirst]
      exact List.getElem?_set_self holt
    rw [Order.findById_of_stored h2, hload]
  refine ⟨hfirst, hp1, ho1, ?_⟩
  have hsecond := markCashPaymentAsPaid_of_cash hp1 hcod ho1
    (OrderSchema.validate_paid hvalid order.paymentId)
  rw [hsecond, hfirst]
  simp only [List.set_set]

/-- Witness for `C30_markCashPaymentAsPaid_idempotent`: the refunded cash payment
0 of `refundedStore` is marked successful and its order paid, and a second call
changes nothing. -/
theorem C30_markCashPaymentAsPaid_idempotent_witness :
    Payment.findById refundedStore 0 = some { sampleCashPayment with status := "refunded" }
    ∧ markCashPaymentAsPaid refundedStore 0
        = ({ refundedStore with
              payments := [{ sampleCashPayment with status := "successful" }]
              orders := [{ sampleOrder with paymentStatus := "paid" }] },
           .json 200 { sampleCashPayment with status := "successful" })
    ∧ markCashPaymentAsPaid (markCashPaymentAsPaid refundedStore 0).1 0
        = ((markCashPaymentAsPaid refundedStore 0).1,
           .json 200 { sampleCashPayment with status := "successful" }) :=
  ⟨by decide,
   (C30_markCashPaymentAsPaid_idempotent refundedStore 0
      { sampleCashPayment with status := "refunded" } sampleOrder
      (by decide) (by decide) (by decide) (by decide)).1,
   (C30_markCashPaymentAsPaid_idempotent refundedStore 0
      { sampleCashPayment with status := "refunded" } sampleOrder
      (by decide) (by decide) (by decide) (by decide)).2.2.2⟩

end Laundry
